import Mathlib

/-!
# nginx-upstream-serverlist: the server-list parser, the diff engine and the snapshot writer

A shallow embedding of `ngx_http_upstream_serverlist.c`.  Byte strings (`ngx_str_t`, `u_char *`
ranges) are lists of natural numbers, C arrays are lists, and every loop of the source is a
recursive function of its own.  The last section of definitions keeps the memory that the
names of the live servers and the cached ETag point into.
-/

namespace Serverlist

/-! ## Data model -/

/-- Record `ngx_addr_t` of nginx: one resolved socket address, with the raw bytes of the
`struct sockaddr`, its length and its printed form. -/
structure ngx_addr_t where
  sockaddr : List Nat
  socklen : Nat
  name : List Nat
deriving DecidableEq, Repr

/-- Record `ngx_http_upstream_server_t` of nginx, restricted to the fields this module reads or
writes (nginx 1.11.5 or later, where `max_conns` exists).  The C field `naddrs` is the length of
`addrs`.  `weight`, `max_conns`, `max_fails` and `down` are `ngx_uint_t`, `backup` is a one-bit
field and `fail_timeout` is a signed `time_t`. -/
structure ngx_http_upstream_server_t where
  name : List Nat
  addrs : List ngx_addr_t
  weight : Nat
  max_conns : Nat
  max_fails : Nat
  fail_timeout : Int
  down : Nat
  backup : Nat
deriving DecidableEq, Repr

/-- Field `naddrs` of a server record. -/
def ngx_http_upstream_server_t.naddrs (s : ngx_http_upstream_server_t) : Nat := s.addrs.length

/-- Size of `struct sockaddr` in bytes: the length `sizeof *a1->sockaddr` of line 961. -/
def sizeof_sockaddr : Nat := 16

/-- Test `ngx_memcmp(a, b, n) == 0`: the first `n` bytes of both ranges agree. -/
def ngx_memcmp_eq (a b : List Nat) (n : Nat) : Bool := a.take n == b.take n

/-! ## Diff engine: `upstream_servers_changed` (lines 924-980) -/

/-- Condition of lines 956-961: both addresses have the same printed name, the same `socklen`
and the same leading `sizeof (struct sockaddr)` bytes. -/
def addr_equal (a1 a2 : ngx_addr_t) : Bool :=
  a1.name.length == a2.name.length &&
  ngx_memcmp_eq a1.name a2.name a1.name.length &&
  a1.socklen == a2.socklen &&
  ngx_memcmp_eq a1.sockaddr a2.sockaddr sizeof_sockaddr

/-- Loop over `l` (lines 954-964): `true` when the loop is left by `break`, that is when some
address of the second server equals `a1`; `false` when `l` reaches `s2->naddrs`. -/
def addr_loop_l (a1 : ngx_addr_t) : List ngx_addr_t → Bool
  | [] => false
  | a2 :: rest => if addr_equal a1 a2 then true else addr_loop_l a1 rest

/-- Loop over `k` (lines 952-969): `false` when the function returns 1 at line 967, `true` when
every address of the first server was found. -/
def addr_loop_k : List ngx_addr_t → List ngx_addr_t → Bool
  | [], _ => true
  | a1 :: rest, addrs2 => if addr_loop_l a1 addrs2 then addr_loop_k rest addrs2 else false

/-- Condition of lines 938-948, under which the candidate `s2` is skipped with `continue`. -/
def server_fields_differ (s1 s2 : ngx_http_upstream_server_t) : Bool :=
  s1.name.length != s2.name.length ||
  !(ngx_memcmp_eq s1.name s2.name s1.name.length) ||
  s1.weight != s2.weight ||
  s1.naddrs != s2.naddrs ||
  s1.max_conns != s2.max_conns ||
  s1.max_fails != s2.max_fails ||
  s1.fail_timeout != s2.fail_timeout ||
  s1.backup != s2.backup ||
  s1.down != s2.down

/-- Loop over `j` (lines 936-976) for one old server `s1`: candidates whose fields differ are
skipped; at the first candidate whose fields agree the address loop decides, either leaving the
loop with `break` (`true`) or returning 1 from the function (`false`).  When no candidate is left
`j` has reached `new->nelts` and the function returns 1 (`false`). -/
def server_loop_j (s1 : ngx_http_upstream_server_t) : List ngx_http_upstream_server_t → Bool
  | [] => false
  | s2 :: rest =>
    if server_fields_differ s1 s2 then server_loop_j s1 rest
    else addr_loop_k s1.addrs s2.addrs

/-- Loop over `i` (lines 934-977): `true` when it runs to its end, `false` when the function
returns 1 from inside. -/
def server_loop_i : List ngx_http_upstream_server_t → List ngx_http_upstream_server_t → Bool
  | [], _ => true
  | s1 :: rest, new => if server_loop_j s1 new then server_loop_i rest new else false

/-- Function `upstream_servers_changed`: 1 for changed, 0 for unchanged. -/
def upstream_servers_changed (old new : List ngx_http_upstream_server_t) : Nat :=
  if old.length != new.length then 1
  else if server_loop_i old new then 0
  else 1

/-- The scalar fields compared by lines 938-948. -/
def same_fields (s1 s2 : ngx_http_upstream_server_t) : Prop :=
  s1.name = s2.name ∧ s1.weight = s2.weight ∧ s1.addrs.length = s2.addrs.length ∧
    s1.max_conns = s2.max_conns ∧ s1.max_fails = s2.max_fails ∧
    s1.fail_timeout = s2.fail_timeout ∧ s1.backup = s2.backup ∧ s1.down = s2.down

/-! ## C and nginx library functions used by the parser

These are not part of the module.  `isalnum` and `strncmp` are the C library functions (in the
"C" locale); `ngx_strlchr`, `ngx_atoi` and `ngx_parse_time` are nginx core functions
(`src/core/ngx_string.h`, `src/core/ngx_string.c`, `src/core/ngx_parse.c`), transcribed for a
64-bit platform.  Address resolution (`ngx_parse_url`, which may query the DNS) is a parameter
of the parser. -/

/-- C library `isalnum` in the "C" locale: an ASCII digit or letter. -/
def isalnum (c : Nat) : Bool :=
  (48 ≤ c && c ≤ 57) || (65 ≤ c && c ≤ 90) || (97 ≤ c && c ≤ 122)

/-- Test `ngx_strncmp(s1, s2, n) == 0`, where `ngx_strncmp` is the C `strncmp`: at most `n` bytes
are compared, and the comparison stops at the first difference or at a NUL byte.  Reading past
the last byte of a list gives NUL.  For the literal `s2` this is its terminator.  For `s1` the
list is the memory at the pointer: `server_option` passes the token alone, which is right when
the byte that follows the token differs from the bytes of the literals, as every delimiter of
the body does; `server_option_mem` passes the token with the bytes that follow it, which
matters for a token at the very end of the body. -/
def ngx_strncmp_eq : List Nat → List Nat → Nat → Bool
  | _, _, 0 => true
  | s1, s2, n + 1 =>
    if s1.headD 0 != s2.headD 0 then false
    else if s1.headD 0 == 0 then true
    else ngx_strncmp_eq s1.tail s2.tail n

/-- Function `ngx_strlchr(p, last, c)`: offset of the first byte `c` in the range, if any. -/
def ngx_strlchr : List Nat → Nat → Option Nat
  | [], _ => none
  | b :: rest, c => if b == c then some 0 else (ngx_strlchr rest c).map (· + 1)

/-- Constant `NGX_MAX_INT_T_VALUE` on a 64-bit platform. -/
def NGX_MAX_INT_T_VALUE : Nat := 9223372036854775807

/-- Constant `NGX_ERROR`. -/
def NGX_ERROR : Int := -1

/-- Loop of `ngx_atoi` over the remaining bytes, with the value read so far. -/
def ngx_atoi_loop : List Nat → Nat → Int
  | [], value => value
  | c :: rest, value =>
    if c < 48 || c > 57 then NGX_ERROR
    else if value ≥ NGX_MAX_INT_T_VALUE / 10 &&
        (value > NGX_MAX_INT_T_VALUE / 10 || c - 48 > NGX_MAX_INT_T_VALUE % 10) then NGX_ERROR
    else ngx_atoi_loop rest (value * 10 + (c - 48))

/-- Function `ngx_atoi(line, n)`: the decimal number written by the bytes, `NGX_ERROR` for the
empty range, a byte that is no digit, or a value above `NGX_MAX_INT_T_VALUE`. -/
def ngx_atoi (line : List Nat) : Int :=
  if line.length == 0 then NGX_ERROR else ngx_atoi_loop line 0

/-- Unit branch of `ngx_parse_time` for `is_sec = 1`: for a unit byte and the current step,
the new step, the bound `max` and the `scale`; `none` stands for `return NGX_ERROR`.  Steps are
numbered as in the C enum: `st_start = 0`, `st_year`, `st_month`, `st_week`, `st_day`, `st_hour`,
`st_min`, `st_sec = 7`, `st_msec`, `st_last = 9`.  The argument `next` is the byte after the
unit, looked at by the `m` case (`ms` is refused when `is_sec` is set). -/
def ngx_parse_time_unit (c : Nat) (next : Option Nat) (step : Nat) : Option (Nat × Nat × Nat) :=
  if c == 121 then
    if step > 0 then none
    else some (1, NGX_MAX_INT_T_VALUE / (60 * 60 * 24 * 365), 60 * 60 * 24 * 365)
  else if c == 77 then
    if step ≥ 2 then none
    else some (2, NGX_MAX_INT_T_VALUE / (60 * 60 * 24 * 30), 60 * 60 * 24 * 30)
  else if c == 119 then
    if step ≥ 3 then none
    else some (3, NGX_MAX_INT_T_VALUE / (60 * 60 * 24 * 7), 60 * 60 * 24 * 7)
  else if c == 100 then
    if step ≥ 4 then none
    else some (4, NGX_MAX_INT_T_VALUE / (60 * 60 * 24), 60 * 60 * 24)
  else if c == 104 then
    if step ≥ 5 then none
    else some (5, NGX_MAX_INT_T_VALUE / (60 * 60), 60 * 60)
  else if c == 109 then
    if next == some 115 then none
    else if step ≥ 6 then none
    else some (6, NGX_MAX_INT_T_VALUE / 60, 60)
  else if c == 115 then
    if step ≥ 7 then none
    else some (7, NGX_MAX_INT_T_VALUE, 1)
  else if c == 32 then
    if step ≥ 7 then none
    else some (9, NGX_MAX_INT_T_VALUE, 1)
  else none

/-- Main loop of `ngx_parse_time` for `is_sec = 1`, over the remaining bytes.  The flag `skip`
is set right after a unit, while the inner loop that passes over blanks is running. -/
def ngx_parse_time_loop : List Nat → Nat → Nat → Nat → Bool → Bool → Int
  | [], value, total, _, valid, _ =>
    if !valid then NGX_ERROR
    else if total > NGX_MAX_INT_T_VALUE - value then NGX_ERROR
    else ((total + value : Nat) : Int)
  | c :: rest, value, total, step, valid, skip =>
    if skip && c == 32 then ngx_parse_time_loop rest value total step valid true
    else if 48 ≤ c && c ≤ 57 then
      if value ≥ NGX_MAX_INT_T_VALUE / 10 &&
          (value > NGX_MAX_INT_T_VALUE / 10 || c - 48 > NGX_MAX_INT_T_VALUE % 10) then NGX_ERROR
      else ngx_parse_time_loop rest (value * 10 + (c - 48)) total step true false
    else
      match ngx_parse_time_unit c rest.head? step with
      | none => NGX_ERROR
      | some (step1, max, scale) =>
        if value > max then NGX_ERROR
        else if total > NGX_MAX_INT_T_VALUE - value * scale then NGX_ERROR
        else ngx_parse_time_loop rest 0 (total + value * scale) step1 valid true

/-- Function `ngx_parse_time(line, 1)`: a duration in seconds, or `NGX_ERROR`. -/
def ngx_parse_time (line : List Nat) : Int := ngx_parse_time_loop line 0 0 0 false false

/-! ## Server-list parser (lines 772-922) -/

/-- Function `is_valid_arg_char`: alphanumeric or one of `=`, `.`, `-`, `_`, `:`. -/
def is_valid_arg_char (c : Nat) : Bool :=
  isalnum c || c == 61 || c == 46 || c == 45 || c == 95 || c == 58

/-- Function `get_one_arg` on the range `[buf, buf_end)`: `none` for `NULL`; otherwise the token
`arg` and the range `[arg_end, buf_end)` that is left. -/
def get_one_arg (buf : List Nat) : Option (List Nat × List Nat) :=
  let pos := buf.dropWhile (fun c => !is_valid_arg_char c)
  if pos.length == 0 then none
  else some (pos.takeWhile is_valid_arg_char, pos.dropWhile is_valid_arg_char)

/-- Function `get_one_line` on the range `[buf, buf_end)`: the line and the range that starts
at the position returned. -/
def get_one_line (buf : List Nat) : List Nat × List Nat :=
  match ngx_strlchr buf 10 with
  | none => (buf, [])
  | some pos => (buf.take pos, buf.drop (pos + 1))

/-- Bytes of the literal `server`. -/
def lit_server : List Nat := [115, 101, 114, 118, 101, 114]
/-- Bytes of the literal `weight=`. -/
def lit_weight : List Nat := [119, 101, 105, 103, 104, 116, 61]
/-- Bytes of the literal `max_conns=`. -/
def lit_max_conns : List Nat := [109, 97, 120, 95, 99, 111, 110, 110, 115, 61]
/-- Bytes of the literal `max_fails=`. -/
def lit_max_fails : List Nat := [109, 97, 120, 95, 102, 97, 105, 108, 115, 61]
/-- Bytes of the literal `fail_timeout=`. -/
def lit_fail_timeout : List Nat := [102, 97, 105, 108, 95, 116, 105, 109, 101, 111, 117, 116, 61]
/-- Bytes of the literal `down`. -/
def lit_down : List Nat := [100, 111, 119, 110]
/-- Bytes of the literal `backup`. -/
def lit_backup : List Nat := [98, 97, 99, 107, 117, 112]

/-- Conversion of an `ngx_int_t` to `ngx_uint_t` on assignment. -/
def to_uint (x : Int) : Nat := (x % 18446744073709551616).toNat

/-- Lines 854-864: the record pushed for a line whose address resolved. -/
def new_server (url : List Nat) (addrs : List ngx_addr_t) : ngx_http_upstream_server_t :=
  { name := url, addrs := addrs, weight := 1, max_conns := 0, max_fails := 1,
    fail_timeout := 10, down := 0, backup := 0 }

/-- Lines 867-917: the effect of a token after the address on the record `server` points at.
Both `continue` and the end of the branch chain go on with the next token. -/
def server_option (arg : List Nat) (s : ngx_http_upstream_server_t) :
    ngx_http_upstream_server_t :=
  if ngx_strncmp_eq arg lit_weight 7 then
    if ngx_atoi (arg.drop 7) == NGX_ERROR || ngx_atoi (arg.drop 7) ≤ 0 then s
    else { s with weight := to_uint (ngx_atoi (arg.drop 7)) }
  else if ngx_strncmp_eq arg lit_max_conns 10 then
    if ngx_atoi (arg.drop 10) == NGX_ERROR then s
    else { s with max_conns := to_uint (ngx_atoi (arg.drop 10)) }
  else if ngx_strncmp_eq arg lit_max_fails 10 then
    if ngx_atoi (arg.drop 10) == NGX_ERROR then s
    else { s with max_fails := to_uint (ngx_atoi (arg.drop 10)) }
  else if ngx_strncmp_eq arg lit_fail_timeout 13 then
    if ngx_parse_time (arg.drop 13) == NGX_ERROR then s
    else { s with fail_timeout := ngx_parse_time (arg.drop 13) }
  else if ngx_strncmp_eq arg lit_down 4 then { s with down := 1 }
  else if ngx_strncmp_eq arg lit_backup 6 then { s with backup := 1 }
  else if arg.length == 1 && arg.headD 0 == 59 then s
  else s

/-- Write through the pointer `server`, which points at the element pushed last. -/
def update_last (f : ngx_http_upstream_server_t → ngx_http_upstream_server_t) :
    List ngx_http_upstream_server_t → List ngx_http_upstream_server_t
  | [] => []
  | [s] => [f s]
  | s :: rest => s :: update_last f rest

/-- The `while` loop of lines 832-918 over the tokens of one line, with the flags
`first_arg_found` and `second_arg_found` and the array `servers`.  The parameter `ngx_parse_url`
gives the resolved addresses of a token, or `none` when `ngx_parse_url` does not return `NGX_OK`.
Every round consumes at least one byte of the line, so `fuel` above the length of the line is
never used up. -/
def line_loop (ngx_parse_url : List Nat → Option (List ngx_addr_t)) :
    Nat → List Nat → Bool → Bool → List ngx_http_upstream_server_t →
    List ngx_http_upstream_server_t
  | 0, _, _, _, servers => servers
  | fuel + 1, line, first_arg_found, second_arg_found, servers =>
    match get_one_arg line with
    | none => servers
    | some (curr_arg, line_pos) =>
      if !first_arg_found then
        if !(ngx_strncmp_eq curr_arg lit_server curr_arg.length) then servers
        else line_loop ngx_parse_url fuel line_pos true second_arg_found servers
      else if !second_arg_found then
        match ngx_parse_url curr_arg with
        | none => servers
        | some addrs =>
          line_loop ngx_parse_url fuel line_pos first_arg_found true
            (servers ++ [new_server curr_arg addrs])
      else
        line_loop ngx_parse_url fuel line_pos first_arg_found second_arg_found
          (update_last (server_option curr_arg) servers)

/-- The `do ... while` loop of lines 825-919 over the lines of the body.  Every round consumes
at least one byte of a non-empty body, so `fuel` above the length of the body is never used
up. -/
def get_servers_loop (ngx_parse_url : List Nat → Option (List ngx_addr_t)) :
    Nat → List Nat → List ngx_http_upstream_server_t → List ngx_http_upstream_server_t
  | 0, _, servers => servers
  | fuel + 1, body, servers =>
    if (get_one_line body).2.length > 0 then
      get_servers_loop ngx_parse_url fuel (get_one_line body).2
        (line_loop ngx_parse_url ((get_one_line body).1.length + 1) (get_one_line body).1
          false false servers)
    else
      line_loop ngx_parse_url ((get_one_line body).1.length + 1) (get_one_line body).1
        false false servers

/-- Function `get_servers`: the array of server records parsed from the body. -/
def get_servers (ngx_parse_url : List Nat → Option (List ngx_addr_t)) (body : List Nat) :
    List ngx_http_upstream_server_t :=
  get_servers_loop ngx_parse_url (body.length + 1) body []

/-- One round of the `do ... while` loop of `get_servers` started on an empty array: the
records that one line of the body contributes. -/
def parse_line (ngx_parse_url : List Nat → Option (List ngx_addr_t)) (line : List Nat) :
    List ngx_http_upstream_server_t :=
  line_loop ngx_parse_url (line.length + 1) line false false []

/-- What every record built by `get_servers` satisfies: the name is a token that resolved to
the addresses of the record, and the numbers are in the range the parser accepts. -/
def parsed_ok (ngx_parse_url : List Nat → Option (List ngx_addr_t))
    (s : ngx_http_upstream_server_t) : Prop :=
  s.name ≠ [] ∧ (∀ c ∈ s.name, is_valid_arg_char c = true) ∧
    ngx_parse_url s.name = some s.addrs ∧
    1 ≤ s.weight ∧ s.weight ≤ NGX_MAX_INT_T_VALUE ∧ s.max_conns ≤ NGX_MAX_INT_T_VALUE ∧
    s.max_fails ≤ NGX_MAX_INT_T_VALUE ∧ 0 ≤ s.fail_timeout ∧
    s.fail_timeout ≤ NGX_MAX_INT_T_VALUE ∧ s.down ≤ 1 ∧ s.backup ≤ 1

/-- Key of an address under the comparison of lines 956-961. -/
def addr_key (a : ngx_addr_t) : List Nat × Nat × List Nat :=
  (a.name, a.socklen, a.sockaddr.take sizeof_sockaddr)

/-- The comparison rule of the diff engine for two server records: the scalar fields and the
number of addresses agree, and every address of the first equals some address of the second. -/
def descriptor_match (s1 s2 : ngx_http_upstream_server_t) : Prop :=
  same_fields s1 s2 ∧ ∀ a ∈ s1.addrs, ∃ b ∈ s2.addrs, addr_equal a b = true

/-- Equality of two server records in the words of the specification: name, weight,
max_conns, max_fails, fail_timeout, backup and down all match and the resolved address lists are
identical as sets (an address counts as the same address when `addr_equal` holds). -/
def spec_descriptor_equal (s1 s2 : ngx_http_upstream_server_t) : Prop :=
  s1.name = s2.name ∧ s1.weight = s2.weight ∧ s1.max_conns = s2.max_conns ∧
    s1.max_fails = s2.max_fails ∧ s1.fail_timeout = s2.fail_timeout ∧
    s1.backup = s2.backup ∧ s1.down = s2.down ∧
    (∀ a ∈ s1.addrs, ∃ b ∈ s2.addrs, addr_equal a b = true) ∧
    (∀ b ∈ s2.addrs, ∃ a ∈ s1.addrs, addr_equal a b = true)

/-- Verdict "unchanged" in the words of the specification: the same number of records, and
every old record has a new record equal to it. -/
def spec_unchanged (old new : List ngx_http_upstream_server_t) : Prop :=
  old.length = new.length ∧ ∀ s ∈ old, ∃ t ∈ new, spec_descriptor_equal s t

/-- The server set `B` comes from `A` by permuting the address list inside each record (giving
`A1`) and then permuting the records. -/
def permuted (A B : List ngx_http_upstream_server_t) : Prop :=
  ∃ A1, List.Forall₂ (fun s t => t.addrs.Perm s.addrs ∧ t = { s with addrs := t.addrs }) A A1 ∧
    B.Perm A1

/-! ### Sample records -/

/-- Address 10.0.0.1:80 as `ngx_parse_url` gives it: a `sockaddr_in` of 16 bytes. -/
def addr1 : ngx_addr_t :=
  { sockaddr := [2, 0, 0, 80, 10, 0, 0, 1, 0, 0, 0, 0, 0, 0, 0, 0], socklen := 16,
    name := [49, 48, 46, 48, 46, 48, 46, 49, 58, 56, 48] }

/-- Address 10.0.0.2:80. -/
def addr2 : ngx_addr_t :=
  { sockaddr := [2, 0, 0, 80, 10, 0, 0, 2, 0, 0, 0, 0, 0, 0, 0, 0], socklen := 16,
    name := [49, 48, 46, 48, 46, 48, 46, 50, 58, 56, 48] }

/-- Record of the line `server 10.0.0.1:80;`. -/
def srv1 : ngx_http_upstream_server_t :=
  new_server [49, 48, 46, 48, 46, 48, 46, 49, 58, 56, 48] [addr1]

/-- Record of the line `server 10.0.0.2:80;`. -/
def srv2 : ngx_http_upstream_server_t :=
  new_server [49, 48, 46, 48, 46, 48, 46, 50, 58, 56, 48] [addr2]

/-- Record of a line `server svc:80;` whose host name has the given addresses. -/
def srv_svc (addrs : List ngx_addr_t) : ngx_http_upstream_server_t :=
  new_server [115, 118, 99, 58, 56, 48] addrs

/-! ### Sample bodies -/

/-- Token `10.0.0.1:80`. -/
def tok_addr1 : List Nat := [49, 48, 46, 48, 46, 48, 46, 49, 58, 56, 48]

/-- Token `10.0.0.2:80`. -/
def tok_addr2 : List Nat := [49, 48, 46, 48, 46, 48, 46, 50, 58, 56, 48]

/-- A resolver that knows the two sample addresses and nothing else. -/
def resolve_sample (url : List Nat) : Option (List ngx_addr_t) :=
  if url = tok_addr1 then some [addr1]
  else if url = tok_addr2 then some [addr2]
  else none

/-- Body of scenario 1: `server 10.0.0.1:80 weight=2;`, newline, `server 10.0.0.2:80 down;`,
newline. -/
def body_scenario1 : List Nat :=
  [115, 101, 114, 118, 101, 114, 32, 49, 48, 46, 48, 46, 48, 46, 49, 58, 56, 48, 32, 119, 101,
   105, 103, 104, 116, 61, 50, 59, 10, 115, 101, 114, 118, 101, 114, 32, 49, 48, 46, 48, 46,
   48, 46, 50, 58, 56, 48, 32, 100, 111, 119, 110, 59, 10]

/-- Body `s 10.0.0.1:80;` with its newline: the first token is the single letter `s`. -/
def body_short_keyword : List Nat :=
  [115, 32, 49, 48, 46, 48, 46, 48, 46, 49, 58, 56, 48, 59, 10]

/-- Body `server 10.0.0.1:80 downx;` with its newline. -/
def body_downx : List Nat :=
  [115, 101, 114, 118, 101, 114, 32, 49, 48, 46, 48, 46, 48, 46, 49, 58, 56, 48, 32, 100, 111,
   119, 110, 120, 59, 10]

/-- Body `server 10.0.0.1:80;` with its newline. -/
def body_plain : List Nat :=
  [115, 101, 114, 118, 101, 114, 32, 49, 48, 46, 48, 46, 48, 46, 49, 58, 56, 48, 59, 10]

/-! ## Snapshot writer (lines 982-1052) -/

/-- Constant `DUMP_BUFFER_SIZE`. -/
def DUMP_BUFFER_SIZE : Nat := 512

/-- Digit loop of `ngx_sprintf_num`: the decimal digits of `v`, least significant first, are put
in front of `acc`.  The C loop runs in a buffer of `NGX_INT64_LEN` bytes, which is the fuel. -/
def ngx_sprintf_num_loop : Nat → Nat → List Nat → List Nat
  | 0, _, acc => acc
  | fuel + 1, v, acc =>
    if v / 10 = 0 then (v % 10 + 48) :: acc
    else ngx_sprintf_num_loop fuel (v / 10) ((v % 10 + 48) :: acc)

/-- Function `ngx_sprintf_num` for a decimal without padding. -/
def ngx_sprintf_num (v : Nat) : List Nat := ngx_sprintf_num_loop 20 v []

/-- Conversion `%d` of `ngx_snprintf`: the argument is fetched as a C `int`, so that of a wider
argument the low 32 bits are printed, read as a signed number. -/
def sprintf_d (v : Int) : List Nat :=
  if v % 4294967296 < 2147483648 then ngx_sprintf_num (v % 4294967296).toNat
  else 45 :: ngx_sprintf_num (4294967296 - v % 4294967296).toNat

/-- Call `p = ngx_snprintf(p, bufsize - (p - buf), ...)`: the text is appended to what the buffer
holds, cut at the end of the buffer. -/
def ngx_snprintf (bufsize : Nat) (p : List Nat) (text : List Nat) : List Nat :=
  p ++ text.take (bufsize - p.length)

/-- Function `build_server_line`: the bytes written to a buffer of `bufsize` bytes. -/
def build_server_line (bufsize : Nat) (s : ngx_http_upstream_server_t) : List Nat :=
  let p := ngx_snprintf bufsize []
    ([115, 101, 114, 118, 101, 114, 32] ++ s.name ++
     [32, 119, 101, 105, 103, 104, 116, 61] ++ sprintf_d s.weight ++
     [32, 109, 97, 120, 95, 102, 97, 105, 108, 115, 61] ++ sprintf_d s.max_fails ++
     [32, 102, 97, 105, 108, 95, 116, 105, 109, 101, 111, 117, 116, 61] ++
       sprintf_d s.fail_timeout ++ [115])
  let p := ngx_snprintf bufsize p
    ([32, 109, 97, 120, 95, 99, 111, 110, 110, 115, 61] ++ sprintf_d s.max_conns)
  let p := if s.down != 0 then ngx_snprintf bufsize p [32, 100, 111, 119, 110] else p
  let p := if s.backup != 0 then ngx_snprintf bufsize p [32, 98, 97, 99, 107, 117, 112] else p
  ngx_snprintf bufsize p [59]

/-- Loop of lines 1037-1052 of `dump_serverlist`: the bytes written to the snapshot file, one
line per server followed by a newline, when every write succeeds. -/
def dump_serverlist (servers : List ngx_http_upstream_server_t) : List Nat :=
  servers.flatMap (fun s => build_server_line (DUMP_BUFFER_SIZE - 1) s ++ [10])

/-- The text of a server line when nothing is cut: what `build_server_line` writes into a
buffer that is large enough. -/
def server_line_text (s : ngx_http_upstream_server_t) : List Nat :=
  ([115, 101, 114, 118, 101, 114, 32] ++ s.name ++
     [32, 119, 101, 105, 103, 104, 116, 61] ++ sprintf_d s.weight ++
     [32, 109, 97, 120, 95, 102, 97, 105, 108, 115, 61] ++ sprintf_d s.max_fails ++
     [32, 102, 97, 105, 108, 95, 116, 105, 109, 101, 111, 117, 116, 61] ++
       sprintf_d s.fail_timeout ++ [115]) ++
    ([32, 109, 97, 120, 95, 99, 111, 110, 110, 115, 61] ++ sprintf_d s.max_conns) ++
    (if s.down != 0 then [32, 100, 111, 119, 110] else []) ++
    (if s.backup != 0 then [32, 98, 97, 99, 107, 117, 112] else []) ++ [59]

/-- End of a server line: the flags that are set, and the closing `;`. -/
def line_tail (down backup : Nat) : List Nat :=
  (if down != 0 then 32 :: lit_down else []) ++ (if backup != 0 then 32 :: lit_backup else []) ++
    [59]

/-- Token `10.0.0.1:80` written with 500 leading zeros, which `ngx_inet_addr` accepts. -/
def tok_long : List Nat := List.replicate 500 48 ++ tok_addr1

/-- A resolver that knows the long form of 10.0.0.1:80 and nothing else. -/
def resolve_long (url : List Nat) : Option (List ngx_addr_t) :=
  if url = tok_long then some [addr1] else none

/-- Body `server <tok_long>;` with its newline. -/
def body_long : List Nat := [115, 101, 114, 118, 101, 114, 32] ++ tok_long ++ [59, 10]

/-! ## Response headers (lines 1314-1370)

The header parser `phr_parse_response` (picohttpparser) and the date parser
`ngx_http_parse_time` (nginx core) are parameters of the poller model. -/

/-- Record `struct phr_header` of picohttpparser: name and value are `NULL` (`none`) or a byte
range whose length is `name_len`, `value_len`. -/
structure phr_header where
  name : Option (List Nat)
  value : Option (List Nat)
deriving DecidableEq, Repr, Inhabited

/-- What a call of `phr_parse_response` leaves behind: the return value, `*status`, the
entries written to the array `headers` and `*num_headers`. -/
structure phr_result where
  ret : Int
  status : Int
  headers : List phr_header
  num_headers : Nat
deriving DecidableEq, Repr, Inhabited

/-- Lower-case form of a byte as `ngx_strncasecmp` takes it: `A`..`Z` get the bit `0x20`. -/
def ngx_tolower (c : Nat) : Nat := if 65 ≤ c && c ≤ 90 then c + 32 else c

/-- Test `ngx_strncasecmp(s1, s2, n) == 0` (nginx core, `src/core/ngx_string.c`): at most `n`
bytes are compared without regard to the case of ASCII letters, and the comparison stops at the
first difference or at a NUL byte.  Reading past the last byte of a list gives NUL. -/
def ngx_strncasecmp_eq : List Nat → List Nat → Nat → Bool
  | _, _, 0 => true
  | s1, s2, n + 1 =>
    if ngx_tolower (s1.headD 0) == ngx_tolower (s2.headD 0) then
      if ngx_tolower (s1.headD 0) != 0 then ngx_strncasecmp_eq s1.tail s2.tail n
      else true
    else false

/-- Loop of `get_header` (lines 1323-1334) over the first `num_headers` entries of the array:
it stops at an entry whose name and value are both `NULL`, and returns the first entry for
which `ngx_strncasecmp(h->name, name, h->name_len)` is 0. -/
def get_header_loop (name : List Nat) : List phr_header → Option phr_header
  | [] => none
  | h :: rest =>
    if h.name.isNone && h.value.isNone then none
    else if ngx_strncasecmp_eq (h.name.getD []) name (h.name.getD []).length then some h
    else get_header_loop name rest

/-- Function `get_header`.  The array `headers` of `MAX_HTTP_RECEIVED_HEADERS` entries is
given by the entries written so far; the entries behind them are zero. -/
def get_header (headers : List phr_header) (num_headers : Nat) (name : List Nat) :
    Option phr_header :=
  if num_headers ≤ 0 then none
  else get_header_loop name
    ((headers ++ List.replicate (num_headers - headers.length) (⟨none, none⟩ : phr_header)).take num_headers)

/-- Bytes of the literal `Last-Modified`. -/
def lit_last_modified : List Nat :=
  [76, 97, 115, 116, 45, 77, 111, 100, 105, 102, 105, 101, 100]
/-- Bytes of the literal `Etag`. -/
def lit_etag : List Nat := [69, 116, 97, 103]
/-- Bytes of the literal `Content-Length`. -/
def lit_content_length : List Nat :=
  [67, 111, 110, 116, 101, 110, 116, 45, 76, 101, 110, 103, 116, 104]

/-- Function `get_last_modified_time`, with `ngx_http_parse_time` as a parameter. -/
def get_last_modified_time (ngx_http_parse_time : List Nat → Int) (headers : List phr_header)
    (num_headers : Nat) : Int :=
  match get_header headers num_headers lit_last_modified with
  | none => -1
  | some h => ngx_http_parse_time (h.value.getD [])

/-- Function `get_etag`: the value of the `Etag` header, empty when there is none. -/
def get_etag (headers : List phr_header) (num_headers : Nat) : List Nat :=
  match get_header headers num_headers lit_etag with
  | none => []
  | some h => h.value.getD []

/-- Function `get_content_length`. -/
def get_content_length (headers : List phr_header) (num_headers : Nat) : Int :=
  match get_header headers num_headers lit_content_length with
  | none => -1
  | some h => ngx_atoi (h.value.getD [])


/-! ## Poller state

The part of `main_conf`, `serverlist` and `service_conn` that the handlers read or write, with
a record of the calls into the host: every call of `ngx_http_upstream_init_round_robin`, every
snapshot written and every call of `refresh_upstream`. -/

/-- Record `serverlist`: a group.  `servers` is `upstream_conf->servers`, the live server
array, and `host` is `upstream_conf->host`; `new_pool` and `pool` tell whether the pointer is set; `etag` is the cached ETag, empty
when `etag.len` is 0. -/
structure serverlist where
  name : List Nat
  host : List Nat
  servers : List ngx_http_upstream_server_t
  new_pool : Bool
  pool : Bool
  last_modified : Int
  etag : List Nat
deriving DecidableEq, Repr, Inhabited

/-- The handler installed on an event of the connection. -/
inductive handler where
  | none_set
  | empty_handler
  | idle_conn_read_handler
  | send_to_service
  | recv_from_service
deriving DecidableEq, Repr, Inhabited

/-- Record `service_conn`: a poller.  `connection` tells whether `peer_conn.connection` is
set; `send` and `recv` hold the bytes between `start` and `last` of the buffers, `send_pos` is
`send.pos - send.start` and `recv_size` is `recv.end - recv.start`; `body_data` is the offset of
`body.data` from `recv.start`, `none` for `NULL`; a timer is `none` when it is not set and holds
its delay in milliseconds otherwise. -/
structure service_conn where
  connection : Bool
  read_handler : handler
  write_handler : handler
  send : List Nat
  send_pos : Nat
  recv_size : Nat
  recv : List Nat
  body_data : Option Nat
  body_len : Nat
  content_length : Int
  refresh_timer : Option Nat
  timeout_timer : Option Nat
  serverlists_start : Nat
  serverlists_end : Nat
  serverlists_curr : Nat
  start_time_set : Bool
deriving DecidableEq, Repr, Inhabited

/-- State of one poller and of the groups: `mcf->serverlists`, the poller `sc`, and the
record of calls into the host made so far. -/
structure poller_state where
  serverlists : List serverlist
  sc : service_conn
  pool_builds : List (List ngx_http_upstream_server_t)
  snapshots : List (List Nat × List Nat)
  refresh_calls : List Int
deriving DecidableEq, Repr, Inhabited

/-- The group `(serverlist *)mcf->serverlists.elts + i`. -/
def sl_at (sls : List serverlist) (i : Nat) : serverlist := sls.getD i default

/-- Write through the pointer `(serverlist *)mcf->serverlists.elts + i`. -/
def sl_update (f : serverlist → serverlist) : List serverlist → Nat → List serverlist
  | [], _ => []
  | sl :: rest, 0 => f sl :: rest
  | sl :: rest, i + 1 => sl :: sl_update f rest i

/-- What the host does during one run of a handler: the flags `ngx_terminate`, `ngx_exiting`,
`ngx_quit`; the outcome of allocations, of the event calls and of the snapshot file
operations; the library functions that are parameters of the model; the value of
`random_interval_ms()`; and the settings `refresh_timeout_ms` and `mcf->service_url` (`uri`,
`host`, and whether `family` is `AF_UNIX`).  `read_ready` is `c->read->ready` at line 548,
`connect_ret` the return value of `ngx_event_connect_peer`, and `idle_keep` tells that the idle
connection is neither closing nor timed out and that the peek of line 483 finds nothing to
read. -/
structure host_env where
  exiting : Bool
  ngx_parse_url : List Nat → Option (List ngx_addr_t)
  phr_parse_response : List Nat → Nat → Nat → phr_result
  ngx_http_parse_time : List Nat → Int
  ngx_http_time : Int → List Nat
  ngx_http_upstream_init_round_robin : List ngx_http_upstream_server_t → Bool
  conf_alloc_ok : Bool
  shm_ok : Bool
  dump_ok : Bool
  recv_alloc_ok : Bool
  create_pool_ok : Bool
  pstrdup_ok : Bool
  handle_read_event_ok : Bool
  handle_write_event_ok : Bool
  del_event_ok : Bool
  test_connect_ok : Bool
  read_ready : Bool
  idle_keep : Bool
  connect_ret : Int
  random_interval_ms : Nat
  refresh_timeout_ms : Nat
  service_url_uri : List Nat
  service_url_host : List Nat
  service_url_unix : Bool

/-! ## Pool swap: `refresh_upstream` (lines 1069-1312) -/

/-- Function `refresh_upstream` for the group at index `i`, with the body received.  The return
value comes with the new state.
* Lines 1078-1140 build a temporary configuration; when an allocation fails the function
  returns -1 (`conf_alloc_ok`).
* Lines 1153-1171: -1 when the body gives no record, or when the records are unchanged.
* Lines 1185-1232: the new array is installed and the pool is built; when the build fails the
  old array is put back, the pool is built once more and the function returns -1.
* Lines 1243-1257: -1 when the shared zone or a lock cannot be made (`shm_ok`).
* Line 1259 writes the snapshot (`dump_ok`: a dump directory is configured, the lock is
  obtained and the file operations succeed); lines 1261-1274 release `pool` and `new_pool` of
  every group.
The release of the old arrays (lines 1276-1310) is memory management and has no counterpart
here; `refresh_upstream_mem` follows the pointers into the receive buffer and tells the
allocations that are used unchecked from those that are checked. -/
def refresh_upstream (env : host_env) (st : poller_state) (i : Nat) (body : List Nat) :
    Int × poller_state :=
  if !env.conf_alloc_ok then (-1, st)
  else if (get_servers env.ngx_parse_url body).length ≤ 0 then (-1, st)
  else if upstream_servers_changed (sl_at st.serverlists i).servers
      (get_servers env.ngx_parse_url body) = 0 then (-1, st)
  else if !env.ngx_http_upstream_init_round_robin (get_servers env.ngx_parse_url body) then
    (-1, { st with
      pool_builds := st.pool_builds ++
        [get_servers env.ngx_parse_url body, (sl_at st.serverlists i).servers] })
  else if !env.shm_ok then
    (-1, { st with
      serverlists := sl_update
        (fun sl => { sl with servers := get_servers env.ngx_parse_url body }) st.serverlists i,
      pool_builds := st.pool_builds ++ [get_servers env.ngx_parse_url body] })
  else
    (0, { st with
      serverlists := (sl_update
        (fun sl => { sl with servers := get_servers env.ngx_parse_url body })
        st.serverlists i).map (fun sl => { sl with pool := false, new_pool := false }),
      pool_builds := st.pool_builds ++ [get_servers env.ngx_parse_url body],
      snapshots := st.snapshots ++
        (if env.dump_ok then
          [((sl_at st.serverlists i).host,
            dump_serverlist (get_servers env.ngx_parse_url body))]
         else []) })

/-! ## Receiving a response: `recv_from_service` (lines 1372-1651) -/

/-- Cast `(int)` of a `size_t`: the low 32 bits, read as a signed number. -/
def c_int (n : Nat) : Int := ((n : Int) + 2147483648) % 4294967296 - 2147483648

/-- What the socket holds for the next calls of `c->recv`: bytes that have arrived (a call
takes as many of them as the buffer has room for and leaves the rest), the end of the stream
(return value 0, or `ECONNRESET`), nothing yet (`NGX_AGAIN`), or an error. -/
inductive recv_event where
  | data (bytes : List Nat)
  | closed
  | again
  | error
deriving DecidableEq, Repr, Inhabited

/-- Local variables of `recv_from_service` that outlive a round of the receive loop: the array
`headers` with `num_headers`, and `status`.  They start as lines 1382-1386 set them. -/
structure recv_locals where
  headers : List phr_header
  num_headers : Nat
  status : Int
deriving DecidableEq, Repr, Inhabited

/-- Constant `MAX_HTTP_RECEIVED_HEADERS`. -/
def MAX_HTTP_RECEIVED_HEADERS : Nat := 32

/-- Local variables at the start of `recv_from_service`. -/
def recv_locals_init : recv_locals :=
  { headers := [], num_headers := MAX_HTTP_RECEIVED_HEADERS, status := 0 }

/-- The ways the receive loop of lines 1403-1517 is left: `break` to the apply step, `goto
exit`, `goto close_connection`, the `return` after the peer closed (lines 1495-1504) and the
`return` on `NGX_AGAIN` (line 1510). -/
inductive loop_exit where
  | to_apply
  | to_exit
  | to_close_connection
  | peer_closed
  | try_again
deriving DecidableEq, Repr, Inhabited

/-- Lines 1404-1425: when the buffer is full it is moved to one of twice the size; `none` when
the allocation fails. -/
def enlarge_recv (env : host_env) (sc : service_conn) : Option service_conn :=
  if sc.recv_size - sc.recv.length ≤ 0 then
    if env.recv_alloc_ok then some { sc with recv_size := sc.recv_size * 2 } else none
  else some sc

/-- Lines 1471-1494, after a complete parse with status 200: the length of the body is taken
from `Content-Length`, and the body received so far is measured against it. -/
def recv_headers_done (sc : service_conn) (locals : recv_locals) (ret : Int) :
    Option loop_exit × service_conn :=
  if get_content_length locals.headers locals.num_headers < 0 then
    (some loop_exit.to_close_connection, sc)
  else if c_int (sc.recv.length - ret.toNat) =
      get_content_length locals.headers locals.num_headers then
    (some loop_exit.to_apply,
      { sc with content_length := get_content_length locals.headers locals.num_headers,
                body_data := some ret.toNat, body_len := sc.recv.length - ret.toNat })
  else if c_int (sc.recv.length - ret.toNat) >
      get_content_length locals.headers locals.num_headers then
    (some loop_exit.to_close_connection,
      { sc with content_length := get_content_length locals.headers locals.num_headers,
                body_data := some ret.toNat, body_len := sc.recv.length - ret.toNat })
  else
    (none,
      { sc with content_length := get_content_length locals.headers locals.num_headers,
                body_data := some ret.toNat, body_len := sc.recv.length - ret.toNat })

/-- Lines 1444-1494: the headers are parsed from the start of the buffer; `prev_recv` is the
number of bytes the buffer held before the last read.  `none` stands for `continue`. -/
def recv_parse (env : host_env) (sc : service_conn) (locals : recv_locals) (prev_recv : Nat) :
    Option loop_exit × service_conn × recv_locals :=
  let r := env.phr_parse_response sc.recv locals.num_headers prev_recv
  let locals1 : recv_locals :=
    { headers := r.headers, num_headers := r.num_headers, status := r.status }
  if r.ret = -1 then (some loop_exit.to_close_connection, sc, locals1)
  else if r.ret = -2 then (none, sc, locals1)
  else if r.ret < 0 then (some loop_exit.to_close_connection, sc, locals1)
  else if r.status = 304 then (some loop_exit.to_exit, sc, locals1)
  else if r.status ≠ 200 then (some loop_exit.to_exit, sc, locals1)
  else ((recv_headers_done sc locals1 r.ret).1, (recv_headers_done sc locals1 r.ret).2, locals1)

/-- Lines 1428-1494: the bytes `got` (at least one) were read behind the bytes in the buffer.
`none` stands for `continue`. -/
def recv_got (env : host_env) (sc : service_conn) (locals : recv_locals) (got : List Nat) :
    Option loop_exit × service_conn × recv_locals :=
  if sc.content_length ≥ 0 then
    if c_int (sc.body_len + got.length) = sc.content_length then
      (some loop_exit.to_apply,
        { sc with recv := sc.recv ++ got, body_len := sc.body_len + got.length }, locals)
    else if c_int (sc.body_len + got.length) > sc.content_length then
      (some loop_exit.to_close_connection,
        { sc with recv := sc.recv ++ got, body_len := sc.body_len + got.length }, locals)
    else
      recv_parse env { sc with recv := sc.recv ++ got, body_len := sc.body_len + got.length }
        locals sc.recv.length
  else
    recv_parse env { sc with recv := sc.recv ++ got } locals sc.recv.length

/-- Number of rounds the receive loop can make on a socket: every round takes at least one
byte or one event. -/
def socket_size : List recv_event → Nat
  | [] => 0
  | recv_event.data bytes :: rest => bytes.length + 1 + socket_size rest
  | _ :: rest => 1 + socket_size rest

/-- The receive loop of lines 1403-1517.  A socket with nothing left answers `NGX_AGAIN`.
With `fuel` above `socket_size` the fuel is never used up. -/
def recv_loop (env : host_env) :
    Nat → service_conn → recv_locals → List recv_event →
    loop_exit × service_conn × recv_locals × List recv_event
  | 0, sc, locals, socket => (loop_exit.try_again, sc, locals, socket)
  | fuel + 1, sc, locals, socket =>
    match enlarge_recv env sc with
    | none => (loop_exit.to_close_connection, sc, locals, socket)
    | some sc1 =>
      match socket with
      | [] => (loop_exit.try_again, sc1, locals, [])
      | recv_event.again :: rest => (loop_exit.try_again, sc1, locals, rest)
      | recv_event.closed :: rest => (loop_exit.peer_closed, sc1, locals, rest)
      | recv_event.error :: rest => (loop_exit.to_close_connection, sc1, locals, rest)
      | recv_event.data bytes :: rest =>
        if (bytes.take (sc1.recv_size - sc1.recv.length)).length = 0 then
          (loop_exit.peer_closed, sc1, locals, rest)
        else
          match recv_got env sc1 locals (bytes.take (sc1.recv_size - sc1.recv.length)) with
          | (some e, sc2, locals2) =>
            (e, sc2, locals2,
              if (bytes.drop (sc1.recv_size - sc1.recv.length)).length = 0 then rest
              else recv_event.data (bytes.drop (sc1.recv_size - sc1.recv.length)) :: rest)
          | (none, sc2, locals2) =>
            recv_loop env fuel sc2 locals2
              (if (bytes.drop (sc1.recv_size - sc1.recv.length)).length = 0 then rest
               else recv_event.data (bytes.drop (sc1.recv_size - sc1.recv.length)) :: rest)

/-- Write to the group at index `i`, leaving everything else as it is. -/
def with_sl (st : poller_state) (i : Nat) (f : serverlist → serverlist) : poller_state :=
  { st with serverlists := sl_update f st.serverlists i }

/-- Write to the poller, leaving everything else as it is. -/
def with_sc (st : poller_state) (f : service_conn → service_conn) : poller_state :=
  { st with sc := f st.sc }

/-- Label `close_connection` (lines 1646-1650): the connection is closed, the timeout timer is
deleted and the refresh timer is set. -/
def close_connection (env : host_env) (st : poller_state) : poller_state :=
  with_sc st (fun sc => { sc with connection := false, timeout_timer := none,
                                  refresh_timer := some env.random_interval_ms })

/-- Label `exit` (lines 1590-1640): the cursor moves to the next group of the shard, or back
to the start of the shard after the last group.  A failing event call leads to
`close_connection`. -/
def exit_step (env : host_env) (st : poller_state) : poller_state :=
  if st.sc.serverlists_curr + 1 ≥ st.sc.serverlists_end then
    if !env.handle_read_event_ok then
      close_connection env (with_sc st (fun sc => { sc with
        serverlists_curr := sc.serverlists_start, start_time_set := false,
        write_handler := handler.empty_handler,
        read_handler := handler.idle_conn_read_handler }))
    else
      with_sc st (fun sc => { sc with
        serverlists_curr := sc.serverlists_start, start_time_set := false,
        write_handler := handler.empty_handler,
        read_handler := handler.idle_conn_read_handler,
        refresh_timer := some env.random_interval_ms, timeout_timer := none })
  else
    if !env.del_event_ok || !env.handle_write_event_ok then
      close_connection env (with_sc st (fun sc => { sc with
        serverlists_curr := sc.serverlists_curr + 1, content_length := -1, recv := [],
        body_data := none, body_len := 0 }))
    else
      with_sc st (fun sc => { sc with
        serverlists_curr := sc.serverlists_curr + 1, content_length := -1, recv := [],
        body_data := none, body_len := 0, timeout_timer := none })

/-- The bytes of `sc->body`. -/
def body_bytes (sc : service_conn) : List Nat :=
  match sc.body_data with
  | none => []
  | some off => (sc.recv.drop off).take sc.body_len

/-- Lines 1568-1588 and the label `exit`: what follows the return of `refresh_upstream` with
the value `ret` for the group at index `i`.  On failure both validators are reset and the new
pool is destroyed. -/
def after_refresh (env : host_env) (i : Nat) (ret : Int) (st : poller_state) : poller_state :=
  if ret < 0 then
    exit_step env (with_sl st i
      (fun sl => { sl with last_modified := -1, etag := [], new_pool := false }))
  else
    exit_step env (with_sl st i (fun sl => { sl with pool := sl.new_pool, new_pool := false }))

/-- Entry of a call of `refresh_upstream` in the record of calls. -/
def note_refresh (r : Int × poller_state) : poller_state :=
  { r.2 with refresh_calls := r.2.refresh_calls ++ [r.1] }

/-- Line 1568: the call of `refresh_upstream` for the group at index `i`, noted in the record
of calls, and what follows it. -/
def call_refresh (env : host_env) (i : Nat) (st : poller_state) : poller_state :=
  after_refresh env i (refresh_upstream env st i (body_bytes st.sc)).1
    (note_refresh (refresh_upstream env st i (body_bytes st.sc)))

/-- Lines 1556-1588 for the group at index `i`, with the ETag `etag` of the response and the
value `last_modified` of `get_last_modified_time`: the cached time is raised to a newer
`Last-Modified`; a response without ETag whose `Last-Modified` is not newer goes to `exit`;
without a valid `Last-Modified` the cached time is reset.  Then `refresh_upstream` is called. -/
def apply_last_modified (env : host_env) (i : Nat) (etag : List Nat) (last_modified : Int)
    (st : poller_state) : poller_state :=
  if last_modified ≥ 0 then
    if last_modified > (sl_at st.serverlists i).last_modified then
      call_refresh env i (with_sl st i (fun sl => { sl with last_modified := last_modified }))
    else if etag.length ≤ 0 then
      exit_step env (with_sl st i (fun sl => { sl with new_pool := false }))
    else call_refresh env i st
  else
    call_refresh env i (with_sl st i (fun sl => { sl with last_modified := -1 }))

/-- Lines 1519-1588, the apply step, for the group at index `i` (the cursor at the start of
the handler).  When `ngx_pstrdup` fails the C code leaves `etag.len` as it is and sets
`etag.data` to `NULL`; here the cached ETag keeps its bytes, and `apply_step_mem` follows the
pointer. -/
def apply_step (env : host_env) (i : Nat) (locals : recv_locals) (st : poller_state) :
    poller_state :=
  if !env.create_pool_ok then
    close_connection env (with_sl st i (fun sl => { sl with new_pool := false }))
  else if (get_etag locals.headers locals.num_headers).length > 0 then
    if (sl_at st.serverlists i).etag.length ≤ 0 ||
        !(ngx_strncasecmp_eq (sl_at st.serverlists i).etag
          (get_etag locals.headers locals.num_headers)
          (min (sl_at st.serverlists i).etag.length
            (get_etag locals.headers locals.num_headers).length)) then
      if !env.pstrdup_ok then
        close_connection env (with_sl st i (fun sl => { sl with new_pool := false }))
      else
        apply_last_modified env i (get_etag locals.headers locals.num_headers)
          (get_last_modified_time env.ngx_http_parse_time locals.headers locals.num_headers)
          (with_sl st i (fun sl => { sl with
            new_pool := true, etag := get_etag locals.headers locals.num_headers }))
    else
      exit_step env (with_sl st i (fun sl => { sl with new_pool := false }))
  else if (sl_at st.serverlists i).etag.length > 0 then
    apply_last_modified env i []
      (get_last_modified_time env.ngx_http_parse_time locals.headers locals.num_headers)
      (with_sl st i (fun sl => { sl with new_pool := true, etag := [] }))
  else
    apply_last_modified env i []
      (get_last_modified_time env.ngx_http_parse_time locals.headers locals.num_headers)
      (with_sl st i (fun sl => { sl with new_pool := true }))

/-- Function `recv_from_service`, run on a read event with what the socket holds; it returns
the new state and what is left on the socket.  The names of the live servers are values here;
`recv_from_service_mem` keeps them as pointers into the receive buffer. -/
def recv_from_service (env : host_env) (st : poller_state) (socket : List recv_event) :
    poller_state × List recv_event :=
  if env.exiting then (st, socket)
  else
    match recv_loop env (socket_size socket + 1) st.sc recv_locals_init socket with
    | (loop_exit.to_apply, sc, locals, rest) =>
      (apply_step env st.sc.serverlists_curr locals { st with sc := sc }, rest)
    | (loop_exit.to_exit, sc, _, rest) => (exit_step env { st with sc := sc }, rest)
    | (loop_exit.to_close_connection, sc, _, rest) =>
      (close_connection env { st with sc := sc }, rest)
    | (loop_exit.peer_closed, sc, _, rest) =>
      ({ st with sc := { sc with connection := false, timeout_timer := none,
                                 refresh_timer := some 1 } }, rest)
    | (loop_exit.try_again, sc, _, rest) => ({ st with sc := sc }, rest)

/-! ## Timeout, connect and send (lines 460-770) -/

/-- Function `refresh_timeout_handler`: the connection is closed, the pending `new_pool` of
the group under the cursor is destroyed and the refresh timer is set. -/
def refresh_timeout_handler (env : host_env) (st : poller_state) : poller_state :=
  if env.exiting then st
  else
    with_sc (with_sl st st.sc.serverlists_curr (fun sl => { sl with new_pool := false }))
      (fun sc => { sc with connection := false,
                           refresh_timer := some env.random_interval_ms })

/-- Function `idle_conn_read_handler`: the idle connection is kept, or closed. -/
def idle_conn_read_handler (env : host_env) (st : poller_state) : poller_state :=
  if env.exiting then st
  else if env.idle_keep && env.handle_read_event_ok then st
  else with_sc st (fun sc => { sc with connection := false })

/-- Constant `MAX_HTTP_REQUEST_SIZE`: the size of the send buffer. -/
def MAX_HTTP_REQUEST_SIZE : Nat := 1024

/-- Bytes of the request line up to the path: `GET ` and a blank. -/
def lit_get : List Nat := [71, 69, 84, 32]
/-- Bytes of ` HTTP/1.1` with the line end. -/
def lit_http11 : List Nat := [32, 72, 84, 84, 80, 47, 49, 46, 49, 13, 10]
/-- Bytes of `Host: localhost` with the line end. -/
def lit_host_localhost : List Nat :=
  [72, 111, 115, 116, 58, 32, 108, 111, 99, 97, 108, 104, 111, 115, 116, 13, 10]
/-- Bytes of `Host: `. -/
def lit_host : List Nat := [72, 111, 115, 116, 58, 32]
/-- Bytes of `If-Modified-Since: `. -/
def lit_if_modified_since : List Nat :=
  [73, 102, 45, 77, 111, 100, 105, 102, 105, 101, 100, 45, 83, 105, 110, 99, 101, 58, 32]
/-- Bytes of `If-None-Match: `. -/
def lit_if_none_match : List Nat :=
  [73, 102, 45, 78, 111, 110, 101, 45, 77, 97, 116, 99, 104, 58, 32]
/-- Bytes of `Connection: Keep-Alive`, its line end and the empty line. -/
def lit_connection_keep_alive : List Nat :=
  [67, 111, 110, 110, 101, 99, 116, 105, 111, 110, 58, 32, 75, 101, 101, 112, 45, 65, 108,
   105, 118, 101, 13, 10, 13, 10]
/-- Bytes of the line end. -/
def lit_crlf : List Nat := [13, 10]

/-- Lines 692-725 of `send_to_service`: the request for a group, written to the send buffer
of `MAX_HTTP_REQUEST_SIZE` bytes with `ngx_snprintf`. -/
def build_request (env : host_env) (sl : serverlist) : List Nat :=
  let p := ngx_snprintf MAX_HTTP_REQUEST_SIZE []
    (lit_get ++ env.service_url_uri ++
      (if env.service_url_uri.getLast? = some 47 then [] else [47]) ++ sl.name ++ lit_http11)
  let p := if env.service_url_unix then ngx_snprintf MAX_HTTP_REQUEST_SIZE p lit_host_localhost
    else ngx_snprintf MAX_HTTP_REQUEST_SIZE p (lit_host ++ env.service_url_host ++ lit_crlf)
  let p := if sl.last_modified ≥ 0 then
      ngx_snprintf MAX_HTTP_REQUEST_SIZE p
        (lit_if_modified_since ++ env.ngx_http_time sl.last_modified ++ lit_crlf)
    else p
  let p := if sl.etag.length > 0 then
      ngx_snprintf MAX_HTTP_REQUEST_SIZE p (lit_if_none_match ++ sl.etag ++ lit_crlf)
    else p
  ngx_snprintf MAX_HTTP_REQUEST_SIZE p lit_connection_keep_alive

/-- What `c->send` answers: a number of bytes sent, `NGX_AGAIN` (or 0), or an error. -/
inductive send_event where
  | sent (n : Nat)
  | again
  | error
deriving DecidableEq, Repr, Inhabited

/-- Label `fail` of `send_to_service` and of `connect_to_service`. -/
def send_fail (env : host_env) (st : poller_state) : poller_state := close_connection env st

/-- The send loop of lines 728-740: `true` when the buffer was sent to its end, `false` for
the `return` on `NGX_AGAIN`, `none` for an error; with the new `send_pos`. -/
def send_loop : Nat → List Nat → Nat → List send_event → Option Bool × Nat × List send_event
  | 0, _, pos, sends => (some false, pos, sends)
  | fuel + 1, buf, pos, sends =>
    if pos < buf.length then
      match sends with
      | [] => (some false, pos, [])
      | send_event.sent n :: rest =>
        if min n (buf.length - pos) = 0 then (some false, pos, rest)
        else send_loop fuel buf (pos + min n (buf.length - pos)) rest
      | send_event.again :: rest => (some false, pos, rest)
      | send_event.error :: rest => (none, pos, rest)
    else (some true, pos, sends)

/-- Lines 728-763 of `send_to_service`, on a state whose send buffer holds the request. -/
def send_request (env : host_env) (st : poller_state) (sends : List send_event) :
    poller_state × List send_event :=
  match send_loop (st.sc.send.length + 1) st.sc.send st.sc.send_pos sends with
  | (none, pos, rest) => (send_fail env (with_sc st (fun sc => { sc with send_pos := pos })), rest)
  | (some false, pos, rest) => (with_sc st (fun sc => { sc with send_pos := pos }), rest)
  | (some true, _, rest) =>
    if !env.del_event_ok || !env.handle_read_event_ok then
      (send_fail env (with_sc st (fun sc => { sc with send := [], send_pos := 0 })), rest)
    else (with_sc st (fun sc => { sc with send := [], send_pos := 0 }), rest)

/-- Function `send_to_service`, run on a write event. -/
def send_to_service (env : host_env) (st : poller_state) (sends : List send_event) :
    poller_state × List send_event :=
  if env.exiting then (st, sends)
  else if st.sc.serverlists_curr ≥ st.sc.serverlists_end then
    (send_fail env
      (with_sc st (fun sc => { sc with serverlists_curr := sc.serverlists_start })), sends)
  else if st.sc.send.length = 0 then
    if st.sc.serverlists_curr = 0 && !env.test_connect_ok then
      (send_fail env
        (with_sc st (fun sc => { sc with timeout_timer := some env.refresh_timeout_ms })), sends)
    else
      send_request env (with_sc st (fun sc => { sc with
        timeout_timer := some env.refresh_timeout_ms,
        send := build_request env (sl_at st.serverlists st.sc.serverlists_curr),
        send_pos := 0 })) sends
  else
    send_request env
      (with_sc st (fun sc => { sc with timeout_timer := some env.refresh_timeout_ms })) sends

/-- Constant `NGX_OK`. -/
def NGX_OK : Int := 0
/-- Constant `NGX_AGAIN`. -/
def NGX_AGAIN : Int := -2
/-- Constant `NGX_DONE`. -/
def NGX_DONE : Int := -4

/-- Lines 548-550 of `connect_to_service`: the call `c->read->handler(c->read)`. -/
def run_read_handler (env : host_env) (st : poller_state) (socket : List recv_event) :
    poller_state × List recv_event :=
  match st.sc.read_handler with
  | handler.recv_from_service => recv_from_service env st socket
  | handler.idle_conn_read_handler => (idle_conn_read_handler env st, socket)
  | _ => (st, socket)

/-- Lines 563-602 of `connect_to_service`, with the value `ret` of line 553 (-1 when no
connection was made): the buffers are reset, the handlers are installed, and after a connect
that returned `NGX_OK` the write handler is called at once. -/
def connect_setup (env : host_env) (ret : Int) (st : poller_state) (sends : List send_event) :
    poller_state × List send_event :=
  if !env.handle_write_event_ok || !env.del_event_ok then
    (send_fail env (with_sc st (fun sc => { sc with
      body_data := none, body_len := 0, recv := [], send := [], send_pos := 0,
      content_length := -1, write_handler := handler.send_to_service,
      read_handler := handler.recv_from_service })), sends)
  else if ret = NGX_OK then
    send_to_service env (with_sc st (fun sc => { sc with
      body_data := none, body_len := 0, recv := [], send := [], send_pos := 0,
      content_length := -1, write_handler := handler.send_to_service,
      read_handler := handler.recv_from_service })) sends
  else
    (with_sc st (fun sc => { sc with
      body_data := none, body_len := 0, recv := [], send := [], send_pos := 0,
      content_length := -1, write_handler := handler.send_to_service,
      read_handler := handler.recv_from_service }), sends)

/-- Function `connect_to_service`, the handler of the refresh timer.  When the read handler
called at line 549 closes the connection, line 569 writes through a `NULL` pointer: the model
stops in the state the read handler left. -/
def connect_to_service (env : host_env) (st : poller_state) (socket : List recv_event)
    (sends : List send_event) : poller_state × List recv_event × List send_event :=
  if env.exiting then (st, socket, sends)
  else if st.sc.connection then
    if env.read_ready then
      if (run_read_handler env (with_sc st (fun sc => { sc with start_time_set := true }))
          socket).1.sc.connection then
        ((connect_setup env (-1)
            (run_read_handler env (with_sc st (fun sc => { sc with start_time_set := true }))
              socket).1 sends).1,
          (run_read_handler env (with_sc st (fun sc => { sc with start_time_set := true }))
            socket).2,
          (connect_setup env (-1)
            (run_read_handler env (with_sc st (fun sc => { sc with start_time_set := true }))
              socket).1 sends).2)
      else
        ((run_read_handler env (with_sc st (fun sc => { sc with start_time_set := true }))
            socket).1,
          (run_read_handler env (with_sc st (fun sc => { sc with start_time_set := true }))
            socket).2, sends)
    else
      ((connect_setup env (-1) (with_sc st (fun sc => { sc with start_time_set := true }))
          sends).1, socket,
        (connect_setup env (-1) (with_sc st (fun sc => { sc with start_time_set := true }))
          sends).2)
  else if env.connect_ret ≠ NGX_DONE ∧ env.connect_ret ≠ NGX_OK ∧
      env.connect_ret ≠ NGX_AGAIN then
    (with_sc st (fun sc => { sc with start_time_set := true,
                                     refresh_timer := some env.random_interval_ms }),
      socket, sends)
  else
    ((connect_setup env env.connect_ret
        (with_sc st (fun sc => { sc with start_time_set := true, connection := true }))
        sends).1, socket,
      (connect_setup env env.connect_ret
        (with_sc st (fun sc => { sc with start_time_set := true, connection := true }))
        sends).2)

/-! ## Sharding: `init_process` (lines 384-458) -/

/-- Arithmetic of `ngx_uint_t`: a value modulo 2^64. -/
def u64 (x : Nat) : Nat := x % 18446744073709551616

/-- Lines 396-401: the block size for `n` groups and `c` pollers. -/
def blocksize (n c : Nat) : Nat :=
  if n ≥ c then u64 (n + u64 (c - 1)) / c else 1

/-- Lines 435-436: `serverlists_start` of poller `i`. -/
def shard_start (n c i : Nat) : Nat := min n (u64 (0 + u64 (blocksize n c * i)))

/-- Lines 437-438: `serverlists_end` of poller `i`. -/
def shard_end (n c i : Nat) : Nat := min n (u64 (shard_start n c i + blocksize n c))

/-- The poller `i` as `init_process` sets it up for `n` groups and `c` pollers (lines
403-455): the buffers are empty, the cursor is at the start of the shard, and the refresh timer
is set when the shard is not empty. -/
def init_service_conn (env : host_env) (n c i : Nat) : service_conn :=
  { connection := false, read_handler := handler.none_set, write_handler := handler.none_set,
    send := [], send_pos := 0, recv_size := MAX_HTTP_REQUEST_SIZE, recv := [],
    body_data := none, body_len := 0, content_length := 0,
    refresh_timer := if shard_start n c i < n then some env.random_interval_ms else none,
    timeout_timer := none,
    serverlists_start := shard_start n c i, serverlists_end := shard_end n c i,
    serverlists_curr := shard_start n c i, start_time_set := false }

/-- Function `init_process` in a worker: the array `mcf->service_conns` for `n` groups and
`service_concurrency = c`. -/
def init_process (env : host_env) (n c : Nat) : List service_conn :=
  (List.range c).map (init_service_conn env n c)

/-! ### Sample responses and a sample host -/

/-- A header parser for sample responses, in the place of `phr_parse_response`: it knows the
header blocks of a table, each with its status and headers.  A buffer that begins with a block
of the table is complete, a buffer that is the beginning of a block is incomplete (-2), every
other buffer is malformed (-1). -/
def phr_table_parse (table : List (List Nat × Int × List phr_header)) (buf : List Nat)
    (_max_headers _last_len : Nat) : phr_result :=
  match table.find? (fun e => e.1.isPrefixOf buf) with
  | some e =>
    { ret := e.1.length, status := e.2.1, headers := e.2.2, num_headers := e.2.2.length }
  | none =>
    if table.any (fun e => buf.isPrefixOf e.1) then
      { ret := -2, status := 0, headers := [], num_headers := 0 }
    else { ret := -1, status := 0, headers := [], num_headers := 0 }

/-- Date `Thu, 01 Jan 1970 00:01:40 GMT`, which is the time 100. -/
def sample_date : List Nat :=
  [84, 104, 117, 44, 32, 48, 49, 32, 74, 97, 110, 32, 49, 57, 55, 48, 32, 48, 48, 58, 48, 49,
   58, 52, 48, 32, 71, 77, 84]

/-- Header block of a 304 response: the status line and the empty line. -/
def sample_head_304 : List Nat :=
  [72, 84, 84, 80, 47, 49, 46, 49, 32, 51, 48, 52, 32, 78, 111, 116, 32, 77, 111, 100, 105,
   102, 105, 101, 100, 13, 10, 13, 10]

/-- Header block of a 200 response with `Content-Length: 20` and `Last-Modified:` the sample
date, and no ETag. -/
def sample_head_200 : List Nat :=
  [72, 84, 84, 80, 47, 49, 46, 49, 32, 50, 48, 48, 32, 79, 75, 13, 10, 67, 111, 110, 116, 101,
   110, 116, 45, 76, 101, 110, 103, 116, 104, 58, 32, 50, 48, 13, 10, 76, 97, 115, 116, 45, 77,
   111, 100, 105, 102, 105, 101, 100, 58, 32, 84, 104, 117, 44, 32, 48, 49, 32, 74, 97, 110,
   32, 49, 57, 55, 48, 32, 48, 48, 58, 48, 49, 58, 52, 48, 32, 71, 77, 84, 13, 10, 13, 10]

/-- Body of 20 bytes: `server 10.0.0.2:80;` with its newline. -/
def sample_body : List Nat :=
  [115, 101, 114, 118, 101, 114, 32, 49, 48, 46, 48, 46, 48, 46, 50, 58, 56, 48, 59, 10]

/-- Table of the sample parser. -/
def sample_table : List (List Nat × Int × List phr_header) :=
  [(sample_head_304, 304, []),
   (sample_head_200, 200,
     [⟨some lit_content_length, some [50, 48]⟩, ⟨some lit_last_modified, some sample_date⟩])]

/-- A host in which every call succeeds, with the sample parser, the sample resolver, and
date functions that know the sample date only. -/
def env_sample : host_env :=
  { exiting := false,
    ngx_parse_url := resolve_sample,
    phr_parse_response := phr_table_parse sample_table,
    ngx_http_parse_time := fun v => if v = sample_date then 100 else -1,
    ngx_http_time := fun _ => sample_date,
    ngx_http_upstream_init_round_robin := fun _ => true,
    conf_alloc_ok := true, shm_ok := true, dump_ok := true, recv_alloc_ok := true,
    create_pool_ok := true, pstrdup_ok := true, handle_read_event_ok := true,
    handle_write_event_ok := true, del_event_ok := true, test_connect_ok := true,
    read_ready := false, idle_keep := true, connect_ret := 0,
    random_interval_ms := 5000, refresh_timeout_ms := 2000,
    service_url_uri := [47], service_url_host := tok_addr1, service_url_unix := false }

/-- A group named `g0` whose live set is the record of 10.0.0.1:80, with the cached ETag
`"v1"` and the cached time 100. -/
def sample_group0 : serverlist :=
  { name := [103, 48], host := [103, 48], servers := [srv1], new_pool := false, pool := false,
    last_modified := 100, etag := [34, 118, 49, 34] }

/-- A group named `g1` with an empty live set and no cached validator. -/
def sample_group1 : serverlist :=
  { name := [103, 49], host := [103, 49], servers := [], new_pool := false, pool := false,
    last_modified := -1, etag := [] }

/-- A poller on the shard of groups 0 and 1 with the cursor on group 0, connected, waiting
for a response. -/
def sample_conn : service_conn :=
  { connection := true, read_handler := handler.recv_from_service,
    write_handler := handler.send_to_service, send := [], send_pos := 0,
    recv_size := MAX_HTTP_REQUEST_SIZE, recv := [], body_data := none, body_len := 0,
    content_length := -1, refresh_timer := none, timeout_timer := some 2000,
    serverlists_start := 0, serverlists_end := 2, serverlists_curr := 0,
    start_time_set := true }

/-- The sample state: two groups and the sample poller, nothing recorded yet. -/
def sample_state : poller_state :=
  { serverlists := [sample_group0, sample_group1], sc := sample_conn, pool_builds := [],
    snapshots := [], refresh_calls := [] }

/-- The cursor after a group is done, in the words of the specification: the next index when
it is below the end of the shard, the start of the shard otherwise. -/
def advance_cursor (sc : service_conn) : Nat :=
  if sc.serverlists_curr + 1 < sc.serverlists_end then sc.serverlists_curr + 1
  else sc.serverlists_start

/-- Two states of a poller have the same shard and the same cursor. -/
def same_cursor (a b : service_conn) : Prop :=
  a.serverlists_start = b.serverlists_start ∧ a.serverlists_end = b.serverlists_end ∧
    a.serverlists_curr = b.serverlists_curr

/-- The sample state with the cursor on group 1, the last group of the shard. -/
def sample_state1 : poller_state :=
  { sample_state with sc := { sample_conn with serverlists_curr := 1 } }

/-- The sample host, except that `ngx_http_upstream_init_round_robin` fails. -/
def env_init_fails : host_env :=
  { env_sample with ngx_http_upstream_init_round_robin := fun _ => false }

/-- The sample 200 response in one piece: header block and body. -/
def sample_response_200 : List Nat := sample_head_200 ++ sample_body

/-- Headers of a response that declares `Content-Length: 2147483648`. -/
def big_locals : recv_locals :=
  { headers := [⟨some lit_content_length, some [50, 49, 52, 55, 52, 56, 51, 54, 52, 56]⟩],
    num_headers := 1, status := 200 }

/-- A poller whose buffer holds a header block of 85 bytes followed by exactly 2147483648
bytes of body. -/
def big_conn : service_conn :=
  { sample_conn with recv_size := 4294967296,
                     recv := sample_head_200 ++ List.replicate 2147483648 120 }

/-- The lines of the request before `If-None-Match`, as the format strings of lines 694-715
spell them, without the bound of the send buffer: the request line, the `Host` line, and
`If-Modified-Since` when a time is cached. -/
def request_head (env : host_env) (sl : serverlist) : List Nat :=
  (lit_get ++ env.service_url_uri ++
      (if env.service_url_uri.getLast? = some 47 then [] else [47]) ++ sl.name ++ lit_http11) ++
    (if env.service_url_unix then lit_host_localhost
     else lit_host ++ env.service_url_host ++ lit_crlf) ++
    (if sl.last_modified ≥ 0 then
      lit_if_modified_since ++ env.ngx_http_time sl.last_modified ++ lit_crlf
     else [])

/-- The request in full, as the format strings of lines 694-725 spell it for a group, without
the bound of the send buffer: the lines of `request_head`, `If-None-Match` when an ETag is
cached, and `Connection: Keep-Alive` with the empty line. -/
def request_text (env : host_env) (sl : serverlist) : List Nat :=
  request_head env sl ++
    (if sl.etag.length > 0 then lit_if_none_match ++ sl.etag ++ lit_crlf else []) ++
    lit_connection_keep_alive

/-- The sample group 0 with a cached ETag of 1000 bytes. -/
def long_etag_group : serverlist :=
  { sample_group0 with etag := List.replicate 1000 97 }

/-! ## Samples for the parser, the headers and the delivery of a response -/

/-- Body of two lines: a line without any token character, and the line of the record of
10.0.0.1:80. -/
def body_two_lines : List Nat := [32, 59, 10] ++ body_plain

/-- Headers of a response with a header `Et: x` before the header `ETag: "v2"`. -/
def headers_short_name : List phr_header :=
  [⟨some [69, 116], some [120]⟩, ⟨some [69, 84, 97, 103], some [34, 118, 50, 34]⟩]

/-- Headers of a response with the header `X-Note: a`, a continuation line ` b` (picohttpparser
gives it the name `NULL` of length 0) and the header `ETag: "v2"`. -/
def headers_folded : List phr_header :=
  [⟨some [88, 45, 78, 111, 116, 101], some [97]⟩, ⟨none, some [32, 98]⟩,
   ⟨some [69, 84, 97, 103], some [34, 118, 50, 34]⟩]

/-- The cursor of a poller indexes a group inside the shard of the poller. -/
def in_shard (sc : service_conn) : Prop :=
  sc.serverlists_start ≤ sc.serverlists_curr ∧ sc.serverlists_curr < sc.serverlists_end

/-- One step of a handler on the cursor: the shard is the same, and the cursor either stays or
moves on as `advance_cursor` says. -/
def shard_step (a b : service_conn) : Prop :=
  a.serverlists_start = b.serverlists_start ∧ a.serverlists_end = b.serverlists_end ∧
    (a.serverlists_curr = b.serverlists_curr ∨ a.serverlists_curr = advance_cursor b)

/-- Header block of a 200 response with `Content-Length: 20` and `ETag: "V1"`. -/
def sample_head_200_etag : List Nat :=
  [72, 84, 84, 80, 47, 49, 46, 49, 32, 50, 48, 48, 32, 79, 75, 13, 10, 67, 111, 110, 116, 101,
   110, 116, 45, 76, 101, 110, 103, 116, 104, 58, 32, 50, 48, 13, 10, 69, 84, 97, 103, 58, 32,
   34, 86, 49, 34, 13, 10, 13, 10]

/-- Table of a parser that knows the response with `ETag: "V1"`. -/
def sample_table_etag : List (List Nat × Int × List phr_header) :=
  [(sample_head_200_etag, 200,
     [⟨some lit_content_length, some [50, 48]⟩,
      ⟨some [69, 84, 97, 103], some [34, 86, 49, 34]⟩])]

/-- The sample host with the parser that knows the response with `ETag: "V1"`. -/
def env_etag : host_env :=
  { env_sample with phr_parse_response := phr_table_parse sample_table_etag }

/-- The 200 response with `ETag: "V1"` in one piece: header block and the sample body. -/
def sample_response_etag : List Nat := sample_head_200_etag ++ sample_body

/-! ## The parser and the handler over the memory they work on

The records above hold the name of a server and the cached ETag of a group as bytes.  In the C
code both are pointers.  `server->name` (line 856) is the token `curr_arg`, which points into
the body, and the body lies in the receive buffer of the poller: every response is read into
that buffer from its start (lines 563-566 and 1616 move `recv.last` back, and nothing clears the
bytes).  `sl->etag.data` (line 1539) points into the pool `new_pool` of the group, which is
destroyed at lines 1270-1273 of `refresh_upstream` when the swap succeeds.  The comparisons of
lines 867-910 read a fixed number of bytes at `curr_arg.data`, also behind a token that is
shorter.

The definitions of this section keep the memory: the bytes of the receive buffer as they lie
there, also behind the bytes received; for every live server the place its name points at; and
for the cached ETag whether `etag.data` is `NULL`.  A step at which the C code reads through a
null pointer, or hands the allocator a pointer it did not give out, has no result (`none`). -/

/-- The `len` bytes at the offset `off` of a region of memory.  Reading past the last byte of
the list gives NUL. -/
def read_mem (mem : List Nat) (off len : Nat) : List Nat :=
  (mem.drop off ++ List.replicate len 0).take len

/-- Lines 867-917 as they read memory: `arg` is the token (`curr_arg.len` bytes at
`curr_arg.data`) and `following` the bytes that lie behind it.  `ngx_strncmp` compares the
seven, ten, thirteen, four or six bytes at `curr_arg.data` whatever the length of the token is.
When the token is shorter than the keyword that matched, `curr_arg.len - 7` (or 10, 13) wraps
around as a `size_t`: `ngx_atoi` then stops with `NGX_ERROR` at the first byte that is no
digit or at the overflow of the value, and `ngx_parse_time` finds `last` below `p`, reads
nothing and returns `NGX_ERROR`; in both cases the record is left as it is. -/
def server_option_mem (arg following : List Nat) (s : ngx_http_upstream_server_t) :
    ngx_http_upstream_server_t :=
  if ngx_strncmp_eq (arg ++ following) lit_weight 7 then
    if arg.length < 7 then s
    else if ngx_atoi (arg.drop 7) == NGX_ERROR || ngx_atoi (arg.drop 7) ≤ 0 then s
    else { s with weight := to_uint (ngx_atoi (arg.drop 7)) }
  else if ngx_strncmp_eq (arg ++ following) lit_max_conns 10 then
    if arg.length < 10 then s
    else if ngx_atoi (arg.drop 10) == NGX_ERROR then s
    else { s with max_conns := to_uint (ngx_atoi (arg.drop 10)) }
  else if ngx_strncmp_eq (arg ++ following) lit_max_fails 10 then
    if arg.length < 10 then s
    else if ngx_atoi (arg.drop 10) == NGX_ERROR then s
    else { s with max_fails := to_uint (ngx_atoi (arg.drop 10)) }
  else if ngx_strncmp_eq (arg ++ following) lit_fail_timeout 13 then
    if arg.length < 13 then s
    else if ngx_parse_time (arg.drop 13) == NGX_ERROR then s
    else { s with fail_timeout := ngx_parse_time (arg.drop 13) }
  else if ngx_strncmp_eq (arg ++ following) lit_down 4 then { s with down := 1 }
  else if ngx_strncmp_eq (arg ++ following) lit_backup 6 then { s with backup := 1 }
  else if arg.length == 1 && arg.headD 0 == 59 then s
  else s

/-- A record of a server array together with the place `name.data` points at.  The field
`server` holds the record; the length of `server.name` is `name.len`.  `name_data` is
`some (size, off)` when `name.data` points at the offset `off` of the receive buffer of `size`
bytes (a poller gets a buffer of 1024 bytes and moves to one of twice the size when it is full,
so the size tells the buffers of a poller apart), and `none` when the name lies in memory that
no handler writes; then `server.name` holds its bytes.  For a record built by `get_servers`,
`server.name` holds the bytes the token had when the record was built. -/
structure live_server where
  server : ngx_http_upstream_server_t
  name_data : Option (Nat × Nat)
deriving DecidableEq, Repr

/-- Write through the pointer `server`, which points at the element pushed last. -/
def update_last_mem (f : ngx_http_upstream_server_t → ngx_http_upstream_server_t) :
    List live_server → List live_server
  | [] => []
  | [s] => [{ s with server := f s.server }]
  | s :: rest => s :: update_last_mem f rest

/-- The `while` loop of lines 832-918 over the tokens of one line, as `line_loop`, with the
memory around the line: `after` is what lies behind the line, `off` is the offset of `line`
from the start of the receive buffer of `size` bytes.  The resolver `ngx_parse_url_at` is asked
once for every token, and its answer may depend on the token asked for, which is told by its
offset. -/
def line_loop_mem (ngx_parse_url_at : Nat → List Nat → Option (List ngx_addr_t)) (size : Nat) :
    Nat → List Nat → List Nat → Nat → Bool → Bool → List live_server → List live_server
  | 0, _, _, _, _, _, servers => servers
  | fuel + 1, line, after, off, first_arg_found, second_arg_found, servers =>
    match get_one_arg line with
    | none => servers
    | some (curr_arg, line_pos) =>
      if !first_arg_found then
        if !(ngx_strncmp_eq curr_arg lit_server curr_arg.length) then servers
        else
          line_loop_mem ngx_parse_url_at size fuel line_pos after
            (off + (line.length - line_pos.length)) true second_arg_found servers
      else if !second_arg_found then
        match ngx_parse_url_at (off + (line.length - line_pos.length - curr_arg.length))
            curr_arg with
        | none => servers
        | some addrs =>
          line_loop_mem ngx_parse_url_at size fuel line_pos after
            (off + (line.length - line_pos.length)) first_arg_found true
            (servers ++ [{ server := new_server curr_arg addrs,
                           name_data := some
                             (size, off + (line.length - line_pos.length - curr_arg.length)) }])
      else
        line_loop_mem ngx_parse_url_at size fuel line_pos after
          (off + (line.length - line_pos.length)) first_arg_found second_arg_found
          (update_last_mem (server_option_mem curr_arg (line_pos ++ after)) servers)

/-- The `do ... while` loop of lines 825-919 over the lines of the body, as `get_servers_loop`,
with the memory around the body: `behind` is what lies behind the last byte of the body and
`off` the offset of `body` from the start of the receive buffer. -/
def get_servers_loop_mem (ngx_parse_url_at : Nat → List Nat → Option (List ngx_addr_t))
    (size : Nat) : Nat → List Nat → List Nat → Nat → List live_server → List live_server
  | 0, _, _, _, servers => servers
  | fuel + 1, body, behind, off, servers =>
    if (get_one_line body).2.length > 0 then
      get_servers_loop_mem ngx_parse_url_at size fuel (get_one_line body).2 behind
        (off + (body.length - (get_one_line body).2.length))
        (line_loop_mem ngx_parse_url_at size ((get_one_line body).1.length + 1)
          (get_one_line body).1 (body.drop (get_one_line body).1.length ++ behind) off
          false false servers)
    else
      line_loop_mem ngx_parse_url_at size ((get_one_line body).1.length + 1)
        (get_one_line body).1 (body.drop (get_one_line body).1.length ++ behind) off
        false false servers

/-- Function `get_servers` on a body that lies at the offset `off` of the receive buffer of
`size` bytes, with the bytes `behind` it in the buffer. -/
def get_servers_mem (ngx_parse_url_at : Nat → List Nat → Option (List ngx_addr_t))
    (size off : Nat) (body behind : List Nat) : List live_server :=
  get_servers_loop_mem ngx_parse_url_at size (body.length + 1) body behind off []

/-- Record `serverlist` with its pointers: `servers` is `upstream_conf->servers`; `etag` has
the length `etag.len` and holds the bytes that were copied to `etag.data`; `etag_null` tells
that `etag.data` is `NULL`.  When a handler starts, `etag.data` of a cached ETag that is not
`NULL` points into a pool that has been destroyed: the copy of line 1539 lies in `new_pool`,
which `refresh_upstream` destroys before it returns success (lines 1270-1273), and every other
way through the handler keeps the pointer it found or clears the etag. -/
structure live_group where
  name : List Nat
  host : List Nat
  servers : List live_server
  new_pool : Bool
  pool : Bool
  last_modified : Int
  etag : List Nat
  etag_null : Bool
deriving DecidableEq, Repr, Inhabited

/-- State of one poller and of the groups, with memory: `recv_mem` holds the bytes of the
receive buffer from `recv.start` on, the first `sc.recv.length` of them being the bytes
received, and `old_mem` the receive buffers the poller has left behind, each with its size. -/
structure mem_state where
  groups : List live_group
  sc : service_conn
  recv_mem : List Nat
  old_mem : List (Nat × List Nat)
  pool_builds : List (List ngx_http_upstream_server_t)
  snapshots : List (List Nat × List Nat)
  refresh_calls : List Int
deriving DecidableEq, Repr, Inhabited

/-- What the host does during one run of a handler, with what the memory view adds:
`ngx_parse_url_at` answers for the token at an offset of the buffer; `conf_alloc_crash` tells,
when an allocation of lines 1078-1133 fails, that it is one whose result is used unchecked
(`ngx_create_pool` at line 1078, `create_main_conf` at line 1088, `ngx_array_push` at line
1122); `free_aborts` tells that `ngx_free(sl)` at line 1308, which is given a pointer into the
array of groups, ends the process; `read_freed` gives, for the bytes once copied to
`etag.data`, what lies there now that the pool is destroyed. -/
structure mem_host where
  env : host_env
  ngx_parse_url_at : Nat → List Nat → Option (List ngx_addr_t)
  conf_alloc_crash : Bool
  free_aborts : Bool
  read_freed : List Nat → List Nat

/-- The receive buffer of `size` bytes among the buffers left behind. -/
def old_buffer : List (Nat × List Nat) → Nat → List Nat
  | [], _ => []
  | (n, bytes) :: rest, size => if n = size then bytes else old_buffer rest size

/-- A record as it is read through its pointers: `name.len` bytes at `name.data`, in the
receive buffer of `size` bytes with the content `mem` or in a buffer left behind. -/
def read_server (size : Nat) (mem : List Nat) (old : List (Nat × List Nat))
    (s : live_server) : ngx_http_upstream_server_t :=
  match s.name_data with
  | none => s.server
  | some (n, off) =>
    { s.server with
      name := read_mem (if n = size then mem else old_buffer old n) off s.server.name.length }

/-- The live server array of a group as the code reads it in the state `m`. -/
def read_servers (m : mem_state) (g : live_group) : List ngx_http_upstream_server_t :=
  g.servers.map (read_server m.sc.recv_size m.recv_mem m.old_mem)

/-- The group `(serverlist *)mcf->serverlists.elts + i`. -/
def grp_at (gs : List live_group) (i : Nat) : live_group := gs.getD i default

/-- Write through the pointer `(serverlist *)mcf->serverlists.elts + i`. -/
def grp_update (f : live_group → live_group) : List live_group → Nat → List live_group
  | [], _ => []
  | g :: rest, 0 => f g :: rest
  | g :: rest, i + 1 => g :: grp_update f rest i

/-- Write to the group at index `i`, leaving everything else as it is. -/
def with_grp (m : mem_state) (i : Nat) (f : live_group → live_group) : mem_state :=
  { m with groups := grp_update f m.groups i }

/-- A step that works on the poller alone (`exit_step`, `close_connection`), run on the poller
of a state with memory. -/
def on_sc (f : poller_state → poller_state) (m : mem_state) : mem_state :=
  { m with sc := (f { serverlists := [], sc := m.sc, pool_builds := [], snapshots := [],
                      refresh_calls := [] }).sc }

/-- The state after the receive loop has left the poller as `sc`.  The bytes received lie at
the start of the buffer and what was behind them is still there.  When the loop has moved to a
larger buffer (lines 1404-1425), the new buffer was zeroed and then filled, and the buffer the
handler started with is left behind with the bytes it held when it was full; the names that
point into it keep pointing there. -/
def after_recv (m : mem_state) (sc : service_conn) : mem_state :=
  if sc.recv_size = m.sc.recv_size then
    { m with sc := sc, recv_mem := sc.recv ++ m.recv_mem.drop sc.recv.length }
  else
    { m with sc := sc,
             recv_mem := sc.recv ++ List.replicate (sc.recv_size - sc.recv.length) 0,
             old_mem := (m.sc.recv_size, sc.recv.take m.sc.recv_size) :: m.old_mem }

/-- The bytes of `sc->body` as they lie in the buffer. -/
def body_of (m : mem_state) : List Nat :=
  match m.sc.body_data with
  | none => []
  | some off => read_mem m.recv_mem off m.sc.body_len

/-- The bytes that lie behind `sc->body` in the buffer. -/
def behind_body (m : mem_state) : List Nat :=
  match m.sc.body_data with
  | none => []
  | some off => m.recv_mem.drop (off + m.sc.body_len)

/-- Line 1153: the array `get_servers` builds from `sc->body`. -/
def parsed_servers (h : mem_host) (m : mem_state) : List live_server :=
  get_servers_mem h.ngx_parse_url_at m.sc.recv_size (m.sc.body_data.getD 0) (body_of m)
    (behind_body m)

/-- The records of an array as they are read in the state `m`. -/
def read_all (m : mem_state) (l : List live_server) : List ngx_http_upstream_server_t :=
  l.map (read_server m.sc.recv_size m.recv_mem m.old_mem)

/-- Function `refresh_upstream` for the group at index `i`, on `sc->body`, with memory.  The
branches are those of `refresh_upstream` above, and in addition:
* a failing allocation of lines 1078-1133 either is checked (`return -1`) or is used unchecked,
  which ends the process (`conf_alloc_crash`);
* a body with `data` `NULL` and a positive `len` ends the process in `get_one_line`;
* line 1160 reads the names of the live array through their pointers;
* the new array that is installed keeps pointing at the tokens in the receive buffer;
* on success, the pools of all groups are destroyed (the flags are cleared; the cached ETag
  keeps its pointer, see `live_group`); the calls of `ngx_array_destroy` at lines 1276-1292
  give memory back only for an array that is the last allocation of its pool, and are taken to
  leave the arrays of groups and pollers as they are; `ngx_free(sl)` at line 1308 either ends
  the process (`free_aborts`) or leaves the record of the group readable. -/
def refresh_upstream_mem (h : mem_host) (m : mem_state) (i : Nat) : Option (Int × mem_state) :=
  if !h.env.conf_alloc_ok then
    if h.conf_alloc_crash then none else some (-1, m)
  else if m.sc.body_data.isNone && decide (0 < m.sc.body_len) then none
  else if (parsed_servers h m).length ≤ 0 then some (-1, m)
  else if upstream_servers_changed (read_servers m (grp_at m.groups i))
      (read_all m (parsed_servers h m)) = 0 then some (-1, m)
  else if !h.env.ngx_http_upstream_init_round_robin (read_all m (parsed_servers h m)) then
    some (-1, { m with
      pool_builds := m.pool_builds ++
        [read_all m (parsed_servers h m), read_servers m (grp_at m.groups i)] })
  else if !h.env.shm_ok then
    some (-1, { m with
      groups := grp_update (fun g => { g with servers := parsed_servers h m }) m.groups i,
      pool_builds := m.pool_builds ++ [read_all m (parsed_servers h m)] })
  else if h.free_aborts then none
  else
    some (0, { m with
      groups := (grp_update (fun g => { g with servers := parsed_servers h m })
        m.groups i).map (fun g => { g with pool := false, new_pool := false }),
      pool_builds := m.pool_builds ++ [read_all m (parsed_servers h m)],
      snapshots := m.snapshots ++
        (if h.env.dump_ok then
          [((grp_at m.groups i).host, dump_serverlist (read_all m (parsed_servers h m)))]
         else []) })

/-- Lines 1568-1588 and the label `exit`, as `after_refresh`: on failure `ngx_memzero` clears
`etag.len` and `etag.data`. -/
def after_refresh_mem (h : mem_host) (i : Nat) (ret : Int) (m : mem_state) : mem_state :=
  if ret < 0 then
    on_sc (exit_step h.env) (with_grp m i
      (fun g => { g with last_modified := -1, etag := [], etag_null := true,
                         new_pool := false }))
  else
    on_sc (exit_step h.env)
      (with_grp m i (fun g => { g with pool := g.new_pool, new_pool := false }))

/-- Line 1568: the call of `refresh_upstream` for the group at index `i`, noted in the record
of calls, and what follows it. -/
def call_refresh_mem (h : mem_host) (i : Nat) (m : mem_state) : Option mem_state :=
  match refresh_upstream_mem h m i with
  | none => none
  | some (ret, m1) =>
    some (after_refresh_mem h i ret { m1 with refresh_calls := m1.refresh_calls ++ [ret] })

/-- Lines 1556-1588 for the group at index `i`, as `apply_last_modified`. -/
def apply_last_modified_mem (h : mem_host) (i : Nat) (etag : List Nat) (last_modified : Int)
    (m : mem_state) : Option mem_state :=
  if last_modified ≥ 0 then
    if last_modified > (grp_at m.groups i).last_modified then
      call_refresh_mem h i (with_grp m i (fun g => { g with last_modified := last_modified }))
    else if etag.length ≤ 0 then
      some (on_sc (exit_step h.env) (with_grp m i (fun g => { g with new_pool := false })))
    else call_refresh_mem h i m
  else
    call_refresh_mem h i (with_grp m i (fun g => { g with last_modified := -1 }))

/-- Lines 1519-1588, the apply step, for the group at index `i`, with memory.  Line 1537
compares the ETag of the response with the bytes at `sl->etag.data`: reading through `NULL`
ends the process, and otherwise the bytes are those the destroyed pool holds now.  Line 1539
stores the result of `ngx_pstrdup` in `etag.data` before it is checked: when the copy fails,
`etag.data` is `NULL` and `etag.len` is what it was (line 1545 is not reached). -/
def apply_step_mem (h : mem_host) (i : Nat) (locals : recv_locals) (m : mem_state) :
    Option mem_state :=
  if !h.env.create_pool_ok then
    some (on_sc (close_connection h.env) (with_grp m i (fun g => { g with new_pool := false })))
  else if (get_etag locals.headers locals.num_headers).length > 0 then
    if (grp_at m.groups i).etag.length > 0 && (grp_at m.groups i).etag_null then none
    else if (grp_at m.groups i).etag.length ≤ 0 ||
        !(ngx_strncasecmp_eq (h.read_freed (grp_at m.groups i).etag)
          (get_etag locals.headers locals.num_headers)
          (min (grp_at m.groups i).etag.length
            (get_etag locals.headers locals.num_headers).length)) then
      if !h.env.pstrdup_ok then
        some (on_sc (close_connection h.env)
          (with_grp m i (fun g => { g with new_pool := false, etag_null := true })))
      else
        apply_last_modified_mem h i (get_etag locals.headers locals.num_headers)
          (get_last_modified_time h.env.ngx_http_parse_time locals.headers locals.num_headers)
          (with_grp m i (fun g => { g with
            new_pool := true, etag := get_etag locals.headers locals.num_headers,
            etag_null := false }))
    else
      some (on_sc (exit_step h.env) (with_grp m i (fun g => { g with new_pool := false })))
  else if (grp_at m.groups i).etag.length > 0 then
    apply_last_modified_mem h i []
      (get_last_modified_time h.env.ngx_http_parse_time locals.headers locals.num_headers)
      (with_grp m i (fun g => { g with new_pool := true, etag := [], etag_null := true }))
  else
    apply_last_modified_mem h i []
      (get_last_modified_time h.env.ngx_http_parse_time locals.headers locals.num_headers)
      (with_grp m i (fun g => { g with new_pool := true }))

/-- Function `recv_from_service` with memory, run on a read event with what the socket holds:
the receive loop is `recv_loop`, and what it read lies in the buffer for the rest of the
handler and after it.  The result is the new state and what is left on the socket, or `none`
when the process ends inside the handler. -/
def recv_from_service_mem (h : mem_host) (m : mem_state) (socket : List recv_event) :
    Option (mem_state × List recv_event) :=
  if h.env.exiting then some (m, socket)
  else
    match recv_loop h.env (socket_size socket + 1) m.sc recv_locals_init socket with
    | (loop_exit.to_apply, sc, locals, rest) =>
      (apply_step_mem h m.sc.serverlists_curr locals (after_recv m sc)).map
        (fun m1 => (m1, rest))
    | (loop_exit.to_exit, sc, _, rest) => some (on_sc (exit_step h.env) (after_recv m sc), rest)
    | (loop_exit.to_close_connection, sc, _, rest) =>
      some (on_sc (close_connection h.env) (after_recv m sc), rest)
    | (loop_exit.peer_closed, sc, _, rest) =>
      some (after_recv m { sc with connection := false, timeout_timer := none,
                                   refresh_timer := some 1 }, rest)
    | (loop_exit.try_again, sc, _, rest) => some (after_recv m sc, rest)

/-- The group as `send_to_service` reads it: the cached ETag is `etag.len` bytes at
`etag.data`. -/
def group_view (h : mem_host) (g : live_group) : serverlist :=
  { name := g.name, host := g.host, servers := [], new_pool := g.new_pool, pool := g.pool,
    last_modified := g.last_modified,
    etag := read_mem (h.read_freed g.etag) 0 g.etag.length }

/-- Lines 692-725 of `send_to_service` with memory: the request for a group.  `%V` at line 720
copies from `etag.data` as many bytes as the buffer has room for; copying from `NULL` ends the
process. -/
def build_request_mem (h : mem_host) (g : live_group) : Option (List Nat) :=
  if g.etag.length > 0 && g.etag_null &&
      decide ((request_head h.env (group_view h g)).length + lit_if_none_match.length <
        MAX_HTTP_REQUEST_SIZE) then none
  else some (build_request h.env (group_view h g))

/-! ### Sample states with memory -/

/-- The sample host with memory: every token resolves as `resolve_sample` says, nothing ends
the process, and freed memory still holds its bytes. -/
def host_sample : mem_host :=
  { env := env_sample, ngx_parse_url_at := fun _ url => resolve_sample url,
    conf_alloc_crash := false, free_aborts := false, read_freed := fun bytes => bytes }

/-- Body `server 10.0.0.1:80 dow` without a newline: the last token is `dow`. -/
def body_dow : List Nat :=
  [115, 101, 114, 118, 101, 114, 32] ++ tok_addr1 ++ [32, 100, 111, 119]

/-- A poller on the shard that holds group 0 alone, connected, waiting for a response. -/
def sample_conn_single : service_conn := { sample_conn with serverlists_end := 1 }

/-- A group named `g0` with an empty live set and no cached validator. -/
def live_group0 : live_group :=
  { name := [103, 48], host := [103, 48], servers := [], new_pool := false, pool := false,
    last_modified := -1, etag := [], etag_null := true }

/-- The state at the start: group 0 alone, the poller waiting for the first response, and a
receive buffer that holds nothing yet. -/
def mem_start : mem_state :=
  { groups := [live_group0], sc := sample_conn_single, recv_mem := [], old_mem := [],
    pool_builds := [], snapshots := [], refresh_calls := [] }

/-- The state in which the poller waits for the response of the next round, after the sample
200 response was applied to group 0: the live set is the record of 10.0.0.2:80, whose name
points at the offset 92 of the buffer, where the token lies in the response; the cached time is
100.  The poller is the sample poller waiting for a response: `connect_to_service` has moved
`recv.last` back to the start of the buffer (lines 563-566), and the bytes of the response are
still there. -/
def mem_round2 : mem_state :=
  { groups := [{ live_group0 with
      servers := [{ server := srv2, name_data := some (1024, 92) }], last_modified := 100 }],
    sc := sample_conn_single, recv_mem := sample_response_200, old_mem := [],
    pool_builds := [[srv2]], snapshots := [([103, 48], dump_serverlist [srv2])],
    refresh_calls := [0] }

/-- Header block of a 304 response with a header `X-Pad:` of 80 bytes: 118 bytes in all. -/
def sample_head_304_long : List Nat :=
  [72, 84, 84, 80, 47, 49, 46, 49, 32, 51, 48, 52, 32, 78, 111, 116, 32, 77, 111, 100, 105,
   102, 105, 101, 100, 13, 10, 88, 45, 80, 97, 100, 58, 32] ++ List.replicate 80 120 ++
    [13, 10, 13, 10]

/-- The sample host with a parser that also knows the long 304 response. -/
def host_304_long : mem_host :=
  { host_sample with
    env := { env_sample with
      phr_parse_response := phr_table_parse
        (sample_table ++ [(sample_head_304_long, 304, [⟨some [88, 45, 80, 97, 100],
          some (List.replicate 80 120)⟩])]) } }

/-- The sample host with the parser that knows the response with `ETag: "V1"`, in which
`ngx_pstrdup` fails. -/
def host_pstrdup_fails : mem_host :=
  { host_sample with env := { env_etag with pstrdup_ok := false } }

/-- The state at the start, except that group 0 has the cached ETag `"v0"`. -/
def mem_etag_v0 : mem_state :=
  { mem_start with
    groups := [{ live_group0 with etag := [34, 118, 48, 34], etag_null := false }] }

/-- The state of the next round, except that group 0 has no cached validator. -/
def mem_round2_reset : mem_state :=
  { mem_round2 with
    groups := [{ live_group0 with
      servers := [{ server := srv2, name_data := some (1024, 92) }] }] }

/-- Line 1160 in the state `m`, for the group at index `i`: `upstream_servers_changed` reports
the array parsed from `sc->body` as unchanged against the live array of the group, both read
through their pointers. -/
def reports_unchanged (h : mem_host) (m : mem_state) (i : Nat) : Prop :=
  upstream_servers_changed (read_servers m (grp_at m.groups i))
    (read_all m (parsed_servers h m)) = 0

/-- The poller on group 0 alone after it has handled the sample 200 response: the cursor is
back at the start of the shard, the connection is idle, and the buffer holds the response. -/
def sample_conn_done : service_conn :=
  { sample_conn_single with
    read_handler := handler.idle_conn_read_handler, write_handler := handler.empty_handler,
    recv := sample_response_200, body_data := some 85, body_len := 20, content_length := 20,
    refresh_timer := some 5000, timeout_timer := none, start_time_set := false }

/-- The state right after the sample 200 response was handled in `mem_round2_reset`:
`refresh_upstream` was called once more and returned -1. -/
def mem_reset_done : mem_state :=
  { mem_round2_reset with sc := sample_conn_done, refresh_calls := [0, -1] }

/-! ## Facts about the diff engine -/

theorem ngx_memcmp_eq_length {a b : List Nat} :
    (a.length = b.length ∧ ngx_memcmp_eq a b a.length = true) ↔ a = b := by
  constructor
  · rintro ⟨hl, h⟩
    have h2 : a.take a.length = b.take a.length := by simpa [ngx_memcmp_eq] using h
    rw [List.take_length] at h2
    rw [h2, hl, List.take_length]
  · rintro rfl
    simp [ngx_memcmp_eq]

theorem addr_equal_iff (a b : ngx_addr_t) :
    addr_equal a b = true ↔
      a.name = b.name ∧ a.socklen = b.socklen ∧
        a.sockaddr.take sizeof_sockaddr = b.sockaddr.take sizeof_sockaddr := by
  have h := @ngx_memcmp_eq_length a.name b.name
  simp only [addr_equal, Bool.and_eq_true, beq_iff_eq, and_assoc]
  rw [← and_assoc, h]
  simp [ngx_memcmp_eq]

theorem addr_equal_refl (a : ngx_addr_t) : addr_equal a a = true := by
  simp [addr_equal_iff]

theorem addr_equal_symm {a b : ngx_addr_t} (h : addr_equal a b = true) :
    addr_equal b a = true := by
  rw [addr_equal_iff] at h ⊢
  exact ⟨h.1.symm, h.2.1.symm, h.2.2.symm⟩

theorem addr_equal_trans {a b c : ngx_addr_t} (h1 : addr_equal a b = true)
    (h2 : addr_equal b c = true) : addr_equal a c = true := by
  rw [addr_equal_iff] at h1 h2 ⊢
  exact ⟨h1.1.trans h2.1, h1.2.1.trans h2.2.1, h1.2.2.trans h2.2.2⟩

theorem addr_loop_l_iff (a : ngx_addr_t) (l : List ngx_addr_t) :
    addr_loop_l a l = true ↔ ∃ b ∈ l, addr_equal a b = true := by
  induction l with
  | nil => simp [addr_loop_l]
  | cons b rest ih =>
    by_cases h : addr_equal a b = true
    · simp [addr_loop_l, h]
    · simp [addr_loop_l, h, ih]

theorem addr_loop_k_iff (l1 l2 : List ngx_addr_t) :
    addr_loop_k l1 l2 = true ↔ ∀ a ∈ l1, ∃ b ∈ l2, addr_equal a b = true := by
  induction l1 with
  | nil => simp [addr_loop_k]
  | cons a rest ih =>
    by_cases h : addr_loop_l a l2 = true
    · have h2 := (addr_loop_l_iff a l2).1 h
      simp only [addr_loop_k, h, if_true, ih, List.mem_cons, forall_eq_or_imp]
      exact ⟨fun hr => ⟨h2, hr⟩, fun hr => hr.2⟩
    · have h2 := (addr_loop_l_iff a l2).not.1 h
      simp only [addr_loop_k, h, List.mem_cons, forall_eq_or_imp]
      constructor
      · intro hf; cases hf
      · intro hr; exact absurd hr.1 h2

theorem server_fields_differ_iff (s1 s2 : ngx_http_upstream_server_t) :
    server_fields_differ s1 s2 = false ↔ same_fields s1 s2 := by
  have h := @ngx_memcmp_eq_length s1.name s2.name
  simp only [server_fields_differ, same_fields, Bool.or_eq_false_iff, bne_eq_false_iff_eq,
    Bool.not_eq_false', ngx_http_upstream_server_t.naddrs, and_assoc]
  rw [← and_assoc, h]

theorem server_loop_i_iff (old new : List ngx_http_upstream_server_t) :
    server_loop_i old new = true ↔ ∀ s ∈ old, server_loop_j s new = true := by
  induction old with
  | nil => simp [server_loop_i]
  | cons s rest ih =>
    by_cases h : server_loop_j s new = true
    · simp [server_loop_i, h, ih]
    · simp [server_loop_i, h]

theorem server_loop_j_sound (s : ngx_http_upstream_server_t)
    (new : List ngx_http_upstream_server_t) (h : server_loop_j s new = true) :
    ∃ t ∈ new, server_fields_differ s t = false ∧ addr_loop_k s.addrs t.addrs = true := by
  induction new with
  | nil => simp [server_loop_j] at h
  | cons t rest ih =>
    by_cases hd : server_fields_differ s t = true
    · simp only [server_loop_j, hd, if_true] at h
      obtain ⟨u, hu, h1, h2⟩ := ih h
      exact ⟨u, List.mem_cons_of_mem _ hu, h1, h2⟩
    · simp only [server_loop_j, hd] at h
      exact ⟨t, List.mem_cons_self _ _, by simpa using hd, by simpa using h⟩

theorem server_loop_j_complete (s : ngx_http_upstream_server_t)
    (new : List ngx_http_upstream_server_t)
    (hex : ∃ t ∈ new, server_fields_differ s t = false)
    (hall : ∀ t ∈ new, server_fields_differ s t = false →
      addr_loop_k s.addrs t.addrs = true) :
    server_loop_j s new = true := by
  induction new with
  | nil => simp at hex
  | cons t rest ih =>
    by_cases hd : server_fields_differ s t = true
    · simp only [server_loop_j, hd, if_true]
      apply ih
      · obtain ⟨u, hu, h1⟩ := hex
        rcases List.mem_cons.1 hu with rfl | hu
        · rw [hd] at h1; cases h1
        · exact ⟨u, hu, h1⟩
      · intro u hu; exact hall u (List.mem_cons_of_mem _ hu)
    · simp only [server_loop_j, hd]
      simpa using hall t (List.mem_cons_self _ _) (by simpa using hd)

theorem upstream_servers_changed_eq_zero (old new : List ngx_http_upstream_server_t) :
    upstream_servers_changed old new = 0 ↔
      old.length = new.length ∧ ∀ s ∈ old, server_loop_j s new = true := by
  unfold upstream_servers_changed
  by_cases hl : old.length = new.length
  · by_cases hi : server_loop_i old new = true
    · simpa [hl, hi] using (server_loop_i_iff old new).1 hi
    · have := (server_loop_i_iff old new).not.1 hi
      simp [hl, hi, this]
  · simp [hl]

theorem upstream_servers_changed_le_one (old new : List ngx_http_upstream_server_t) :
    upstream_servers_changed old new = 0 ∨ upstream_servers_changed old new = 1 := by
  unfold upstream_servers_changed
  split
  · exact Or.inr rfl
  · split
    · exact Or.inl rfl
    · exact Or.inr rfl

theorem addr_equal_iff_key (a b : ngx_addr_t) :
    addr_equal a b = true ↔ addr_key a = addr_key b := by
  simp [addr_equal_iff, addr_key]

theorem pairwise_addr_nodup_key {l : List ngx_addr_t}
    (h : l.Pairwise (fun a b => addr_equal a b = false)) : (l.map addr_key).Nodup := by
  rw [List.Nodup, List.pairwise_map]
  refine h.imp ?_
  intro a b hab hk
  rw [(addr_equal_iff_key a b).2 hk] at hab
  cases hab

theorem mem_of_map_subset_of_length {α β : Type} (f : α → β) {l1 l2 : List α}
    (hl : l1.length = l2.length) (hn : (l1.map f).Nodup)
    (hsub : ∀ a ∈ l1, ∃ b ∈ l2, f a = f b) :
    ∀ b ∈ l2, ∃ a ∈ l1, f a = f b := by
  have hss : l1.map f ⊆ l2.map f := by
    intro x hx
    obtain ⟨a, ha, rfl⟩ := List.mem_map.1 hx
    obtain ⟨b, hb, hab⟩ := hsub a ha
    exact List.mem_map.2 ⟨b, hb, hab.symm⟩
  have hp : (l1.map f).Perm (l2.map f) :=
    (List.subperm_of_subset hn hss).perm_of_length_le (by simp [hl])
  intro b hb
  have : f b ∈ l1.map f := hp.mem_iff.2 (List.mem_map.2 ⟨b, hb, rfl⟩)
  obtain ⟨a, ha, hab⟩ := List.mem_map.1 this
  exact ⟨a, ha, hab⟩

theorem same_fields_symm {s t : ngx_http_upstream_server_t} (h : same_fields s t) :
    same_fields t s := by
  obtain ⟨h1, h2, h3, h4, h5, h6, h7, h8⟩ := h
  exact ⟨h1.symm, h2.symm, h3.symm, h4.symm, h5.symm, h6.symm, h7.symm, h8.symm⟩

theorem server_loop_j_iff_match (s : ngx_http_upstream_server_t)
    (new : List ngx_http_upstream_server_t) (hn : (new.map (·.name)).Nodup) :
    server_loop_j s new = true ↔ ∃ t ∈ new, descriptor_match s t := by
  constructor
  · intro h
    obtain ⟨t, ht, h1, h2⟩ := server_loop_j_sound s new h
    exact ⟨t, ht, (server_fields_differ_iff s t).1 h1, (addr_loop_k_iff _ _).1 h2⟩
  · rintro ⟨t, ht, hf, ha⟩
    apply server_loop_j_complete
    · exact ⟨t, ht, (server_fields_differ_iff s t).2 hf⟩
    · intro u hu hfu
      have hname : u.name = t.name :=
        (((server_fields_differ_iff s u).1 hfu).1).symm.trans hf.1
      have : u = t := List.inj_on_of_nodup_map hn hu ht hname
      rw [this]
      exact (addr_loop_k_iff _ _).2 ha

theorem unchanged_swap (A B : List ngx_http_upstream_server_t)
    (hA : (A.map (·.name)).Nodup) (hB : (B.map (·.name)).Nodup)
    (hAa : ∀ s ∈ A, s.addrs.Pairwise (fun a b => addr_equal a b = false))
    (h : upstream_servers_changed A B = 0) : upstream_servers_changed B A = 0 := by
  rw [upstream_servers_changed_eq_zero] at h ⊢
  obtain ⟨hl, hall⟩ := h
  have hm : ∀ s ∈ A, ∃ t ∈ B, descriptor_match s t :=
    fun s hs => (server_loop_j_iff_match s B hB).1 (hall s hs)
  refine ⟨hl.symm, fun t ht => ?_⟩
  have hnames := mem_of_map_subset_of_length (fun s : ngx_http_upstream_server_t => s.name)
    hl hA (fun s hs => by
      obtain ⟨t, ht, hf, _⟩ := hm s hs
      exact ⟨t, ht, hf.1⟩)
  obtain ⟨s, hs, hst⟩ := hnames t ht
  obtain ⟨u, hu, hf, ha⟩ := hm s hs
  have hut : u = t := List.inj_on_of_nodup_map hB hu ht (hf.1.symm.trans hst)
  subst hut
  rw [server_loop_j_iff_match u A hA]
  refine ⟨s, hs, same_fields_symm hf, ?_⟩
  have hk := mem_of_map_subset_of_length addr_key hf.2.2.1
    (pairwise_addr_nodup_key (hAa s hs))
    (fun a ha1 => by
      obtain ⟨b, hb, hab⟩ := ha a ha1
      exact ⟨b, hb, (addr_equal_iff_key a b).1 hab⟩)
  intro b hb
  obtain ⟨a, ha1, hab⟩ := hk b hb
  exact ⟨a, ha1, (addr_equal_iff_key b a).2 hab.symm⟩


theorem permuted_names {A A1 : List ngx_http_upstream_server_t}
    (h : List.Forall₂ (fun s t => t.addrs.Perm s.addrs ∧ t = { s with addrs := t.addrs }) A A1) :
    A1.map (·.name) = A.map (·.name) := by
  induction h with
  | nil => rfl
  | cons hst _ ih =>
    rw [List.map_cons, List.map_cons, ih, hst.2]

theorem permuted_mem {A A1 : List ngx_http_upstream_server_t}
    (h : List.Forall₂ (fun s t => t.addrs.Perm s.addrs ∧ t = { s with addrs := t.addrs }) A A1)
    {s : ngx_http_upstream_server_t} (hs : s ∈ A) :
    ∃ t ∈ A1, t.addrs.Perm s.addrs ∧ t = { s with addrs := t.addrs } := by
  induction h with
  | nil => cases hs
  | @cons a b l1 l2 hab _ ih =>
    rcases List.mem_cons.1 hs with rfl | hs
    · exact ⟨b, List.mem_cons_self _ _, hab⟩
    · obtain ⟨t, ht, h1⟩ := ih hs
      exact ⟨t, List.mem_cons_of_mem _ ht, h1⟩

theorem unchanged_iff_match (old new : List ngx_http_upstream_server_t)
    (hn : (new.map (·.name)).Nodup) :
    upstream_servers_changed old new = 0 ↔
      old.length = new.length ∧ ∀ s ∈ old, ∃ t ∈ new, descriptor_match s t := by
  rw [upstream_servers_changed_eq_zero]
  constructor
  · rintro ⟨hl, h⟩
    exact ⟨hl, fun s hs => (server_loop_j_iff_match s new hn).1 (h s hs)⟩
  · rintro ⟨hl, h⟩
    exact ⟨hl, fun s hs => (server_loop_j_iff_match s new hn).2 (h s hs)⟩

/-! ## The claims on the diff engine -/

/-- C1 (defect of the code): a server set compared with itself is reported as changed when two
of its records carry the same name and attributes but different resolved addresses.  For the
second record the search of lines 936-972 stops at the first record, whose scalar fields agree,
and line 967 returns 1 instead of going on to the next candidate. -/
theorem upstream_servers_changed_self_same_name :
    upstream_servers_changed [srv_svc [addr1], srv_svc [addr2]]
      [srv_svc [addr1], srv_svc [addr2]] = 1 := by
  decide

/-- C2, as stated, fails: with a repeated record in one set the verdict depends on the order of
the arguments. -/
theorem upstream_servers_changed_not_comm :
    upstream_servers_changed [srv1, srv1] [srv1, srv2] ≠
      upstream_servers_changed [srv1, srv2] [srv1, srv1] := by
  decide

/-- C2 (amended): for server sets whose records have pairwise distinct names and whose records
each list addresses that are pairwise distinct under the comparison of the code, the verdict
does not depend on which set is passed as old and which as new. -/
theorem upstream_servers_changed_comm (A B : List ngx_http_upstream_server_t)
    (hA : (A.map (·.name)).Nodup) (hB : (B.map (·.name)).Nodup)
    (hAa : ∀ s ∈ A, s.addrs.Pairwise (fun a b => addr_equal a b = false))
    (hBa : ∀ s ∈ B, s.addrs.Pairwise (fun a b => addr_equal a b = false)) :
    upstream_servers_changed A B = upstream_servers_changed B A := by
  rcases upstream_servers_changed_le_one A B with h1 | h1
  · rw [h1, unchanged_swap A B hA hB hAa h1]
  · rcases upstream_servers_changed_le_one B A with h2 | h2
    · rw [unchanged_swap B A hB hA hBa h2] at h1
      cases h1
    · rw [h1, h2]

/-- Witness of C2 (amended): two records in opposite orders. -/
theorem upstream_servers_changed_comm_witness :
    ([srv1, srv2].map (·.name)).Nodup ∧ ([srv2, srv1].map (·.name)).Nodup ∧
      (∀ s ∈ [srv1, srv2], s.addrs.Pairwise (fun a b => addr_equal a b = false)) ∧
      (∀ s ∈ [srv2, srv1], s.addrs.Pairwise (fun a b => addr_equal a b = false)) ∧
      upstream_servers_changed [srv1, srv2] [srv2, srv1] =
        upstream_servers_changed [srv2, srv1] [srv1, srv2] :=
  ⟨by decide, by decide, by decide, by decide,
    upstream_servers_changed_comm [srv1, srv2] [srv2, srv1] (by decide) (by decide)
      (by decide) (by decide)⟩

/-- C3, as stated, fails: the code reports "unchanged" for two records whose address lists are
not identical as sets (10.0.0.1 listed twice against 10.0.0.1 and 10.0.0.2). -/
theorem unchanged_not_spec_unchanged :
    upstream_servers_changed [srv_svc [addr1, addr1]] [srv_svc [addr1, addr2]] = 0 ∧
      ¬ spec_unchanged [srv_svc [addr1, addr1]] [srv_svc [addr1, addr2]] := by
  refine ⟨by decide, ?_⟩
  rintro ⟨_, h⟩
  obtain ⟨t, ht, h1⟩ := h (srv_svc [addr1, addr1]) (List.mem_singleton.2 rfl)
  rw [List.mem_singleton] at ht
  subst ht
  obtain ⟨a, ha, hab⟩ := h1.2.2.2.2.2.2.2.2 addr2 (by simp [srv_svc, new_server])
  have ha1 : a = addr1 := by simpa [srv_svc, new_server] using ha
  subst ha1
  revert hab
  decide

/-- C3 (amended): when the records of the new set have pairwise distinct names, the verdict is
0 if and only if both sets have the same number of records and every old record has a new
record that matches it, where a record matches when name, weight, number of addresses,
max_conns, max_fails, fail_timeout, backup and down agree and every address of the old record
equals some address of the new one. -/
theorem upstream_servers_changed_eq_zero_iff (old new : List ngx_http_upstream_server_t)
    (hn : (new.map (·.name)).Nodup) :
    upstream_servers_changed old new = 0 ↔
      old.length = new.length ∧ ∀ s ∈ old, ∃ t ∈ new, descriptor_match s t :=
  unchanged_iff_match old new hn

/-- Witness of C3 (amended): the new set holds the two records of the old one in the opposite
order. -/
theorem upstream_servers_changed_eq_zero_iff_witness :
    ([srv2, srv1].map (·.name)).Nodup ∧
      (upstream_servers_changed [srv1, srv2] [srv2, srv1] = 0 ↔
        [srv1, srv2].length = [srv2, srv1].length ∧
          ∀ s ∈ [srv1, srv2], ∃ t ∈ [srv2, srv1], descriptor_match s t) :=
  ⟨by decide, upstream_servers_changed_eq_zero_iff [srv1, srv2] [srv2, srv1] (by decide)⟩

/-- C4: a server set whose records have pairwise distinct names and list pairwise distinct
addresses is reported as unchanged against every set obtained from it by permuting the records
and permuting the address list inside each record. -/
theorem upstream_servers_changed_permuted (A B : List ngx_http_upstream_server_t)
    (hA : (A.map (·.name)).Nodup) (_hAa : ∀ s ∈ A, s.addrs.Nodup) (h : permuted A B) :
    upstream_servers_changed A B = 0 := by
  obtain ⟨A1, hf, hp⟩ := h
  have hB : (B.map (·.name)).Nodup := by
    rw [(hp.map _).nodup_iff, permuted_names hf]
    exact hA
  rw [unchanged_iff_match A B hB]
  refine ⟨hf.length_eq.trans hp.length_eq.symm, fun s hs => ?_⟩
  obtain ⟨t, ht, hperm, hst⟩ := permuted_mem hf hs
  refine ⟨t, hp.mem_iff.2 ht, ?_, ?_⟩
  · rw [hst]
    exact ⟨rfl, rfl, hperm.length_eq.symm, rfl, rfl, rfl, rfl, rfl⟩
  · intro a ha
    exact ⟨a, hperm.mem_iff.2 ha, addr_equal_refl a⟩

/-- Witness of C4: two records are swapped and the two addresses of one of them are swapped. -/
theorem upstream_servers_changed_permuted_witness :
    ([srv_svc [addr1, addr2], srv1].map (·.name)).Nodup ∧
      (∀ s ∈ [srv_svc [addr1, addr2], srv1], s.addrs.Nodup) ∧
      permuted [srv_svc [addr1, addr2], srv1] [srv1, srv_svc [addr2, addr1]] ∧
      upstream_servers_changed [srv_svc [addr1, addr2], srv1]
        [srv1, srv_svc [addr2, addr1]] = 0 :=
  have hp : permuted [srv_svc [addr1, addr2], srv1] [srv1, srv_svc [addr2, addr1]] :=
    ⟨[srv_svc [addr2, addr1], srv1],
      List.Forall₂.cons ⟨List.Perm.swap _ _ _, rfl⟩
        (List.Forall₂.cons ⟨List.Perm.refl _, rfl⟩ List.Forall₂.nil),
      List.Perm.swap _ _ _⟩
  ⟨by decide, by decide, hp,
    upstream_servers_changed_permuted _ _ (by decide) (by decide) hp⟩

/-! ## Facts about the parser -/

theorem ngx_strlchr_none {l : List Nat} {c : Nat} (h : c ∉ l) : ngx_strlchr l c = none := by
  induction l with
  | nil => rfl
  | cons b rest ih =>
    have hb : b ≠ c := fun e => h (e ▸ List.mem_cons_self _ _)
    have hr : c ∉ rest := fun e => h (List.mem_cons_of_mem _ e)
    simp [ngx_strlchr, hb, ih hr]

theorem ngx_strlchr_append {l1 : List Nat} {c : Nat} (l2 : List Nat) (h : c ∉ l1) :
    ngx_strlchr (l1 ++ c :: l2) c = some l1.length := by
  induction l1 with
  | nil => simp [ngx_strlchr]
  | cons b rest ih =>
    have hb : b ≠ c := fun e => h (e ▸ List.mem_cons_self _ _)
    have hr : c ∉ rest := fun e => h (List.mem_cons_of_mem _ e)
    simp [ngx_strlchr, hb, ih hr]

theorem get_one_line_no_newline {l : List Nat} (h : 10 ∉ l) : get_one_line l = (l, []) := by
  simp [get_one_line, ngx_strlchr_none h]

theorem get_one_line_append {l1 : List Nat} (l2 : List Nat) (h : 10 ∉ l1) :
    get_one_line (l1 ++ 10 :: l2) = (l1, l2) := by
  simp [get_one_line, ngx_strlchr_append l2 h]

theorem split_at_newline (body : List Nat) :
    10 ∉ body ∨ ∃ l1 l2, body = l1 ++ 10 :: l2 ∧ 10 ∉ l1 := by
  induction body with
  | nil => exact Or.inl (by simp)
  | cons c rest ih =>
    by_cases hc : c = 10
    · exact Or.inr ⟨[], rest, by simp [hc], by simp⟩
    · rcases ih with h | ⟨l1, l2, h1, h2⟩
      · refine Or.inl ?_
        intro hm
        rcases List.mem_cons.1 hm with e | e
        · exact hc e.symm
        · exact h e
      · refine Or.inr ⟨c :: l1, l2, by simp [h1], ?_⟩
        intro hm
        rcases List.mem_cons.1 hm with e | e
        · exact hc e.symm
        · exact h2 e

theorem get_one_line_length (body : List Nat) :
    (get_one_line body).2.length + (get_one_line body).1.length ≤ body.length ∧
      (0 < (get_one_line body).2.length → (get_one_line body).2.length < body.length) := by
  rcases split_at_newline body with h | ⟨l1, l2, h1, h2⟩
  · rw [get_one_line_no_newline h]; simp
  · rw [h1, get_one_line_append l2 h2]; simp; omega

theorem update_last_append (f : ngx_http_upstream_server_t → ngx_http_upstream_server_t)
    (pre l : List ngx_http_upstream_server_t) (h : l ≠ []) :
    update_last f (pre ++ l) = pre ++ update_last f l := by
  induction pre with
  | nil => rfl
  | cons a rest ih =>
    cases hr : rest ++ l with
    | nil => simp [h] at hr
    | cons b tl =>
      have e : update_last f (a :: b :: tl) = a :: update_last f (b :: tl) := rfl
      rw [List.cons_append, hr, e, ← hr, ih]
      simp

theorem update_last_ne_nil (f : ngx_http_upstream_server_t → ngx_http_upstream_server_t)
    (l : List ngx_http_upstream_server_t) (h : l ≠ []) : update_last f l ≠ [] := by
  cases l with
  | nil => exact absurd rfl h
  | cons a rest =>
    cases rest with
    | nil => simp [update_last]
    | cons b tl => simp [update_last]

theorem update_last_concat (f : ngx_http_upstream_server_t → ngx_http_upstream_server_t)
    (pre : List ngx_http_upstream_server_t) (s : ngx_http_upstream_server_t) :
    update_last f (pre ++ [s]) = pre ++ [f s] := by
  rw [update_last_append f pre [s] (by simp)]
  rfl

theorem line_loop_append (r : List Nat → Option (List ngx_addr_t)) (fuel : Nat) :
    ∀ (line : List Nat) (fa sa : Bool) (pre l : List ngx_http_upstream_server_t),
      (sa = true → l ≠ []) →
      line_loop r fuel line fa sa (pre ++ l) = pre ++ line_loop r fuel line fa sa l := by
  induction fuel with
  | zero => intro line fa sa pre l _; rfl
  | succ n ih =>
    intro line fa sa pre l hl
    unfold line_loop
    cases hg : get_one_arg line with
    | none => rfl
    | some p =>
      obtain ⟨arg, rest⟩ := p
      simp only []
      cases fa with
      | false =>
        simp only [Bool.not_false, if_true]
        split
        · rfl
        · exact ih rest true sa pre l hl
      | true =>
        cases sa with
        | false =>
          simp only [Bool.not_true, Bool.not_false, if_true]
          cases r arg with
          | none => rfl
          | some addrs =>
            simp only []
            rw [List.append_assoc]
            exact ih rest true true pre (l ++ [new_server arg addrs]) (fun _ => by simp)
        | true =>
          simp only [Bool.not_true]
          have hne := hl rfl
          rw [if_neg (by simp), if_neg (by simp), update_last_append _ pre l hne]
          exact ih rest true true pre _ (fun _ => update_last_ne_nil _ l hne)

theorem line_loop_eq_parse_line (r : List Nat → Option (List ngx_addr_t)) (line : List Nat)
    (servers : List ngx_http_upstream_server_t) :
    line_loop r (line.length + 1) line false false servers = servers ++ parse_line r line := by
  have h := line_loop_append r (line.length + 1) line false false servers [] (by simp)
  rw [List.append_nil] at h
  exact h

theorem get_servers_loop_append (r : List Nat → Option (List ngx_addr_t)) (fuel : Nat) :
    ∀ (body : List Nat) (servers : List ngx_http_upstream_server_t),
      get_servers_loop r fuel body servers = servers ++ get_servers_loop r fuel body [] := by
  induction fuel with
  | zero => intro body servers; simp [get_servers_loop]
  | succ n ih =>
    intro body servers
    unfold get_servers_loop
    rw [line_loop_eq_parse_line r _ servers, line_loop_eq_parse_line r _ []]
    split
    · rw [ih _ (servers ++ _), ih _ ([] ++ _)]
      simp
    · simp

theorem get_servers_loop_fuel (r : List Nat → Option (List ngx_addr_t)) (f1 : Nat) :
    ∀ (f2 : Nat) (body : List Nat) (servers : List ngx_http_upstream_server_t),
      body.length < f1 → body.length < f2 →
      get_servers_loop r f1 body servers = get_servers_loop r f2 body servers := by
  induction f1 with
  | zero => intro f2 body servers h; omega
  | succ n ih =>
    intro f2 body servers h1 h2
    cases f2 with
    | zero => omega
    | succ m =>
      unfold get_servers_loop
      split
      · rename_i hpos
        have := (get_one_line_length body).2 hpos
        exact ih m _ _ (by omega) (by omega)
      · rfl

/-- The loop equation of `get_servers`: the records of the first line, followed by the records
of the rest of the body when the first line does not end the body. -/
theorem get_servers_unfold (r : List Nat → Option (List ngx_addr_t)) (body : List Nat) :
    get_servers r body =
      parse_line r (get_one_line body).1 ++
        (if 0 < (get_one_line body).2.length then get_servers r (get_one_line body).2
         else []) := by
  unfold get_servers
  rw [get_servers_loop]
  rw [line_loop_eq_parse_line r _ []]
  by_cases hpos : 0 < (get_one_line body).2.length
  · have hlt := (get_one_line_length body).2 hpos
    rw [if_pos hpos, if_pos hpos, get_servers_loop_append]
    rw [get_servers_loop_fuel r body.length ((get_one_line body).2.length + 1) _ [] hlt
      (by omega)]
    simp
  · rw [if_neg hpos, if_neg hpos]
    simp

theorem get_servers_nil (r : List Nat → Option (List ngx_addr_t)) : get_servers r [] = [] := by
  rfl

theorem get_servers_append_newline (r : List Nat → Option (List ngx_addr_t)) (n : Nat) :
    ∀ (b1 b2 : List Nat), b1.length ≤ n →
      get_servers r (b1 ++ 10 :: b2) = get_servers r b1 ++ get_servers r b2 := by
  induction n using Nat.strong_induction_on with
  | _ n ih =>
    intro b1 b2 hn
    have hrest : (if 0 < b2.length then get_servers r b2 else []) = get_servers r b2 := by
      cases b2 with
      | nil => simp [get_servers_nil]
      | cons c cs => simp
    rcases split_at_newline b1 with h | ⟨l1, l2, h1, h2⟩
    · rw [get_servers_unfold r (b1 ++ 10 :: b2), get_one_line_append b2 h]
      rw [get_servers_unfold r b1, get_one_line_no_newline h]
      simp only [hrest]
      simp
    · subst h1
      have hrest2 : (if 0 < l2.length then get_servers r l2 else []) = get_servers r l2 := by
        cases l2 with
        | nil => simp [get_servers_nil]
        | cons c cs => simp
      rw [get_servers_unfold r ((l1 ++ 10 :: l2) ++ 10 :: b2)]
      rw [get_servers_unfold r (l1 ++ 10 :: l2)]
      have e : (l1 ++ 10 :: l2) ++ 10 :: b2 = l1 ++ 10 :: (l2 ++ 10 :: b2) := by simp
      rw [e, get_one_line_append _ h2, get_one_line_append _ h2]
      simp only [hrest2]
      have hl2 : l2.length < n := by simp at hn; omega
      rw [if_pos (by simp), ih l2.length hl2 l2 b2 (le_refl _)]
      simp

theorem get_one_arg_skip {d : Nat} (l : List Nat) (hd : is_valid_arg_char d = false) :
    get_one_arg (d :: l) = get_one_arg l := by
  simp [get_one_arg, hd]

theorem get_one_arg_token (tok rest : List Nat) (d : Nat) (htok : tok ≠ [])
    (hv : ∀ c ∈ tok, is_valid_arg_char c = true) (hd : is_valid_arg_char d = false) :
    get_one_arg (tok ++ d :: rest) = some (tok, d :: rest) := by
  cases tok with
  | nil => exact absurd rfl htok
  | cons c cs =>
    have hc : is_valid_arg_char c = true := hv c (List.mem_cons_self _ _)
    have hcs : ∀ x ∈ cs, is_valid_arg_char x = true :=
      fun x hx => hv x (List.mem_cons_of_mem _ hx)
    have h1 : List.takeWhile is_valid_arg_char (cs ++ d :: rest) = cs := by
      rw [List.takeWhile_append, if_pos ((List.takeWhile_eq_self_iff).2 hcs |>.symm ▸ rfl)]
      simp [hd]
    have h2 : List.dropWhile is_valid_arg_char (cs ++ d :: rest) = d :: rest := by
      rw [List.dropWhile_append, if_pos (by
        rw [(List.dropWhile_eq_nil_iff).2 hcs]; rfl)]
      simp [hd]
    simp [get_one_arg, hc, h1, h2]

theorem get_one_arg_token_end (tok : List Nat) (htok : tok ≠ [])
    (hv : ∀ c ∈ tok, is_valid_arg_char c = true) :
    get_one_arg tok = some (tok, []) := by
  cases tok with
  | nil => exact absurd rfl htok
  | cons c cs =>
    have hc : is_valid_arg_char c = true := hv c (List.mem_cons_self _ _)
    have hcs : ∀ x ∈ cs, is_valid_arg_char x = true :=
      fun x hx => hv x (List.mem_cons_of_mem _ hx)
    simp [get_one_arg, hc, (List.takeWhile_eq_self_iff).2 hcs, (List.dropWhile_eq_nil_iff).2 hcs]

theorem get_one_arg_spec {line arg rest : List Nat} (h : get_one_arg line = some (arg, rest)) :
    rest.length < line.length ∧ arg ≠ [] ∧ (∀ c ∈ arg, is_valid_arg_char c = true) := by
  unfold get_one_arg at h
  simp only [] at h
  split at h
  · cases h
  · rename_i hne
    cases hp : List.dropWhile (fun c => !is_valid_arg_char c) line with
    | nil => simp [hp] at hne
    | cons c cs =>
      have hlen : (c :: cs).length ≤ line.length := by
        rw [← hp]; exact (List.dropWhile_sublist _).length_le
      have hc : is_valid_arg_char c = true := by
        have := List.head_dropWhile_not (fun c => !is_valid_arg_char c) line (by simp [hp])
        simp only [hp, List.head_cons] at this
        simpa using this
      rw [hp] at h
      simp only [Option.some.injEq, Prod.mk.injEq] at h
      obtain ⟨h1, h2⟩ := h
      refine ⟨?_, ?_, ?_⟩
      · rw [← h2, List.dropWhile_cons_of_pos hc]
        have := (List.dropWhile_sublist is_valid_arg_char (l := cs)).length_le
        simp at hlen
        omega
      · rw [← h1, List.takeWhile_cons_of_pos hc]; simp
      · intro x hx
        rw [← h1] at hx
        exact List.mem_takeWhile_imp hx

theorem line_loop_fuel (r : List Nat → Option (List ngx_addr_t)) (f1 : Nat) :
    ∀ (f2 : Nat) (line : List Nat) (fa sa : Bool) (servers : List ngx_http_upstream_server_t),
      line.length < f1 → line.length < f2 →
      line_loop r f1 line fa sa servers = line_loop r f2 line fa sa servers := by
  induction f1 with
  | zero => intro f2 line fa sa servers h; omega
  | succ n ih =>
    intro f2 line fa sa servers h1 h2
    cases f2 with
    | zero => omega
    | succ m =>
      unfold line_loop
      cases hg : get_one_arg line with
      | none => rfl
      | some p =>
        obtain ⟨arg, rest⟩ := p
        have hlt := (get_one_arg_spec hg).1
        simp only []
        rw [ih m rest true sa servers (by omega) (by omega)]
        rw [ih m rest fa sa _ (by omega) (by omega)]
        split
        · rfl
        · split
          · cases r arg with
            | none => rfl
            | some addrs =>
              simp only []
              rw [ih m rest fa true _ (by omega) (by omega)]
          · rfl

theorem line_loop_done (r : List Nat → Option (List ngx_addr_t)) {line : List Nat}
    (fa sa : Bool) (servers : List ngx_http_upstream_server_t)
    (hg : get_one_arg line = none) :
    line_loop r (line.length + 1) line fa sa servers = servers := by
  rw [line_loop, hg]

theorem line_loop_first (r : List Nat → Option (List ngx_addr_t)) {line arg rest : List Nat}
    (sa : Bool) (servers : List ngx_http_upstream_server_t)
    (hg : get_one_arg line = some (arg, rest)) :
    line_loop r (line.length + 1) line false sa servers =
      if ngx_strncmp_eq arg lit_server arg.length then
        line_loop r (rest.length + 1) rest true sa servers
      else servers := by
  rw [line_loop, hg]
  simp only [Bool.not_false, if_true]
  rw [line_loop_fuel r line.length (rest.length + 1) rest true sa servers
    (get_one_arg_spec hg).1 (by omega)]
  cases ngx_strncmp_eq arg lit_server arg.length <;> simp

theorem line_loop_second (r : List Nat → Option (List ngx_addr_t)) {line arg rest : List Nat}
    (servers : List ngx_http_upstream_server_t)
    (hg : get_one_arg line = some (arg, rest)) :
    line_loop r (line.length + 1) line true false servers =
      match r arg with
      | none => servers
      | some addrs =>
        line_loop r (rest.length + 1) rest true true (servers ++ [new_server arg addrs]) := by
  rw [line_loop, hg]
  simp only [Bool.not_true, Bool.not_false, if_true]
  cases r arg with
  | none => simp
  | some addrs =>
    simp only []
    rw [if_neg (by simp)]
    exact line_loop_fuel r line.length (rest.length + 1) rest true true _
      (get_one_arg_spec hg).1 (by omega)

theorem line_loop_option (r : List Nat → Option (List ngx_addr_t)) {line arg rest : List Nat}
    (servers : List ngx_http_upstream_server_t)
    (hg : get_one_arg line = some (arg, rest)) :
    line_loop r (line.length + 1) line true true servers =
      line_loop r (rest.length + 1) rest true true
        (update_last (server_option arg) servers) := by
  rw [line_loop, hg]
  simp only [Bool.not_true]
  rw [if_neg (by simp), if_neg (by simp)]
  exact line_loop_fuel r line.length (rest.length + 1) rest true true _
    (get_one_arg_spec hg).1 (by omega)

theorem ngx_atoi_loop_range (l : List Nat) :
    ∀ v : Nat, v ≤ NGX_MAX_INT_T_VALUE →
      ngx_atoi_loop l v = NGX_ERROR ∨
        (0 ≤ ngx_atoi_loop l v ∧ ngx_atoi_loop l v ≤ NGX_MAX_INT_T_VALUE) := by
  induction l with
  | nil =>
    intro v hv
    right
    simp only [ngx_atoi_loop]
    exact ⟨Int.ofNat_nonneg v, by exact_mod_cast hv⟩
  | cons c rest ih =>
    intro v hv
    unfold ngx_atoi_loop
    split
    · exact Or.inl rfl
    · rename_i hc
      split
      · exact Or.inl rfl
      · rename_i ho
        apply ih
        simp only [NGX_MAX_INT_T_VALUE, Bool.or_eq_true, decide_eq_true_eq, not_or, not_lt,
          Bool.and_eq_true, ge_iff_le, gt_iff_lt, not_and, not_le] at hc ho hv ⊢
        omega

theorem ngx_atoi_range (l : List Nat) :
    ngx_atoi l = NGX_ERROR ∨ (0 ≤ ngx_atoi l ∧ ngx_atoi l ≤ NGX_MAX_INT_T_VALUE) := by
  unfold ngx_atoi
  split
  · exact Or.inl rfl
  · exact ngx_atoi_loop_range l 0 (Nat.zero_le _)

theorem ngx_parse_time_loop_range (l : List Nat) :
    ∀ (value total step : Nat) (valid skip : Bool), value ≤ NGX_MAX_INT_T_VALUE →
      ngx_parse_time_loop l value total step valid skip = NGX_ERROR ∨
        (0 ≤ ngx_parse_time_loop l value total step valid skip ∧
          ngx_parse_time_loop l value total step valid skip ≤ NGX_MAX_INT_T_VALUE) := by
  induction l with
  | nil =>
    intro value total step valid skip hv
    unfold ngx_parse_time_loop
    split
    · exact Or.inl rfl
    · split
      · exact Or.inl rfl
      · rename_i h
        right
        refine ⟨Int.ofNat_nonneg _, ?_⟩
        have : total + value ≤ NGX_MAX_INT_T_VALUE := by
          simp only [NGX_MAX_INT_T_VALUE] at h hv ⊢
          omega
        exact_mod_cast this
  | cons c rest ih =>
    intro value total step valid skip hv
    unfold ngx_parse_time_loop
    split
    · exact ih _ _ _ _ _ hv
    · split
      · rename_i hc
        split
        · exact Or.inl rfl
        · rename_i ho
          apply ih
          simp only [NGX_MAX_INT_T_VALUE, Bool.or_eq_true, decide_eq_true_eq, not_or, not_lt,
            Bool.and_eq_true, ge_iff_le, gt_iff_lt, not_and, not_le] at hc ho hv ⊢
          omega
      · split
        · exact Or.inl rfl
        · split
          · exact Or.inl rfl
          · split
            · exact Or.inl rfl
            · exact ih _ _ _ _ _ (Nat.zero_le _)

theorem ngx_parse_time_range (l : List Nat) :
    ngx_parse_time l = NGX_ERROR ∨
      (0 ≤ ngx_parse_time l ∧ ngx_parse_time l ≤ NGX_MAX_INT_T_VALUE) :=
  ngx_parse_time_loop_range l 0 0 0 false false (Nat.zero_le _)

theorem to_uint_of_range {x : Int} (h0 : 0 ≤ x) (h1 : x ≤ NGX_MAX_INT_T_VALUE) :
    (to_uint x : Int) = x := by
  unfold to_uint
  simp only [NGX_MAX_INT_T_VALUE] at h1
  have h2 : x % 18446744073709551616 = x := Int.emod_eq_of_lt h0 (by omega)
  rw [h2]
  exact Int.toNat_of_nonneg h0

theorem server_option_ok (r : List Nat → Option (List ngx_addr_t)) (arg : List Nat)
    (s : ngx_http_upstream_server_t) (h : parsed_ok r s) : parsed_ok r (server_option arg s) := by
  obtain ⟨h1, h2, h3, h4, h5, h6, h7, h8, h9, h10, h11⟩ := h
  unfold server_option
  split
  · split
    · exact ⟨h1, h2, h3, h4, h5, h6, h7, h8, h9, h10, h11⟩
    · rename_i hw
      simp only [Bool.or_eq_true, beq_iff_eq, decide_eq_true_eq, not_or, not_le] at hw
      rcases ngx_atoi_range (arg.drop 7) with e | ⟨e0, e1⟩
      · exact absurd e hw.1
      · have hu := to_uint_of_range e0 e1
        refine ⟨h1, h2, h3, ?_, ?_, h6, h7, h8, h9, h10, h11⟩
        · show 1 ≤ to_uint _
          omega
        · show to_uint _ ≤ _
          omega
  · split
    · split
      · exact ⟨h1, h2, h3, h4, h5, h6, h7, h8, h9, h10, h11⟩
      · rename_i hw
        simp only [beq_iff_eq] at hw
        rcases ngx_atoi_range (arg.drop 10) with e | ⟨e0, e1⟩
        · exact absurd e hw
        · have hu := to_uint_of_range e0 e1
          refine ⟨h1, h2, h3, h4, h5, ?_, h7, h8, h9, h10, h11⟩
          show to_uint _ ≤ _
          omega
    · split
      · split
        · exact ⟨h1, h2, h3, h4, h5, h6, h7, h8, h9, h10, h11⟩
        · rename_i hw
          simp only [beq_iff_eq] at hw
          rcases ngx_atoi_range (arg.drop 10) with e | ⟨e0, e1⟩
          · exact absurd e hw
          · have hu := to_uint_of_range e0 e1
            refine ⟨h1, h2, h3, h4, h5, h6, ?_, h8, h9, h10, h11⟩
            show to_uint _ ≤ _
            omega
      · split
        · split
          · exact ⟨h1, h2, h3, h4, h5, h6, h7, h8, h9, h10, h11⟩
          · rename_i hw
            simp only [beq_iff_eq] at hw
            rcases ngx_parse_time_range (arg.drop 13) with e | ⟨e0, e1⟩
            · exact absurd e hw
            · exact ⟨h1, h2, h3, h4, h5, h6, h7, e0, e1, h10, h11⟩
        · split
          · exact ⟨h1, h2, h3, h4, h5, h6, h7, h8, h9, le_refl _, h11⟩
          · split
            · exact ⟨h1, h2, h3, h4, h5, h6, h7, h8, h9, h10, le_refl _⟩
            · split <;> exact ⟨h1, h2, h3, h4, h5, h6, h7, h8, h9, h10, h11⟩

theorem new_server_ok (r : List Nat → Option (List ngx_addr_t)) {arg : List Nat}
    {addrs : List ngx_addr_t} (h1 : arg ≠ []) (h2 : ∀ c ∈ arg, is_valid_arg_char c = true)
    (h3 : r arg = some addrs) : parsed_ok r (new_server arg addrs) := by
  refine ⟨h1, h2, h3, ?_, ?_, ?_, ?_, ?_, ?_, ?_, ?_⟩ <;> simp [new_server, NGX_MAX_INT_T_VALUE]

theorem mem_update_last {f : ngx_http_upstream_server_t → ngx_http_upstream_server_t}
    {l : List ngx_http_upstream_server_t} {s : ngx_http_upstream_server_t}
    (h : s ∈ update_last f l) : s ∈ l ∨ ∃ t ∈ l, s = f t := by
  induction l with
  | nil => simp [update_last] at h
  | cons a rest ih =>
    cases rest with
    | nil =>
      simp only [update_last, List.mem_singleton] at h
      exact Or.inr ⟨a, List.mem_singleton.2 rfl, h⟩
    | cons b tl =>
      have e : update_last f (a :: b :: tl) = a :: update_last f (b :: tl) := rfl
      rw [e] at h
      rcases List.mem_cons.1 h with h | h
      · exact Or.inl (h ▸ List.mem_cons_self _ _)
      · rcases ih h with h | ⟨t, ht, hs⟩
        · exact Or.inl (List.mem_cons_of_mem _ h)
        · exact Or.inr ⟨t, List.mem_cons_of_mem _ ht, hs⟩

theorem line_loop_ok (r : List Nat → Option (List ngx_addr_t)) (fuel : Nat) :
    ∀ (line : List Nat) (fa sa : Bool) (servers : List ngx_http_upstream_server_t),
      (∀ s ∈ servers, parsed_ok r s) →
      ∀ s ∈ line_loop r fuel line fa sa servers, parsed_ok r s := by
  induction fuel with
  | zero => intro line fa sa servers h; exact h
  | succ n ih =>
    intro line fa sa servers h
    unfold line_loop
    cases hg : get_one_arg line with
    | none => exact h
    | some p =>
      obtain ⟨arg, rest⟩ := p
      simp only []
      split
      · split
        · exact h
        · exact ih _ _ _ _ h
      · split
        · cases hr : r arg with
          | none => exact h
          | some addrs =>
            simp only []
            apply ih
            intro s hs
            rcases List.mem_append.1 hs with hs | hs
            · exact h s hs
            · rw [List.mem_singleton] at hs
              subst hs
              have ha := get_one_arg_spec hg
              exact new_server_ok r ha.2.1 ha.2.2 hr
        · apply ih
          intro s hs
          rcases mem_update_last hs with hs | ⟨t, ht, rfl⟩
          · exact h s hs
          · exact server_option_ok r arg t (h t ht)

theorem get_servers_loop_ok (r : List Nat → Option (List ngx_addr_t)) (fuel : Nat) :
    ∀ (body : List Nat) (servers : List ngx_http_upstream_server_t),
      (∀ s ∈ servers, parsed_ok r s) →
      ∀ s ∈ get_servers_loop r fuel body servers, parsed_ok r s := by
  induction fuel with
  | zero => intro body servers h; exact h
  | succ n ih =>
    intro body servers h
    unfold get_servers_loop
    split
    · exact ih _ _ (line_loop_ok r _ _ _ _ _ h)
    · exact line_loop_ok r _ _ _ _ _ h

theorem get_servers_ok (r : List Nat → Option (List ngx_addr_t)) (body : List Nat) :
    ∀ s ∈ get_servers r body, parsed_ok r s :=
  get_servers_loop_ok r _ body [] (by simp)

theorem server_option_weight (v : List Nat) (s : ngx_http_upstream_server_t) :
    server_option (lit_weight ++ v) s =
      if ngx_atoi v == NGX_ERROR || ngx_atoi v ≤ 0 then s
      else { s with weight := to_uint (ngx_atoi v) } := by
  simp [server_option, lit_weight, ngx_strncmp_eq]

theorem server_option_max_conns (v : List Nat) (s : ngx_http_upstream_server_t) :
    server_option (lit_max_conns ++ v) s =
      if ngx_atoi v == NGX_ERROR then s
      else { s with max_conns := to_uint (ngx_atoi v) } := by
  simp [server_option, lit_weight, lit_max_conns, ngx_strncmp_eq]

theorem server_option_max_fails (v : List Nat) (s : ngx_http_upstream_server_t) :
    server_option (lit_max_fails ++ v) s =
      if ngx_atoi v == NGX_ERROR then s
      else { s with max_fails := to_uint (ngx_atoi v) } := by
  simp [server_option, lit_weight, lit_max_conns, lit_max_fails, ngx_strncmp_eq]

theorem server_option_fail_timeout (v : List Nat) (s : ngx_http_upstream_server_t) :
    server_option (lit_fail_timeout ++ v) s =
      if ngx_parse_time v == NGX_ERROR then s
      else { s with fail_timeout := ngx_parse_time v } := by
  simp [server_option, lit_weight, lit_max_conns, lit_max_fails, lit_fail_timeout,
    ngx_strncmp_eq]

theorem server_option_down (s : ngx_http_upstream_server_t) :
    server_option lit_down s = { s with down := 1 } := by
  simp [server_option, lit_weight, lit_max_conns, lit_max_fails, lit_fail_timeout, lit_down,
    ngx_strncmp_eq]

theorem server_option_backup (s : ngx_http_upstream_server_t) :
    server_option lit_backup s = { s with backup := 1 } := by
  simp [server_option, lit_weight, lit_max_conns, lit_max_fails, lit_fail_timeout, lit_down,
    lit_backup, ngx_strncmp_eq]

theorem server_option_unknown (arg : List Nat) (s : ngx_http_upstream_server_t)
    (h1 : ngx_strncmp_eq arg lit_weight 7 = false)
    (h2 : ngx_strncmp_eq arg lit_max_conns 10 = false)
    (h3 : ngx_strncmp_eq arg lit_max_fails 10 = false)
    (h4 : ngx_strncmp_eq arg lit_fail_timeout 13 = false)
    (h5 : ngx_strncmp_eq arg lit_down 4 = false)
    (h6 : ngx_strncmp_eq arg lit_backup 6 = false) : server_option arg s = s := by
  simp [server_option, h1, h2, h3, h4, h5, h6]

theorem scenario1_eval (r : List Nat → Option (List ngx_addr_t)) (a1 a2 : List ngx_addr_t)
    (h1 : r tok_addr1 = some a1) (h2 : r tok_addr2 = some a2) :
    get_servers r body_scenario1 =
      [{ name := tok_addr1, addrs := a1, weight := 2, max_conns := 0, max_fails := 1,
         fail_timeout := 10, down := 0, backup := 0 },
       { name := tok_addr2, addrs := a2, weight := 1, max_conns := 0, max_fails := 1,
         fail_timeout := 10, down := 1, backup := 0 }] := by
  have e1 : get_one_line body_scenario1 =
      (body_scenario1.take 28, body_scenario1.drop 29) := by decide
  have e2 : get_one_line (body_scenario1.drop 29) = (body_scenario1.drop 29 |>.take 24, []) := by
    decide
  have g1 : get_one_arg (body_scenario1.take 28) =
      some (lit_server, (body_scenario1.take 28).drop 6) := by decide
  have g2 : get_one_arg ((body_scenario1.take 28).drop 6) =
      some (tok_addr1, (body_scenario1.take 28).drop 18) := by decide
  have g3 : get_one_arg ((body_scenario1.take 28).drop 18) =
      some (lit_weight ++ [50], (body_scenario1.take 28).drop 27) := by decide
  have g4 : get_one_arg ((body_scenario1.take 28).drop 27) = none := by decide
  have k1 : get_one_arg (body_scenario1.drop 29 |>.take 24) =
      some (lit_server, (body_scenario1.drop 29 |>.take 24).drop 6) := by decide
  have k2 : get_one_arg ((body_scenario1.drop 29 |>.take 24).drop 6) =
      some (tok_addr2, (body_scenario1.drop 29 |>.take 24).drop 18) := by decide
  have k3 : get_one_arg ((body_scenario1.drop 29 |>.take 24).drop 18) =
      some (lit_down, (body_scenario1.drop 29 |>.take 24).drop 23) := by decide
  have k4 : get_one_arg ((body_scenario1.drop 29 |>.take 24).drop 23) = none := by decide
  have hs : ngx_strncmp_eq lit_server lit_server lit_server.length = true := by decide
  have p1 : parse_line r (body_scenario1.take 28) =
      [{ name := tok_addr1, addrs := a1, weight := 2, max_conns := 0, max_fails := 1,
         fail_timeout := 10, down := 0, backup := 0 }] := by
    rw [parse_line, line_loop_first r false [] g1, if_pos hs, line_loop_second r [] g2, h1]
    simp only []
    rw [line_loop_option r _ g3, line_loop_done r true true _ g4]
    rfl
  have p2 : parse_line r (body_scenario1.drop 29 |>.take 24) =
      [{ name := tok_addr2, addrs := a2, weight := 1, max_conns := 0, max_fails := 1,
         fail_timeout := 10, down := 1, backup := 0 }] := by
    rw [parse_line, line_loop_first r false [] k1, if_pos hs, line_loop_second r [] k2, h2]
    simp only []
    rw [line_loop_option r _ k3, line_loop_done r true true _ k4]
    rfl
  rw [get_servers_unfold, e1]
  simp only []
  rw [if_pos (by decide), get_servers_unfold, e2]
  simp only []
  rw [if_neg (by decide), p1, p2]
  rfl

/-! ## The claims on the parser -/

/-- C6: the body of scenario 1, with both addresses resolving, parses to exactly two records in
order: `10.0.0.1:80` with weight 2 and no flag, then `10.0.0.2:80` with weight 1 and `down`
set; both with max_fails 1 and fail_timeout 10. -/
theorem get_servers_scenario1 (r : List Nat → Option (List ngx_addr_t))
    (a1 a2 : List ngx_addr_t) (h1 : r tok_addr1 = some a1) (h2 : r tok_addr2 = some a2) :
    get_servers r body_scenario1 =
      [{ name := tok_addr1, addrs := a1, weight := 2, max_conns := 0, max_fails := 1,
         fail_timeout := 10, down := 0, backup := 0 },
       { name := tok_addr2, addrs := a2, weight := 1, max_conns := 0, max_fails := 1,
         fail_timeout := 10, down := 1, backup := 0 }] :=
  scenario1_eval r a1 a2 h1 h2

/-- Witness of C6: the sample resolver. -/
theorem get_servers_scenario1_witness :
    resolve_sample tok_addr1 = some [addr1] ∧ resolve_sample tok_addr2 = some [addr2] ∧
      get_servers resolve_sample body_scenario1 =
        [{ name := tok_addr1, addrs := [addr1], weight := 2, max_conns := 0, max_fails := 1,
           fail_timeout := 10, down := 0, backup := 0 },
         { name := tok_addr2, addrs := [addr2], weight := 1, max_conns := 0, max_fails := 1,
           fail_timeout := 10, down := 1, backup := 0 }] :=
  ⟨by decide, by decide,
    get_servers_scenario1 resolve_sample [addr1] [addr2] (by decide) (by decide)⟩

/-- C7 (defect of the code): a line whose first token is the single letter `s`, not the word
`server`, yields a record.  Line 835 compares only `curr_arg.len` bytes, so every non-empty
initial part of `server` passes the test. -/
theorem get_servers_short_keyword :
    get_servers resolve_sample body_short_keyword = [srv1] := by
  decide

/-- C9 (defect of the code): the token `downx`, which is not the flag `down`, sets the `down`
field: the line with the token and the line without it give different records.  Lines 908 and
910 compare only the first 4 and 6 bytes of the token. -/
theorem get_servers_downx :
    get_servers resolve_sample body_downx = [{ srv1 with down := 1 }] ∧
      get_servers resolve_sample body_plain = [srv1] ∧
      get_servers resolve_sample body_downx ≠ get_servers resolve_sample body_plain := by
  decide

/-- C10: every record returned by `get_servers` has weight at least 1 and max_fails,
fail_timeout and max_conns at least 0, and an attribute token whose value is invalid (for
`weight=` a value `ngx_atoi` refuses or a value not above 0; for the others a value the
conversion refuses) leaves the record as it was; the values `0`, the empty value, `-3` and `x`
are invalid in this sense. -/
theorem get_servers_bounds (r : List Nat → Option (List ngx_addr_t)) (body : List Nat) :
    (∀ s ∈ get_servers r body,
        1 ≤ s.weight ∧ 0 ≤ s.max_fails ∧ 0 ≤ s.fail_timeout ∧ 0 ≤ s.max_conns) ∧
      (∀ (v : List Nat) (s : ngx_http_upstream_server_t),
        ngx_atoi v = NGX_ERROR ∨ ngx_atoi v ≤ 0 → server_option (lit_weight ++ v) s = s) ∧
      (∀ (v : List Nat) (s : ngx_http_upstream_server_t),
        ngx_atoi v = NGX_ERROR → server_option (lit_max_fails ++ v) s = s) ∧
      (∀ (v : List Nat) (s : ngx_http_upstream_server_t),
        ngx_atoi v = NGX_ERROR → server_option (lit_max_conns ++ v) s = s) ∧
      (∀ (v : List Nat) (s : ngx_http_upstream_server_t),
        ngx_parse_time v = NGX_ERROR → server_option (lit_fail_timeout ++ v) s = s) ∧
      ngx_atoi [48] = 0 ∧ ngx_atoi [] = NGX_ERROR ∧ ngx_atoi [45, 51] = NGX_ERROR ∧
      ngx_atoi [120] = NGX_ERROR := by
  refine ⟨?_, ?_, ?_, ?_, ?_, by decide, by decide, by decide, by decide⟩
  · intro s hs
    obtain ⟨_, _, _, h4, _, _, _, h8, _⟩ := get_servers_ok r body s hs
    exact ⟨h4, Nat.zero_le _, h8, Nat.zero_le _⟩
  · intro v s h
    rw [server_option_weight]
    rcases h with h | h
    · simp [h]
    · simp [h]
  · intro v s h
    rw [server_option_max_fails]
    simp [h]
  · intro v s h
    rw [server_option_max_conns]
    simp [h]
  · intro v s h
    rw [server_option_fail_timeout]
    simp [h]

/-! ## Facts about the snapshot writer -/

theorem ngx_sprintf_num_loop_append (fuel : Nat) :
    ∀ (v : Nat) (acc : List Nat),
      ngx_sprintf_num_loop fuel v acc = ngx_sprintf_num_loop fuel v [] ++ acc := by
  induction fuel with
  | zero => intro v acc; rfl
  | succ n ih =>
    intro v acc
    unfold ngx_sprintf_num_loop
    split
    · rfl
    · rw [ih (v / 10) ((v % 10 + 48) :: acc), ih (v / 10) [v % 10 + 48]]
      simp

theorem ngx_sprintf_num_loop_digits (fuel : Nat) :
    ∀ (v : Nat), ∀ c ∈ ngx_sprintf_num_loop fuel v [], 48 ≤ c ∧ c ≤ 57 := by
  induction fuel with
  | zero => intro v c hc; simp [ngx_sprintf_num_loop] at hc
  | succ n ih =>
    intro v c hc
    unfold ngx_sprintf_num_loop at hc
    split at hc
    · rw [List.mem_singleton] at hc
      omega
    · rw [ngx_sprintf_num_loop_append] at hc
      rcases List.mem_append.1 hc with hc | hc
      · exact ih _ c hc
      · rw [List.mem_singleton] at hc
        omega

theorem ngx_sprintf_num_loop_ne_nil (fuel v : Nat) :
    ngx_sprintf_num_loop (fuel + 1) v [] ≠ [] := by
  unfold ngx_sprintf_num_loop
  split
  · simp
  · rw [ngx_sprintf_num_loop_append]
    simp

theorem ngx_atoi_loop_digit (d : Nat) (rest : List Nat) (value : Nat) (hd : d < 10)
    (hv : value * 10 + d ≤ NGX_MAX_INT_T_VALUE) :
    ngx_atoi_loop ((d + 48) :: rest) value = ngx_atoi_loop rest (value * 10 + d) := by
  conv_lhs => rw [ngx_atoi_loop]
  rw [if_neg, if_neg]
  · simp
  · simp only [NGX_MAX_INT_T_VALUE, Bool.and_eq_true, Bool.or_eq_true, decide_eq_true_eq,
      ge_iff_le, gt_iff_lt, not_and, not_or, not_lt] at hv ⊢
    omega
  · simp only [Bool.or_eq_true, decide_eq_true_eq, not_or, not_lt]
    omega

theorem ngx_atoi_loop_sprintf (fuel : Nat) :
    ∀ (v : Nat) (acc : List Nat), v < 10 ^ fuel → v ≤ NGX_MAX_INT_T_VALUE →
      ngx_atoi_loop (ngx_sprintf_num_loop fuel v acc) 0 = ngx_atoi_loop acc v := by
  induction fuel with
  | zero =>
    intro v acc h _
    have : v = 0 := by simpa using h
    subst this
    rfl
  | succ n ih =>
    intro v acc h hm
    unfold ngx_sprintf_num_loop
    split
    · rename_i h0
      have hlt : v % 10 < 10 := Nat.mod_lt _ (by decide)
      rw [ngx_atoi_loop_digit (v % 10) acc 0 hlt (by simp only [NGX_MAX_INT_T_VALUE]; omega)]
      congr 1
      omega
    · rename_i h0
      have hlt : v % 10 < 10 := Nat.mod_lt _ (by decide)
      have h1 : v / 10 < 10 ^ n := by
        rw [Nat.pow_succ] at h
        omega
      rw [ih (v / 10) _ h1 (by omega)]
      rw [ngx_atoi_loop_digit (v % 10) acc (v / 10) hlt (by omega)]
      congr 1
      omega

theorem ngx_atoi_sprintf (v : Nat) (h : v ≤ NGX_MAX_INT_T_VALUE) :
    ngx_atoi (ngx_sprintf_num v) = v := by
  unfold ngx_atoi ngx_sprintf_num
  have hne := ngx_sprintf_num_loop_ne_nil 19 v
  rw [if_neg (by simpa using hne)]
  rw [ngx_atoi_loop_sprintf 20 v [] (by simp only [NGX_MAX_INT_T_VALUE] at h; omega) h]
  rfl

theorem ngx_parse_time_loop_digit (d : Nat) (rest : List Nat) (value total step : Nat)
    (valid : Bool) (hd : d < 10) (hv : value * 10 + d ≤ NGX_MAX_INT_T_VALUE) :
    ngx_parse_time_loop ((d + 48) :: rest) value total step valid false =
      ngx_parse_time_loop rest (value * 10 + d) total step true false := by
  conv_lhs => rw [ngx_parse_time_loop]
  rw [if_neg (by simp), if_pos (by simp; omega), if_neg]
  · simp
  · simp only [NGX_MAX_INT_T_VALUE, Bool.and_eq_true, Bool.or_eq_true, decide_eq_true_eq,
      ge_iff_le, gt_iff_lt, not_and, not_or, not_lt] at hv ⊢
    omega

theorem ngx_parse_time_loop_sprintf (fuel : Nat) :
    ∀ (v : Nat) (acc : List Nat) (valid : Bool), 0 < fuel → v < 10 ^ fuel →
      v ≤ NGX_MAX_INT_T_VALUE →
      ngx_parse_time_loop (ngx_sprintf_num_loop fuel v acc) 0 0 0 valid false =
        ngx_parse_time_loop acc v 0 0 true false := by
  induction fuel with
  | zero => intro v acc valid h; omega
  | succ n ih =>
    intro v acc valid _ h hm
    unfold ngx_sprintf_num_loop
    have hlt : v % 10 < 10 := Nat.mod_lt _ (by decide)
    split
    · rename_i h0
      rw [ngx_parse_time_loop_digit (v % 10) acc 0 0 0 valid hlt
        (by simp only [NGX_MAX_INT_T_VALUE]; omega)]
      congr 1
      omega
    · rename_i h0
      have h1 : v / 10 < 10 ^ n := by
        rw [Nat.pow_succ] at h
        omega
      have hn : 0 < n := by
        rcases Nat.eq_zero_or_pos n with e | e
        · subst e
          simp at h1
          omega
        · exact e
      rw [ih (v / 10) _ valid hn h1 (by omega)]
      rw [ngx_parse_time_loop_digit (v % 10) acc (v / 10) 0 0 true hlt (by omega)]
      congr 1
      omega

theorem ngx_parse_time_sprintf (v : Nat) (h : v ≤ NGX_MAX_INT_T_VALUE) :
    ngx_parse_time (ngx_sprintf_num v ++ [115]) = v := by
  unfold ngx_parse_time ngx_sprintf_num
  rw [← ngx_sprintf_num_loop_append 20 v [115]]
  rw [ngx_parse_time_loop_sprintf 20 v [115] false (by decide)
    (by simp only [NGX_MAX_INT_T_VALUE] at h; omega) h]
  simp only [NGX_MAX_INT_T_VALUE] at h
  simp [ngx_parse_time_loop, ngx_parse_time_unit, NGX_MAX_INT_T_VALUE]
  omega

theorem ngx_snprintf_full (n : Nat) (p t : List Nat)
    (h : (ngx_snprintf n p t).length < n) :
    ngx_snprintf n p t = p ++ t ∧ p.length < n := by
  unfold ngx_snprintf at h ⊢
  rw [List.length_append, List.length_take] at h
  have h1 : t.length ≤ n - p.length := by omega
  exact ⟨by rw [List.take_of_length_le h1], by omega⟩

theorem ngx_snprintf_chain (n : Nat) (t1 t2 t3 t4 t5 : List Nat) (d b : Bool)
    (h : (ngx_snprintf n
      (if b then ngx_snprintf n
        (if d then ngx_snprintf n (ngx_snprintf n (ngx_snprintf n [] t1) t2) t3
         else ngx_snprintf n (ngx_snprintf n [] t1) t2) t4
       else (if d then ngx_snprintf n (ngx_snprintf n (ngx_snprintf n [] t1) t2) t3
         else ngx_snprintf n (ngx_snprintf n [] t1) t2)) t5).length < n) :
    ngx_snprintf n
      (if b then ngx_snprintf n
        (if d then ngx_snprintf n (ngx_snprintf n (ngx_snprintf n [] t1) t2) t3
         else ngx_snprintf n (ngx_snprintf n [] t1) t2) t4
       else (if d then ngx_snprintf n (ngx_snprintf n (ngx_snprintf n [] t1) t2) t3
         else ngx_snprintf n (ngx_snprintf n [] t1) t2)) t5 =
      t1 ++ t2 ++ (if d then t3 else []) ++ (if b then t4 else []) ++ t5 := by
  obtain ⟨e5, h4⟩ := ngx_snprintf_full _ _ _ h
  rw [e5]
  cases b <;> cases d <;> simp only [if_true, if_false, Bool.false_eq_true] at h4 ⊢
  · obtain ⟨e2, h1⟩ := ngx_snprintf_full _ _ _ h4
    obtain ⟨e1, _⟩ := ngx_snprintf_full _ _ _ h1
    rw [e2, e1]; simp
  · obtain ⟨e3, h2⟩ := ngx_snprintf_full _ _ _ h4
    obtain ⟨e2, h1⟩ := ngx_snprintf_full _ _ _ h2
    obtain ⟨e1, _⟩ := ngx_snprintf_full _ _ _ h1
    rw [e3, e2, e1]; simp
  · obtain ⟨e4, h3⟩ := ngx_snprintf_full _ _ _ h4
    obtain ⟨e2, h1⟩ := ngx_snprintf_full _ _ _ h3
    obtain ⟨e1, _⟩ := ngx_snprintf_full _ _ _ h1
    rw [e4, e2, e1]; simp
  · obtain ⟨e4, h3⟩ := ngx_snprintf_full _ _ _ h4
    obtain ⟨e3, h2⟩ := ngx_snprintf_full _ _ _ h3
    obtain ⟨e2, h1⟩ := ngx_snprintf_full _ _ _ h2
    obtain ⟨e1, _⟩ := ngx_snprintf_full _ _ _ h1
    rw [e4, e3, e2, e1]; simp

theorem build_server_line_full (n : Nat) (s : ngx_http_upstream_server_t)
    (h : (build_server_line n s).length < n) :
    build_server_line n s = server_line_text s :=
  ngx_snprintf_chain n _ _ _ _ _ (s.down != 0) (s.backup != 0) h

theorem sprintf_d_small (v : Nat) (h : v < 2147483648) :
    sprintf_d (v : Int) = ngx_sprintf_num v := by
  unfold sprintf_d
  have h1 : (v : Int) % 4294967296 = v := Int.emod_eq_of_lt (Int.ofNat_nonneg v) (by omega)
  rw [h1, if_pos (by omega)]
  simp

theorem lit_weight_valid : ∀ c ∈ lit_weight, is_valid_arg_char c = true := by decide

theorem lit_max_fails_valid : ∀ c ∈ lit_max_fails, is_valid_arg_char c = true := by decide

theorem lit_fail_timeout_valid : ∀ c ∈ lit_fail_timeout, is_valid_arg_char c = true := by
  decide

theorem lit_max_conns_valid : ∀ c ∈ lit_max_conns, is_valid_arg_char c = true := by decide

theorem valid_of_digit {c : Nat} (h : 48 ≤ c ∧ c ≤ 57) : is_valid_arg_char c = true := by
  simp [is_valid_arg_char, isalnum, h.1, h.2]

theorem ngx_sprintf_num_valid (v : Nat) : ∀ c ∈ ngx_sprintf_num v, is_valid_arg_char c = true :=
  fun c hc => valid_of_digit (ngx_sprintf_num_loop_digits 20 v c hc)

theorem ngx_sprintf_num_ne_nil (v : Nat) : ngx_sprintf_num v ≠ [] :=
  ngx_sprintf_num_loop_ne_nil 19 v

theorem get_one_arg_skip_token (d0 d : Nat) (tok rest : List Nat) (htok : tok ≠ [])
    (hv : ∀ c ∈ tok, is_valid_arg_char c = true) (hd0 : is_valid_arg_char d0 = false)
    (hd : is_valid_arg_char d = false) :
    get_one_arg (d0 :: (tok ++ d :: rest)) = some (tok, d :: rest) := by
  rw [get_one_arg_skip _ hd0]
  exact get_one_arg_token tok rest d htok hv hd

theorem line_tail_cons (down backup : Nat) :
    ∃ c T, line_tail down backup = c :: T ∧ is_valid_arg_char c = false := by
  unfold line_tail
  by_cases hd : (down != 0) = true
  · rw [if_pos hd]
    exact ⟨32, _, rfl, by decide⟩
  · rw [if_neg hd]
    by_cases hb : (backup != 0) = true
    · rw [if_pos hb]
      exact ⟨32, _, rfl, by decide⟩
    · rw [if_neg hb]
      exact ⟨59, _, rfl, by decide⟩

theorem line_loop_tail (r : List Nat → Option (List ngx_addr_t)) (down backup : Nat)
    (hd : down ≤ 1) (hb : backup ≤ 1) (s : ngx_http_upstream_server_t) :
    line_loop r ((line_tail down backup).length + 1) (line_tail down backup) true true [s] =
      [{ s with down := if down != 0 then 1 else s.down,
                backup := if backup != 0 then 1 else s.backup }] := by
  have g0 : get_one_arg [59] = none := by decide
  have gd : get_one_arg (32 :: lit_down ++ [59]) = some (lit_down, [59]) := by decide
  have gb : get_one_arg (32 :: lit_backup ++ [59]) = some (lit_backup, [59]) := by decide
  have gdb : get_one_arg (32 :: lit_down ++ (32 :: lit_backup ++ [59])) =
      some (lit_down, 32 :: lit_backup ++ [59]) := by decide
  have e : ∀ (f : ngx_http_upstream_server_t → ngx_http_upstream_server_t)
      (t : ngx_http_upstream_server_t), update_last f [t] = [f t] := fun _ _ => rfl
  interval_cases down <;> interval_cases backup
  · show line_loop r (([59] : List Nat).length + 1) [59] true true [s] = _
    rw [line_loop_done r true true _ g0]
    rfl
  · show line_loop r ((32 :: lit_backup ++ [59]).length + 1) (32 :: lit_backup ++ [59])
      true true [s] = _
    rw [line_loop_option r _ gb, e, line_loop_done r true true _ g0, server_option_backup]
    rfl
  · show line_loop r ((32 :: lit_down ++ [59]).length + 1) (32 :: lit_down ++ [59])
      true true [s] = _
    rw [line_loop_option r _ gd, e, line_loop_done r true true _ g0, server_option_down]
    rfl
  · show line_loop r ((32 :: lit_down ++ (32 :: lit_backup ++ [59])).length + 1)
      (32 :: lit_down ++ (32 :: lit_backup ++ [59])) true true [s] = _
    rw [line_loop_option r _ gdb, e, line_loop_option r _ gb, e,
      line_loop_done r true true _ g0, server_option_down, server_option_backup]
    rfl

theorem line_loop_attr (r : List Nat → Option (List ngx_addr_t)) (d0 d : Nat)
    (tok rest : List Nat) (s : ngx_http_upstream_server_t) (htok : tok ≠ [])
    (hv : ∀ c ∈ tok, is_valid_arg_char c = true) (hd0 : is_valid_arg_char d0 = false)
    (hd : is_valid_arg_char d = false) :
    line_loop r ((d0 :: (tok ++ d :: rest)).length + 1) (d0 :: (tok ++ d :: rest))
        true true [s] =
      line_loop r ((d :: rest).length + 1) (d :: rest) true true [server_option tok s] := by
  rw [line_loop_option r _ (get_one_arg_skip_token d0 d tok rest htok hv hd0 hd)]
  rfl

/-- The line of a record in token form parses back to the record. -/
theorem parse_line_tokens (r : List Nat → Option (List ngx_addr_t)) (name : List Nat)
    (addrs : List ngx_addr_t) (w mf ft mc down backup : Nat)
    (hn : name ≠ []) (hnv : ∀ c ∈ name, is_valid_arg_char c = true)
    (hr : r name = some addrs) (hw1 : 1 ≤ w) (hw : w ≤ NGX_MAX_INT_T_VALUE)
    (hmf : mf ≤ NGX_MAX_INT_T_VALUE) (hft : ft ≤ NGX_MAX_INT_T_VALUE)
    (hmc : mc ≤ NGX_MAX_INT_T_VALUE) (hd : down ≤ 1) (hb : backup ≤ 1) :
    parse_line r (lit_server ++ 32 :: (name ++ 32 :: ((lit_weight ++ ngx_sprintf_num w) ++
      32 :: ((lit_max_fails ++ ngx_sprintf_num mf) ++
      32 :: ((lit_fail_timeout ++ (ngx_sprintf_num ft ++ [115])) ++
      32 :: ((lit_max_conns ++ ngx_sprintf_num mc) ++ line_tail down backup)))))) =
      [{ name := name, addrs := addrs, weight := w, max_conns := mc, max_fails := mf,
         fail_timeout := ft, down := down, backup := backup }] := by
  obtain ⟨c, T, hT, hc⟩ := line_tail_cons down backup
  have h32 : is_valid_arg_char 32 = false := by decide
  have vW : ∀ c ∈ lit_weight ++ ngx_sprintf_num w, is_valid_arg_char c = true := by
    intro c hc
    rcases List.mem_append.1 hc with h | h
    · exact lit_weight_valid c h
    · exact ngx_sprintf_num_valid w c h
  have vMF : ∀ c ∈ lit_max_fails ++ ngx_sprintf_num mf, is_valid_arg_char c = true := by
    intro c hc
    rcases List.mem_append.1 hc with h | h
    · exact lit_max_fails_valid c h
    · exact ngx_sprintf_num_valid mf c h
  have vFT : ∀ c ∈ lit_fail_timeout ++ (ngx_sprintf_num ft ++ [115]),
      is_valid_arg_char c = true := by
    intro c hc
    rcases List.mem_append.1 hc with h | h
    · exact lit_fail_timeout_valid c h
    · rcases List.mem_append.1 h with h | h
      · exact ngx_sprintf_num_valid ft c h
      · rw [List.mem_singleton] at h; subst h; decide
  have vMC : ∀ c ∈ lit_max_conns ++ ngx_sprintf_num mc, is_valid_arg_char c = true := by
    intro c hc
    rcases List.mem_append.1 hc with h | h
    · exact lit_max_conns_valid c h
    · exact ngx_sprintf_num_valid mc c h
  have g1 := get_one_arg_token lit_server (name ++ 32 :: ((lit_weight ++ ngx_sprintf_num w) ++
      32 :: ((lit_max_fails ++ ngx_sprintf_num mf) ++
      32 :: ((lit_fail_timeout ++ (ngx_sprintf_num ft ++ [115])) ++
      32 :: ((lit_max_conns ++ ngx_sprintf_num mc) ++ line_tail down backup))))) 32
      (by decide) (by decide) h32
  have g2 := get_one_arg_skip_token 32 32 name ((lit_weight ++ ngx_sprintf_num w) ++
      32 :: ((lit_max_fails ++ ngx_sprintf_num mf) ++
      32 :: ((lit_fail_timeout ++ (ngx_sprintf_num ft ++ [115])) ++
      32 :: ((lit_max_conns ++ ngx_sprintf_num mc) ++ line_tail down backup)))) hn hnv h32 h32
  rw [parse_line, line_loop_first r false [] g1, if_pos (by decide),
    line_loop_second r [] g2, hr]
  simp only [List.nil_append]
  rw [line_loop_attr r 32 32 _ _ _ (by simp [lit_weight]) vW h32 h32]
  rw [line_loop_attr r 32 32 _ _ _ (by simp [lit_max_fails]) vMF h32 h32]
  rw [line_loop_attr r 32 32 _ _ _ (by simp [lit_fail_timeout]) vFT h32 h32]
  rw [hT, line_loop_attr r 32 c _ _ _ (by simp [lit_max_conns]) vMC h32 hc, ← hT]
  rw [line_loop_tail r down backup hd hb]
  rw [server_option_weight, server_option_max_fails, server_option_fail_timeout,
    server_option_max_conns, ngx_atoi_sprintf w hw, ngx_atoi_sprintf mf hmf,
    ngx_atoi_sprintf mc hmc, ngx_parse_time_sprintf ft hft]
  have e1 : ((w : Int) == NGX_ERROR || decide ((w : Int) ≤ 0)) = false := by
    simp [NGX_ERROR]; omega
  have e2 : ((mf : Int) == NGX_ERROR) = false := by simp [NGX_ERROR]
  have e3 : ((ft : Int) == NGX_ERROR) = false := by simp [NGX_ERROR]
  have e4 : ((mc : Int) == NGX_ERROR) = false := by simp [NGX_ERROR]
  simp only [e1, e2, e3, e4, Bool.false_eq_true, if_false]
  have u1 : to_uint (w : Int) = w := by
    have := to_uint_of_range (Int.ofNat_nonneg w) (by exact_mod_cast hw); exact_mod_cast this
  have u2 : to_uint (mf : Int) = mf := by
    have := to_uint_of_range (Int.ofNat_nonneg mf) (by exact_mod_cast hmf); exact_mod_cast this
  have u4 : to_uint (mc : Int) = mc := by
    have := to_uint_of_range (Int.ofNat_nonneg mc) (by exact_mod_cast hmc); exact_mod_cast this
  simp only [u1, u2, u4, new_server]
  interval_cases down <;> interval_cases backup <;> rfl

theorem server_line_text_tokens (s : ngx_http_upstream_server_t) (ft : Nat)
    (hft : s.fail_timeout = ft)
    (hsmall : s.weight < 2147483648 ∧ s.max_fails < 2147483648 ∧ ft < 2147483648 ∧
      s.max_conns < 2147483648) :
    server_line_text s =
      lit_server ++ 32 :: (s.name ++ 32 :: ((lit_weight ++ ngx_sprintf_num s.weight) ++
      32 :: ((lit_max_fails ++ ngx_sprintf_num s.max_fails) ++
      32 :: ((lit_fail_timeout ++ (ngx_sprintf_num ft ++ [115])) ++
      32 :: ((lit_max_conns ++ ngx_sprintf_num s.max_conns) ++
        line_tail s.down s.backup))))) := by
  unfold server_line_text line_tail
  rw [hft, sprintf_d_small _ hsmall.1, sprintf_d_small _ hsmall.2.1,
    sprintf_d_small _ hsmall.2.2.1, sprintf_d_small _ hsmall.2.2.2]
  simp only [lit_server, lit_weight, lit_max_fails, lit_fail_timeout, lit_max_conns, lit_down,
    lit_backup, List.append_assoc, List.cons_append, List.nil_append]

theorem parse_server_line_text (r : List Nat → Option (List ngx_addr_t))
    (s : ngx_http_upstream_server_t) (hok : parsed_ok r s)
    (hsmall : s.weight < 2147483648 ∧ s.max_fails < 2147483648 ∧
      s.fail_timeout < 2147483648 ∧ s.max_conns < 2147483648) :
    parse_line r (server_line_text s) = [s] ∧ 10 ∉ server_line_text s := by
  obtain ⟨h1, h2, h3, h4, h5, h6, h7, h8, h9, h10, h11⟩ := hok
  have hft : s.fail_timeout = (s.fail_timeout.toNat : Nat) := (Int.toNat_of_nonneg h8).symm
  have hftm : s.fail_timeout.toNat ≤ NGX_MAX_INT_T_VALUE := by
    have : (s.fail_timeout.toNat : Int) ≤ NGX_MAX_INT_T_VALUE := by rw [← hft]; exact h9
    exact_mod_cast this
  have hfts : s.fail_timeout.toNat < 2147483648 := by
    have : (s.fail_timeout.toNat : Int) < 2147483648 := by rw [← hft]; exact hsmall.2.2.1
    exact_mod_cast this
  have htext := server_line_text_tokens s s.fail_timeout.toNat hft
    ⟨hsmall.1, hsmall.2.1, hfts, hsmall.2.2.2⟩
  rw [htext]
  constructor
  · rw [parse_line_tokens r s.name s.addrs s.weight s.max_fails s.fail_timeout.toNat s.max_conns
      s.down s.backup h1 h2 h3 h4 h5 h7 hftm h6 h10 h11, ← hft]
  · have hnl : ∀ l : List Nat, (∀ c ∈ l, is_valid_arg_char c = true) → 10 ∉ l := by
      intro l hl hm
      have := hl 10 hm
      revert this
      decide
    have hd := fun v => hnl _ (ngx_sprintf_num_valid v)
    have hname := hnl _ h2
    have htail : 10 ∉ line_tail s.down s.backup := by
      unfold line_tail
      by_cases hd : (s.down != 0) = true <;> by_cases hb : (s.backup != 0) = true <;>
        simp [hd, hb, lit_down, lit_backup]
    simp only [List.mem_append, List.mem_cons, not_or]
    refine ⟨by decide, by decide, hname, by decide, ⟨by decide, hd _⟩, by decide,
      ⟨by decide, hd _⟩, by decide, ⟨by decide, hd _, by decide⟩, by decide,
      ⟨by decide, hd _⟩, htail⟩

theorem get_servers_dump (r : List Nat → Option (List ngx_addr_t))
    (S : List ngx_http_upstream_server_t) (hok : ∀ s ∈ S, parsed_ok r s)
    (hfit : ∀ s ∈ S, (build_server_line (DUMP_BUFFER_SIZE - 1) s).length < DUMP_BUFFER_SIZE - 1)
    (hsmall : ∀ s ∈ S, s.weight < 2147483648 ∧ s.max_fails < 2147483648 ∧
      s.fail_timeout < 2147483648 ∧ s.max_conns < 2147483648) :
    get_servers r (dump_serverlist S) = S := by
  induction S with
  | nil => rfl
  | cons s rest ih =>
    have hs := List.mem_cons_self s rest
    have hline := build_server_line_full _ s (hfit s hs)
    obtain ⟨hp, hnl⟩ := parse_server_line_text r s (hok s hs) (hsmall s hs)
    have hrest := ih (fun t ht => hok t (List.mem_cons_of_mem _ ht))
      (fun t ht => hfit t (List.mem_cons_of_mem _ ht))
      (fun t ht => hsmall t (List.mem_cons_of_mem _ ht))
    have e : dump_serverlist (s :: rest) = server_line_text s ++ 10 :: dump_serverlist rest := by
      simp [dump_serverlist, hline]
    rw [e, get_servers_append_newline r _ _ _ (le_refl _), hrest]
    rw [get_servers_unfold, get_one_line_no_newline hnl]
    simp [hp]

theorem unchanged_self_of_parsed (r : List Nat → Option (List ngx_addr_t))
    (S : List ngx_http_upstream_server_t) (hok : ∀ s ∈ S, parsed_ok r s) :
    upstream_servers_changed S S = 0 := by
  rw [upstream_servers_changed_eq_zero]
  refine ⟨rfl, fun s hs => ?_⟩
  apply server_loop_j_complete
  · exact ⟨s, hs, (server_fields_differ_iff s s).2 ⟨rfl, rfl, rfl, rfl, rfl, rfl, rfl, rfl⟩⟩
  · intro t ht hf
    have hname := ((server_fields_differ_iff s t).1 hf).1
    have h1 := (hok s hs).2.2.1
    have h2 := (hok t ht).2.2.1
    rw [← hname, h1] at h2
    have : s.addrs = t.addrs := Option.some.inj h2
    rw [← this, addr_loop_k_iff]
    exact fun a ha => ⟨a, ha, addr_equal_refl a⟩

set_option maxRecDepth 1000000 in
theorem get_servers_body_long :
    get_servers resolve_long body_long = [new_server tok_long [addr1]] := by
  decide

set_option maxRecDepth 1000000 in
theorem get_servers_dump_long :
    get_servers resolve_long (dump_serverlist [new_server tok_long [addr1]]) = [] := by
  decide

/-! ## The claim on the round trip -/

/-- C5, as stated, fails: the record of `server 0...010.0.0.1:80;` (500 leading zeros) has a
line longer than the 511 bytes of the line buffer; the snapshot holds a line cut inside the
address, which parses to no record, so the set read back differs from the set written. -/
theorem dump_round_trip_long_name :
    upstream_servers_changed (get_servers resolve_long body_long)
      (get_servers resolve_long (dump_serverlist (get_servers resolve_long body_long))) = 1 := by
  rw [get_servers_body_long, get_servers_dump_long]
  decide

/-- C5 (amended): for every server set `S` that `get_servers` produces, of which every line
written by `build_server_line` is shorter than the 511 bytes of the line buffer and every
weight, max_fails, fail_timeout and max_conns is below 2^31, parsing the snapshot text of `S`
yields a set that is unchanged against `S` in both directions (it is `S` itself); address
resolution is the same function in both parses. -/
theorem dump_round_trip (r : List Nat → Option (List ngx_addr_t)) (body : List Nat)
    (hfit : ∀ s ∈ get_servers r body,
      (build_server_line (DUMP_BUFFER_SIZE - 1) s).length < DUMP_BUFFER_SIZE - 1)
    (hsmall : ∀ s ∈ get_servers r body, s.weight < 2147483648 ∧ s.max_fails < 2147483648 ∧
      s.fail_timeout < 2147483648 ∧ s.max_conns < 2147483648) :
    get_servers r (dump_serverlist (get_servers r body)) = get_servers r body ∧
      upstream_servers_changed (get_servers r body)
        (get_servers r (dump_serverlist (get_servers r body))) = 0 ∧
      upstream_servers_changed (get_servers r (dump_serverlist (get_servers r body)))
        (get_servers r body) = 0 := by
  have hok := get_servers_ok r body
  have e := get_servers_dump r (get_servers r body) hok hfit hsmall
  rw [e]
  exact ⟨rfl, unchanged_self_of_parsed r _ hok, unchanged_self_of_parsed r _ hok⟩

set_option maxRecDepth 100000 in
/-- Witness of C5 (amended): the body of scenario 1 with the sample resolver. -/
theorem dump_round_trip_witness :
    (∀ s ∈ get_servers resolve_sample body_scenario1,
      (build_server_line (DUMP_BUFFER_SIZE - 1) s).length < DUMP_BUFFER_SIZE - 1) ∧
    (∀ s ∈ get_servers resolve_sample body_scenario1,
      s.weight < 2147483648 ∧ s.max_fails < 2147483648 ∧
      s.fail_timeout < 2147483648 ∧ s.max_conns < 2147483648) ∧
    get_servers resolve_sample (dump_serverlist (get_servers resolve_sample body_scenario1)) =
      get_servers resolve_sample body_scenario1 ∧
    upstream_servers_changed (get_servers resolve_sample body_scenario1)
      (get_servers resolve_sample
        (dump_serverlist (get_servers resolve_sample body_scenario1))) = 0 ∧
    upstream_servers_changed
      (get_servers resolve_sample
        (dump_serverlist (get_servers resolve_sample body_scenario1)))
      (get_servers resolve_sample body_scenario1) = 0 :=
  ⟨by decide, by decide,
    dump_round_trip resolve_sample body_scenario1 (by decide) (by decide)⟩

/-! ## Facts about the poller state -/

theorem sl_update_length (f : serverlist → serverlist) (l : List serverlist) (i : Nat) :
    (sl_update f l i).length = l.length := by
  induction l generalizing i with
  | nil => rfl
  | cons a rest ih =>
    cases i with
    | zero => rfl
    | succ n => simp [sl_update, ih]

theorem sl_at_update (f : serverlist → serverlist) (l : List serverlist) (i j : Nat) :
    sl_at (sl_update f l i) j =
      if j = i ∧ i < l.length then f (sl_at l i) else sl_at l j := by
  induction l generalizing i j with
  | nil => simp [sl_update, sl_at]
  | cons a rest ih =>
    cases i with
    | zero =>
      cases j with
      | zero => simp [sl_update, sl_at]
      | succ m => simp [sl_update, sl_at]
    | succ n =>
      cases j with
      | zero => simp [sl_update, sl_at]
      | succ m =>
        have h := ih n m
        simp only [sl_at, List.getD_cons_succ, sl_update, List.length_cons] at h ⊢
        rw [h]
        simp

/-! ## The claims on `refresh_upstream` -/

/-- C11: for every body from which `get_servers` returns no record, `refresh_upstream` returns
-1 and leaves the state as it was: the live server array of the group is the same, no pool is
built and no snapshot is written. -/
theorem refresh_upstream_no_servers (env : host_env) (st : poller_state) (i : Nat)
    (body : List Nat) (h : (get_servers env.ngx_parse_url body).length = 0) :
    (refresh_upstream env st i body).1 = -1 ∧
      (refresh_upstream env st i body).2 = st ∧
      (sl_at (refresh_upstream env st i body).2.serverlists i).servers =
        (sl_at st.serverlists i).servers ∧
      (refresh_upstream env st i body).2.pool_builds = st.pool_builds ∧
      (refresh_upstream env st i body).2.snapshots = st.snapshots := by
  have e : refresh_upstream env st i body = (-1, st) := by
    unfold refresh_upstream
    split
    · rfl
    · rw [if_pos (by omega)]
  rw [e]
  exact ⟨rfl, rfl, rfl, rfl, rfl⟩

/-- C19: when the new server set differs from the live one and
`ngx_http_upstream_init_round_robin` fails on it, `refresh_upstream` returns -1, the server
array of every group is the one from before the call (the pool was built on the new array and
then once more on the old one), and no snapshot is written. -/
theorem refresh_upstream_rollback (env : host_env) (st : poller_state) (i : Nat)
    (body : List Nat) (halloc : env.conf_alloc_ok = true)
    (hne : 0 < (get_servers env.ngx_parse_url body).length)
    (hch : upstream_servers_changed (sl_at st.serverlists i).servers
      (get_servers env.ngx_parse_url body) ≠ 0)
    (hfail : env.ngx_http_upstream_init_round_robin (get_servers env.ngx_parse_url body) =
      false) :
    (refresh_upstream env st i body).1 = -1 ∧
      (refresh_upstream env st i body).2.serverlists = st.serverlists ∧
      (refresh_upstream env st i body).2.snapshots = st.snapshots ∧
      (refresh_upstream env st i body).2.pool_builds =
        st.pool_builds ++
          [get_servers env.ngx_parse_url body, (sl_at st.serverlists i).servers] := by
  unfold refresh_upstream
  rw [if_neg (by simp [halloc]), if_neg (by omega), if_neg hch, if_pos (by simp [hfail])]
  exact ⟨rfl, rfl, rfl, rfl⟩

/-- Witness of C11: the empty body. -/
theorem refresh_upstream_no_servers_witness :
    (get_servers env_sample.ngx_parse_url []).length = 0 ∧
      (refresh_upstream env_sample sample_state 0 []).1 = -1 ∧
      (refresh_upstream env_sample sample_state 0 []).2 = sample_state ∧
      (sl_at (refresh_upstream env_sample sample_state 0 []).2.serverlists 0).servers =
        (sl_at sample_state.serverlists 0).servers ∧
      (refresh_upstream env_sample sample_state 0 []).2.pool_builds =
        sample_state.pool_builds ∧
      (refresh_upstream env_sample sample_state 0 []).2.snapshots = sample_state.snapshots :=
  ⟨by decide, refresh_upstream_no_servers env_sample sample_state 0 [] (by decide)⟩

/-- Witness of C19: the sample body for group 0, in a host whose pool construction fails. -/
theorem refresh_upstream_rollback_witness :
    ({ env_sample with ngx_http_upstream_init_round_robin := fun _ => false }).conf_alloc_ok =
        true ∧
      (refresh_upstream
        { env_sample with ngx_http_upstream_init_round_robin := fun _ => false }
        sample_state 0 sample_body).1 = -1 ∧
      (refresh_upstream
        { env_sample with ngx_http_upstream_init_round_robin := fun _ => false }
        sample_state 0 sample_body).2.serverlists = sample_state.serverlists ∧
      (refresh_upstream
        { env_sample with ngx_http_upstream_init_round_robin := fun _ => false }
        sample_state 0 sample_body).2.snapshots = sample_state.snapshots ∧
      (refresh_upstream
        { env_sample with ngx_http_upstream_init_round_robin := fun _ => false }
        sample_state 0 sample_body).2.pool_builds =
        sample_state.pool_builds ++
          [get_servers resolve_sample sample_body, (sl_at sample_state.serverlists 0).servers] :=
  ⟨rfl, refresh_upstream_rollback
    { env_sample with ngx_http_upstream_init_round_robin := fun _ => false }
    sample_state 0 sample_body rfl (by decide) (by decide) rfl⟩

/-! ## The claims on the timeout handler and on sharding -/

/-- C16: `refresh_timeout_handler`, run in any state, leaves the live server array, the cached
ETag and the cached time of every group as they were, and the record of calls into the host as
well; of the groups only `new_pool` of the group under the cursor is written (it is unset
afterwards), and of the poller only the connection and the refresh timer: outside of shutdown
the connection is closed and the refresh timer is set. -/
theorem refresh_timeout_handler_frame (env : host_env) (st : poller_state) :
    (refresh_timeout_handler env st).serverlists.length = st.serverlists.length ∧
      (∀ j, (sl_at (refresh_timeout_handler env st).serverlists j).servers =
            (sl_at st.serverlists j).servers ∧
          (sl_at (refresh_timeout_handler env st).serverlists j).etag =
            (sl_at st.serverlists j).etag ∧
          (sl_at (refresh_timeout_handler env st).serverlists j).last_modified =
            (sl_at st.serverlists j).last_modified ∧
          (sl_at (refresh_timeout_handler env st).serverlists j).name =
            (sl_at st.serverlists j).name ∧
          (sl_at (refresh_timeout_handler env st).serverlists j).host =
            (sl_at st.serverlists j).host ∧
          (sl_at (refresh_timeout_handler env st).serverlists j).pool =
            (sl_at st.serverlists j).pool ∧
          (j ≠ st.sc.serverlists_curr →
            (sl_at (refresh_timeout_handler env st).serverlists j).new_pool =
              (sl_at st.serverlists j).new_pool)) ∧
      (refresh_timeout_handler env st).pool_builds = st.pool_builds ∧
      (refresh_timeout_handler env st).snapshots = st.snapshots ∧
      (refresh_timeout_handler env st).refresh_calls = st.refresh_calls ∧
      { (refresh_timeout_handler env st).sc with
          connection := st.sc.connection, refresh_timer := st.sc.refresh_timer } = st.sc ∧
      (env.exiting = true → refresh_timeout_handler env st = st) ∧
      (env.exiting = false →
        (refresh_timeout_handler env st).sc.connection = false ∧
        (refresh_timeout_handler env st).sc.refresh_timer = some env.random_interval_ms ∧
        (sl_at (refresh_timeout_handler env st).serverlists st.sc.serverlists_curr).new_pool =
          false) := by
  unfold refresh_timeout_handler
  cases hx : env.exiting
  · simp only [Bool.false_eq_true, if_false, with_sc, with_sl, sl_update_length]
    refine ⟨trivial, ?_, trivial, trivial, trivial, trivial, ?_, ?_⟩
    · intro j
      rw [sl_at_update]
      split
      · rename_i h
        rw [h.1]
        simp
      · rename_i h
        refine ⟨rfl, rfl, rfl, rfl, rfl, rfl, fun _ => rfl⟩
    · intro h; cases h
    · intro _
      refine ⟨by trivial, by trivial, ?_⟩
      rw [sl_at_update]
      split
      · rfl
      · rename_i h
        have h2 : ¬ st.sc.serverlists_curr < st.serverlists.length := by
          intro h3; exact h ⟨rfl, h3⟩
        unfold sl_at
        rw [List.getD_eq_default _ _ (by omega)]
        rfl
  · simp

/-- Witness of C16: the timeout fires on the sample poller, outside of shutdown. -/
theorem refresh_timeout_handler_frame_witness :
    env_sample.exiting = false ∧
      (refresh_timeout_handler env_sample sample_state).sc.connection = false ∧
      (sl_at (refresh_timeout_handler env_sample sample_state).serverlists 0).servers =
        (sl_at sample_state.serverlists 0).servers ∧
      (sl_at (refresh_timeout_handler env_sample sample_state).serverlists 0).etag =
        (sl_at sample_state.serverlists 0).etag :=
  ⟨rfl, ((refresh_timeout_handler_frame env_sample sample_state).2.2.2.2.2.2.2 rfl).1,
    ((refresh_timeout_handler_frame env_sample sample_state).2.1 0).1,
    ((refresh_timeout_handler_frame env_sample sample_state).2.1 0).2.1⟩

theorem u64_of_lt {x : Nat} (h : x < 18446744073709551616) : u64 x = x :=
  Nat.mod_eq_of_lt h

theorem blocksize_spec (n c : Nat) (hc : 1 ≤ c) (hn : n < 9223372036854775808)
    (hc2 : c < 9223372036854775808) :
    1 ≤ blocksize n c ∧ n ≤ blocksize n c * c ∧ blocksize n c * c ≤ n + c ∧
      (c ≤ n → blocksize n c = (n + (c - 1)) / c) ∧ (n < c → blocksize n c = 1) := by
  unfold blocksize
  by_cases h : n ≥ c
  · rw [if_pos h, u64_of_lt (by omega : c - 1 < 18446744073709551616),
      u64_of_lt (by omega : n + (c - 1) < 18446744073709551616)]
    have h1 := Nat.div_mul_le_self (n + (c - 1)) c
    have h2 := Nat.lt_div_mul_add (a := n + (c - 1)) (b := c) (by omega)
    refine ⟨?_, by omega, by omega, fun _ => rfl, fun h3 => by omega⟩
    exact (Nat.one_le_div_iff (by omega)).2 (by omega)
  · rw [if_neg h]
    refine ⟨le_refl _, by omega, by omega, fun h3 => by omega, fun _ => rfl⟩

theorem shard_start_eq (n c i : Nat) (hc : 1 ≤ c) (hn : n < 9223372036854775808)
    (hc2 : c < 9223372036854775808) (hi : i ≤ c) :
    shard_start n c i = min n (blocksize n c * i) := by
  obtain ⟨_, _, h3, _⟩ := blocksize_spec n c hc hn hc2
  have h4 : blocksize n c * i ≤ blocksize n c * c := Nat.mul_le_mul_left _ hi
  unfold shard_start
  rw [u64_of_lt (by omega : blocksize n c * i < 18446744073709551616), Nat.zero_add,
    u64_of_lt (by omega : blocksize n c * i < 18446744073709551616)]

theorem shard_end_eq (n c i : Nat) (hc : 1 ≤ c) (hn : n < 9223372036854775808)
    (hc2 : c < 9223372036854775808) (hi : i < c) :
    shard_end n c i = min n (blocksize n c * (i + 1)) := by
  obtain ⟨_, _, h3, _⟩ := blocksize_spec n c hc hn hc2
  have h4 : blocksize n c * (i + 1) ≤ blocksize n c * c := Nat.mul_le_mul_left _ hi
  have h5 : blocksize n c * (i + 1) = blocksize n c * i + blocksize n c := Nat.mul_succ _ _
  unfold shard_end
  rw [shard_start_eq n c i hc hn hc2 (by omega)]
  have h6 : min n (blocksize n c * i) + blocksize n c < 18446744073709551616 := by
    have := Nat.min_le_right n (blocksize n c * i)
    omega
  rw [u64_of_lt h6, h5]
  omega

/-- C17: for `n` groups and `c` pollers (`c` at least 1, both below 2^63, so that the
arithmetic of `ngx_uint_t` does not wrap), the shards that `init_process` assigns start at 0,
each shard ends where the next one starts, the last one ends at `n`, no shard is longer than
the block size, the shards are pairwise disjoint and every group index below `n` lies in the
shard of exactly one poller.  The block size is the least `b` with `b * c` at least `n` when
`n` is at least `c`, and 1 otherwise. -/
theorem init_process_shards (env : host_env) (n c : Nat) (hc : 1 ≤ c)
    (hn : n < 9223372036854775808) (hc2 : c < 9223372036854775808) :
    (∀ i, i < c →
        ((init_process env n c).getD i default).serverlists_start = shard_start n c i ∧
        ((init_process env n c).getD i default).serverlists_end = shard_end n c i ∧
        ((init_process env n c).getD i default).serverlists_curr = shard_start n c i) ∧
      (init_process env n c).length = c ∧
      shard_start n c 0 = 0 ∧
      (∀ i, i + 1 < c → shard_end n c i = shard_start n c (i + 1)) ∧
      shard_end n c (c - 1) = n ∧
      (∀ i, i < c → shard_start n c i ≤ shard_end n c i ∧
        shard_end n c i - shard_start n c i ≤ blocksize n c) ∧
      (∀ i j, i < j → j < c → shard_end n c i ≤ shard_start n c j) ∧
      (∀ g, g < n → ∃ i, (i < c ∧ shard_start n c i ≤ g ∧ g < shard_end n c i) ∧
        ∀ k, k < c ∧ shard_start n c k ≤ g ∧ g < shard_end n c k → k = i) ∧
      (c ≤ n → n ≤ blocksize n c * c ∧ (blocksize n c - 1) * c < n) ∧
      (n < c → blocksize n c = 1) := by
  obtain ⟨b1, b2, b3, b4, b5⟩ := blocksize_spec n c hc hn hc2
  refine ⟨?_, by simp [init_process], ?_, ?_, ?_, ?_, ?_, ?_, ?_, b5⟩
  · intro i hi
    have : (init_process env n c).getD i default = init_service_conn env n c i := by
      simp [init_process, List.getD_eq_getElem?_getD, hi]
    rw [this]
    exact ⟨rfl, rfl, rfl⟩
  · rw [shard_start_eq n c 0 hc hn hc2 (by omega)]
    simp
  · intro i hi
    rw [shard_end_eq n c i hc hn hc2 (by omega), shard_start_eq n c (i + 1) hc hn hc2 (by omega)]
  · rw [shard_end_eq n c (c - 1) hc hn hc2 (by omega)]
    have : c - 1 + 1 = c := by omega
    rw [this]
    omega
  · intro i hi
    rw [shard_end_eq n c i hc hn hc2 hi, shard_start_eq n c i hc hn hc2 (by omega)]
    have h5 : blocksize n c * (i + 1) = blocksize n c * i + blocksize n c := Nat.mul_succ _ _
    omega
  · intro i j hij hj
    rw [shard_end_eq n c i hc hn hc2 (by omega), shard_start_eq n c j hc hn hc2 (by omega)]
    have h5 : blocksize n c * (i + 1) ≤ blocksize n c * j := Nat.mul_le_mul_left _ hij
    omega
  · intro g hg
    have hb : 0 < blocksize n c := b1
    have hlt : g / blocksize n c < c := by
      rw [Nat.div_lt_iff_lt_mul hb]
      rw [Nat.mul_comm]
      omega
    refine ⟨g / blocksize n c, ⟨hlt, ?_, ?_⟩, ?_⟩
    · rw [shard_start_eq n c _ hc hn hc2 (by omega)]
      have := Nat.mul_div_le g (blocksize n c)
      omega
    · rw [shard_end_eq n c _ hc hn hc2 hlt]
      have := Nat.lt_mul_div_succ g hb
      omega
    · rintro k ⟨hk, hs, he⟩
      rw [shard_start_eq n c k hc hn hc2 (by omega)] at hs
      rw [shard_end_eq n c k hc hn hc2 hk] at he
      have hs2 : blocksize n c * k ≤ g := by omega
      have he2 : g < blocksize n c * (k + 1) := by omega
      apply Nat.le_antisymm
      · rw [Nat.le_div_iff_mul_le hb, Nat.mul_comm]
        exact hs2
      · have : g / blocksize n c < k + 1 := by
          rw [Nat.div_lt_iff_lt_mul hb, Nat.mul_comm]
          exact he2
        omega
  · intro hcn
    refine ⟨b2, ?_⟩
    rw [b4 hcn]
    have h1 := Nat.div_mul_le_self (n + (c - 1)) c
    have h2 : ((n + (c - 1)) / c - 1) * c = (n + (c - 1)) / c * c - c := by
      rw [Nat.sub_mul, Nat.one_mul]
    omega

/-- Witness of C17: five groups on two pollers. -/
theorem init_process_shards_witness :
    (1 : Nat) ≤ 2 ∧ (5 : Nat) < 9223372036854775808 ∧ (2 : Nat) < 9223372036854775808 ∧
      shard_start 5 2 0 = 0 ∧ shard_end 5 2 (2 - 1) = 5 ∧
      (∀ g, g < 5 → ∃ i, (i < 2 ∧ shard_start 5 2 i ≤ g ∧ g < shard_end 5 2 i) ∧
        ∀ k, k < 2 ∧ shard_start 5 2 k ≤ g ∧ g < shard_end 5 2 k → k = i) :=
  ⟨by decide, by decide, by decide,
    (init_process_shards env_sample 5 2 (by decide) (by decide) (by decide)).2.2.1,
    (init_process_shards env_sample 5 2 (by decide) (by decide) (by decide)).2.2.2.2.1,
    (init_process_shards env_sample 5 2 (by decide) (by decide) (by decide)).2.2.2.2.2.2.2.1⟩

/-! ## Facts about the receive loop -/

theorem same_cursor_refl (a : service_conn) : same_cursor a a := ⟨rfl, rfl, rfl⟩

theorem same_cursor_trans {a b c : service_conn} (h1 : same_cursor a b)
    (h2 : same_cursor b c) : same_cursor a c :=
  ⟨h1.1.trans h2.1, h1.2.1.trans h2.2.1, h1.2.2.trans h2.2.2⟩

theorem advance_cursor_congr {a b : service_conn} (h : same_cursor a b) :
    advance_cursor a = advance_cursor b := by
  unfold advance_cursor
  rw [h.1, h.2.1, h.2.2]

theorem enlarge_recv_cursor (env : host_env) (sc sc1 : service_conn)
    (h : enlarge_recv env sc = some sc1) : same_cursor sc1 sc := by
  unfold enlarge_recv at h
  split at h
  · split at h
    · cases h; exact ⟨rfl, rfl, rfl⟩
    · cases h
  · cases h; exact ⟨rfl, rfl, rfl⟩

theorem recv_headers_done_cursor (sc : service_conn) (locals : recv_locals) (ret : Int) :
    same_cursor (recv_headers_done sc locals ret).2 sc := by
  unfold recv_headers_done
  split
  · exact ⟨rfl, rfl, rfl⟩
  · split
    · exact ⟨rfl, rfl, rfl⟩
    · split <;> exact ⟨rfl, rfl, rfl⟩

theorem recv_headers_done_exit (sc : service_conn) (locals : recv_locals) (ret : Int) :
    (recv_headers_done sc locals ret).1 ≠ some loop_exit.to_exit := by
  unfold recv_headers_done
  split
  · simp
  · split
    · simp
    · split <;> simp

theorem recv_parse_cursor (env : host_env) (sc : service_conn) (locals : recv_locals)
    (prev : Nat) : same_cursor (recv_parse env sc locals prev).2.1 sc := by
  unfold recv_parse
  simp only []
  split
  · exact ⟨rfl, rfl, rfl⟩
  · split
    · exact ⟨rfl, rfl, rfl⟩
    · split
      · exact ⟨rfl, rfl, rfl⟩
      · split
        · exact ⟨rfl, rfl, rfl⟩
        · split
          · exact ⟨rfl, rfl, rfl⟩
          · exact recv_headers_done_cursor _ _ _

theorem recv_parse_exit (env : host_env) (sc : service_conn) (locals : recv_locals)
    (prev : Nat) :
    (recv_parse env sc locals prev).1 = some loop_exit.to_exit ↔
      0 ≤ (env.phr_parse_response sc.recv locals.num_headers prev).ret ∧
        (env.phr_parse_response sc.recv locals.num_headers prev).status ≠ 200 := by
  unfold recv_parse
  simp only []
  split
  · rename_i h; simp [h]
  · split
    · rename_i h; simp [h]
    · split
      · rename_i h; simp; intro h2; omega
      · rename_i h1 h2 h3
        split
        · rename_i h; simp [h]; omega
        · split
          · rename_i h4 h5; simp [h5]; omega
          · rename_i h4 h5
            have := recv_headers_done_exit sc
              { headers := (env.phr_parse_response sc.recv locals.num_headers prev).headers,
                num_headers :=
                  (env.phr_parse_response sc.recv locals.num_headers prev).num_headers,
                status := (env.phr_parse_response sc.recv locals.num_headers prev).status }
              (env.phr_parse_response sc.recv locals.num_headers prev).ret
            simp only [ne_eq, Decidable.not_not] at h5
            simp only [h5] at this
            simp [this, h5]

theorem recv_parse_exit_status (env : host_env) (sc : service_conn) (locals : recv_locals)
    (prev : Nat) (h : (recv_parse env sc locals prev).1 = some loop_exit.to_exit) :
    (recv_parse env sc locals prev).2.2.status ≠ 200 := by
  have h2 := (recv_parse_exit env sc locals prev).1 h
  unfold recv_parse
  simp only []
  split
  · exact h2.2
  · split
    · exact h2.2
    · split
      · exact h2.2
      · split
        · exact h2.2
        · split
          · exact h2.2
          · exact h2.2

theorem recv_got_cursor (env : host_env) (sc : service_conn) (locals : recv_locals)
    (got : List Nat) : same_cursor (recv_got env sc locals got).2.1 sc := by
  unfold recv_got
  split
  · split
    · exact ⟨rfl, rfl, rfl⟩
    · split
      · exact ⟨rfl, rfl, rfl⟩
      · exact same_cursor_trans (recv_parse_cursor _ _ _ _) ⟨rfl, rfl, rfl⟩
  · exact same_cursor_trans (recv_parse_cursor _ _ _ _) ⟨rfl, rfl, rfl⟩

theorem recv_got_exit_status (env : host_env) (sc : service_conn) (locals : recv_locals)
    (got : List Nat) (h : (recv_got env sc locals got).1 = some loop_exit.to_exit) :
    (recv_got env sc locals got).2.2.status ≠ 200 := by
  unfold recv_got at h ⊢
  split at h
  · rw [if_pos (by assumption)]
    split at h
    · simp at h
    · split at h
      · simp at h
      · rw [if_neg (by assumption), if_neg (by assumption)]
        exact recv_parse_exit_status _ _ _ _ h
  · rw [if_neg (by assumption)]
    exact recv_parse_exit_status _ _ _ _ h

theorem recv_loop_cursor (env : host_env) (fuel : Nat) :
    ∀ (sc : service_conn) (locals : recv_locals) (socket : List recv_event),
      same_cursor (recv_loop env fuel sc locals socket).2.1 sc ∧
        ((recv_loop env fuel sc locals socket).1 = loop_exit.to_exit →
          (recv_loop env fuel sc locals socket).2.2.1.status ≠ 200) := by
  induction fuel with
  | zero => intro sc locals socket; exact ⟨⟨rfl, rfl, rfl⟩, by simp [recv_loop]⟩
  | succ n ih =>
    intro sc locals socket
    unfold recv_loop
    cases he : enlarge_recv env sc with
    | none => exact ⟨⟨rfl, rfl, rfl⟩, by simp⟩
    | some sc1 =>
      have hc := enlarge_recv_cursor env sc sc1 he
      simp only []
      cases socket with
      | nil => exact ⟨hc, by simp⟩
      | cons ev rest =>
        cases ev with
        | again => exact ⟨hc, by simp⟩
        | closed => exact ⟨hc, by simp⟩
        | error => exact ⟨hc, by simp⟩
        | data bytes =>
          simp only []
          split
          · exact ⟨hc, by simp⟩
          · have hg := recv_got_cursor env sc1 locals
              (bytes.take (sc1.recv_size - sc1.recv.length))
            have hs := recv_got_exit_status env sc1 locals
              (bytes.take (sc1.recv_size - sc1.recv.length))
            split
            · rename_i e sc2 locals2 heq
              rw [heq] at hg hs
              exact ⟨same_cursor_trans hg hc, fun h => hs (by simpa using h)⟩
            · rename_i sc2 locals2 heq
              rw [heq] at hg
              have := ih sc2 locals2
                (if (bytes.drop (sc1.recv_size - sc1.recv.length)).length = 0 then rest
                 else recv_event.data (bytes.drop (sc1.recv_size - sc1.recv.length)) :: rest)
              exact ⟨same_cursor_trans this.1 (same_cursor_trans hg hc), this.2⟩

/-! ## Facts about the cursor -/

theorem close_connection_frame (env : host_env) (st : poller_state) :
    (close_connection env st).serverlists = st.serverlists ∧
      (close_connection env st).pool_builds = st.pool_builds ∧
      (close_connection env st).snapshots = st.snapshots ∧
      (close_connection env st).refresh_calls = st.refresh_calls ∧
      same_cursor (close_connection env st).sc st.sc :=
  ⟨rfl, rfl, rfl, rfl, rfl, rfl, rfl⟩

theorem exit_step_frame (env : host_env) (st : poller_state) :
    (exit_step env st).serverlists = st.serverlists ∧
      (exit_step env st).pool_builds = st.pool_builds ∧
      (exit_step env st).snapshots = st.snapshots ∧
      (exit_step env st).refresh_calls = st.refresh_calls := by
  unfold exit_step
  split <;> split <;> exact ⟨rfl, rfl, rfl, rfl⟩

theorem exit_step_cursor (env : host_env) (st : poller_state) :
    (exit_step env st).sc.serverlists_curr = advance_cursor st.sc ∧
      (exit_step env st).sc.serverlists_start = st.sc.serverlists_start ∧
      (exit_step env st).sc.serverlists_end = st.sc.serverlists_end := by
  unfold exit_step advance_cursor
  by_cases h : st.sc.serverlists_curr + 1 ≥ st.sc.serverlists_end
  · have h2 : ¬ (st.sc.serverlists_curr + 1 < st.sc.serverlists_end) := by omega
    rw [if_pos h, if_neg h2]
    split <;> exact ⟨rfl, rfl, rfl⟩
  · have h2 : st.sc.serverlists_curr + 1 < st.sc.serverlists_end := by omega
    rw [if_neg h, if_pos h2]
    split <;> exact ⟨rfl, rfl, rfl⟩

theorem advance_cursor_ne (sc : service_conn)
    (h2 : sc.serverlists_curr < sc.serverlists_end)
    (h3 : sc.serverlists_start + 1 < sc.serverlists_end) :
    advance_cursor sc ≠ sc.serverlists_curr := by
  unfold advance_cursor
  split <;> omega

theorem advance_cursor_range (sc : service_conn)
    (h1 : sc.serverlists_start ≤ sc.serverlists_curr)
    (h2 : sc.serverlists_curr < sc.serverlists_end) :
    sc.serverlists_start ≤ advance_cursor sc ∧ advance_cursor sc < sc.serverlists_end := by
  unfold advance_cursor
  split <;> omega

theorem refresh_upstream_sc (env : host_env) (st : poller_state) (i : Nat) (body : List Nat) :
    (refresh_upstream env st i body).2.sc = st.sc := by
  unfold refresh_upstream
  split
  · rfl
  · split
    · rfl
    · split
      · rfl
      · split
        · rfl
        · split <;> rfl

theorem after_refresh_cursor (env : host_env) (i : Nat) (ret : Int) (st : poller_state) :
    (after_refresh env i ret st).sc.serverlists_curr = advance_cursor st.sc ∧
      (after_refresh env i ret st).refresh_calls = st.refresh_calls := by
  unfold after_refresh
  split
  · exact ⟨(exit_step_cursor _ _).1, (exit_step_frame _ _).2.2.2⟩
  · exact ⟨(exit_step_cursor _ _).1, (exit_step_frame _ _).2.2.2⟩

theorem call_refresh_cursor (env : host_env) (i : Nat) (st : poller_state) :
    (call_refresh env i st).sc.serverlists_curr = advance_cursor st.sc ∧
      (call_refresh env i st).refresh_calls =
        st.refresh_calls ++ [(refresh_upstream env st i (body_bytes st.sc)).1] := by
  unfold call_refresh
  refine ⟨?_, ?_⟩
  · rw [(after_refresh_cursor _ _ _ _).1]
    apply advance_cursor_congr
    show same_cursor (refresh_upstream env st i (body_bytes st.sc)).2.sc st.sc
    rw [refresh_upstream_sc]
    exact same_cursor_refl _
  · rw [(after_refresh_cursor _ _ _ _).2]
    show (refresh_upstream env st i (body_bytes st.sc)).2.refresh_calls ++ _ = _
    congr 1
    unfold refresh_upstream
    split
    · rfl
    · split
      · rfl
      · split
        · rfl
        · split
          · rfl
          · split <;> rfl

theorem apply_last_modified_cursor (env : host_env) (i : Nat) (etag : List Nat)
    (last_modified : Int) (st : poller_state) :
    (apply_last_modified env i etag last_modified st).sc.serverlists_curr =
        advance_cursor st.sc ∧
      ((apply_last_modified env i etag last_modified st).refresh_calls = st.refresh_calls ∨
        ∃ r, (apply_last_modified env i etag last_modified st).refresh_calls =
          st.refresh_calls ++ [r]) := by
  unfold apply_last_modified
  split
  · split
    · exact ⟨(call_refresh_cursor _ _ _).1, Or.inr ⟨_, (call_refresh_cursor _ _ _).2⟩⟩
    · split
      · exact ⟨(exit_step_cursor _ _).1, Or.inl (exit_step_frame _ _).2.2.2⟩
      · exact ⟨(call_refresh_cursor _ _ _).1, Or.inr ⟨_, (call_refresh_cursor _ _ _).2⟩⟩
  · exact ⟨(call_refresh_cursor _ _ _).1, Or.inr ⟨_, (call_refresh_cursor _ _ _).2⟩⟩

theorem apply_step_cursor (env : host_env) (i : Nat) (locals : recv_locals)
    (st : poller_state) :
    (apply_step env i locals st).refresh_calls = st.refresh_calls ∨
      ((apply_step env i locals st).sc.serverlists_curr = advance_cursor st.sc ∧
        ∃ r, (apply_step env i locals st).refresh_calls = st.refresh_calls ++ [r]) := by
  have key : ∀ (etag : List Nat) (lm : Int) (s : poller_state),
      s.sc = st.sc → s.refresh_calls = st.refresh_calls →
      ((apply_last_modified env i etag lm s).refresh_calls = st.refresh_calls ∨
        ((apply_last_modified env i etag lm s).sc.serverlists_curr = advance_cursor st.sc ∧
          ∃ r, (apply_last_modified env i etag lm s).refresh_calls =
            st.refresh_calls ++ [r])) := by
    intro etag lm s hs hr
    have h := apply_last_modified_cursor env i etag lm s
    rw [hs, hr] at h
    rcases h.2 with h2 | h2
    · exact Or.inl h2
    · exact Or.inr ⟨h.1, h2⟩
  unfold apply_step
  split
  · exact Or.inl rfl
  · split
    · split
      · split
        · exact Or.inl rfl
        · exact key _ _ _ rfl rfl
      · exact Or.inl (exit_step_frame _ _).2.2.2
    · split
      · exact key _ _ _ rfl rfl
      · exact key _ _ _ rfl rfl

theorem socket_size_rest (bytes : List Nat) (rest : List recv_event) (k : Nat)
    (h : (bytes.take k).length ≠ 0) :
    socket_size (if (bytes.drop k).length = 0 then rest
      else recv_event.data (bytes.drop k) :: rest) <
      socket_size (recv_event.data bytes :: rest) := by
  have hk : 0 < k ∧ 0 < bytes.length := by
    rw [List.length_take] at h
    omega
  split
  · simp only [socket_size]; omega
  · simp only [socket_size, List.length_drop]; omega

/-- The fuel of the receive loop is never used up: above `socket_size` the result does not
depend on it. -/
theorem recv_loop_fuel (env : host_env) (n : Nat) :
    ∀ (m : Nat) (sc : service_conn) (locals : recv_locals) (socket : List recv_event),
      socket_size socket < n → socket_size socket < m →
      recv_loop env n sc locals socket = recv_loop env m sc locals socket := by
  induction n with
  | zero => intro m sc locals socket h; omega
  | succ n ih =>
    intro m sc locals socket hn hm
    cases m with
    | zero => omega
    | succ m =>
      unfold recv_loop
      cases enlarge_recv env sc with
      | none => rfl
      | some sc1 =>
        simp only []
        cases socket with
        | nil => rfl
        | cons ev rest =>
          cases ev with
          | again => rfl
          | closed => rfl
          | error => rfl
          | data bytes =>
            simp only []
            split
            · rfl
            · rename_i hlen
              have hs := socket_size_rest bytes rest (sc1.recv_size - sc1.recv.length) hlen
              split
              · rfl
              · exact ih m _ _ _ (by omega) (by omega)

/-- C14: whenever `recv_from_service` calls `refresh_upstream` (the record of calls grows),
the cursor afterwards is `serverlists_curr + 1` if that is below `serverlists_end` and
`serverlists_start` otherwise, whatever `refresh_upstream` returned; with the cursor inside a
shard of more than one group it is not on the same group any more.  The step after the call
moves the cursor in this way for every return value. -/
theorem recv_from_service_advances (env : host_env) (st : poller_state)
    (socket : List recv_event)
    (hcall : (recv_from_service env st socket).1.refresh_calls ≠ st.refresh_calls) :
    (recv_from_service env st socket).1.sc.serverlists_curr =
        (if st.sc.serverlists_curr + 1 < st.sc.serverlists_end then st.sc.serverlists_curr + 1
         else st.sc.serverlists_start) ∧
      (st.sc.serverlists_curr < st.sc.serverlists_end →
        st.sc.serverlists_start + 1 < st.sc.serverlists_end →
        (recv_from_service env st socket).1.sc.serverlists_curr ≠ st.sc.serverlists_curr) ∧
      (∀ (i : Nat) (ret : Int) (s : poller_state),
        (after_refresh env i ret s).sc.serverlists_curr =
          (if s.sc.serverlists_curr + 1 < s.sc.serverlists_end then s.sc.serverlists_curr + 1
           else s.sc.serverlists_start)) := by
  have hmain : (recv_from_service env st socket).1.sc.serverlists_curr =
      advance_cursor st.sc := by
    have hl := (recv_loop_cursor env (socket_size socket + 1) st.sc recv_locals_init socket).1
    revert hcall
    unfold recv_from_service
    cases hx : env.exiting with
    | true => intro hcall; exact absurd rfl hcall
    | false =>
      simp only [Bool.false_eq_true, if_false]
      revert hl
      generalize recv_loop env (socket_size socket + 1) st.sc recv_locals_init socket = r
      obtain ⟨e, sc, locals, rest⟩ := r
      intro hl
      cases e with
      | to_apply =>
        simp only []
        intro hcall
        rcases apply_step_cursor env st.sc.serverlists_curr locals { st with sc := sc } with h | h
        · exact absurd h hcall
        · rw [h.1]; exact advance_cursor_congr hl
      | to_exit =>
        simp only []
        intro hcall
        exact absurd (exit_step_frame _ _).2.2.2 hcall
      | to_close_connection => simp only []; intro hcall; exact absurd rfl hcall
      | peer_closed => simp only []; intro hcall; exact absurd rfl hcall
      | try_again => simp only []; intro hcall; exact absurd rfl hcall
  refine ⟨hmain, fun h2 h3 => ?_, fun i ret s => (after_refresh_cursor env i ret s).1⟩
  rw [hmain]
  exact advance_cursor_ne st.sc h2 h3

set_option maxRecDepth 100000 in
/-- The sample poller on group 1, the last of its shard, receives the sample 200 response
while `ngx_http_upstream_init_round_robin` fails: `refresh_upstream` is called and returns
-1, and the cursor is back on group 0. -/
theorem recv_from_service_advances_witness :
    (recv_from_service env_init_fails sample_state1
        [recv_event.data sample_response_200]).1.refresh_calls = [-1] ∧
      (recv_from_service env_init_fails sample_state1
        [recv_event.data sample_response_200]).1.sc.serverlists_curr = 0 :=
  ⟨by decide,
    (recv_from_service_advances env_init_fails sample_state1
      [recv_event.data sample_response_200] (by decide)).1⟩

/-! ## Facts about the length check of the receive loop -/

theorem c_int_lt (n : Nat) : c_int n < 2147483648 := by
  unfold c_int
  omega

theorem c_int_of_lt (n : Nat) (h : n < 2147483648) : c_int n = (n : Int) := by
  unfold c_int
  omega

/-- With a declared length below 2^31 the first check after the headers accepts a body of
exactly that length and rejects a longer one. -/
theorem recv_headers_done_small (sc : service_conn) (locals : recv_locals) (ret : Int)
    (h0 : 0 ≤ get_content_length locals.headers locals.num_headers)
    (hb : sc.recv.length - ret.toNat < 2147483648) :
    (((sc.recv.length - ret.toNat : Nat) : Int) =
        get_content_length locals.headers locals.num_headers →
      (recv_headers_done sc locals ret).1 = some loop_exit.to_apply ∧
        (recv_headers_done sc locals ret).2.body_len = sc.recv.length - ret.toNat ∧
        (recv_headers_done sc locals ret).2.body_data = some ret.toNat) ∧
      (((sc.recv.length - ret.toNat : Nat) : Int) >
        get_content_length locals.headers locals.num_headers →
      (recv_headers_done sc locals ret).1 = some loop_exit.to_close_connection) ∧
      (((sc.recv.length - ret.toNat : Nat) : Int) <
        get_content_length locals.headers locals.num_headers →
      (recv_headers_done sc locals ret).1 = none) := by
  unfold recv_headers_done
  rw [c_int_of_lt _ hb, if_neg (by omega)]
  refine ⟨fun h => ?_, fun h => ?_, fun h => ?_⟩
  · rw [if_pos h]; exact ⟨rfl, rfl, rfl⟩
  · rw [if_neg (by omega), if_pos h]
  · rw [if_neg (by omega), if_neg (by omega)]

/-- With a declared length below 2^31 the check after a later read accepts a body of exactly
that length and rejects a longer one. -/
theorem recv_got_small (env : host_env) (sc : service_conn) (locals : recv_locals)
    (got : List Nat) (h0 : 0 ≤ sc.content_length)
    (hb : sc.body_len + got.length < 2147483648) :
    (((sc.body_len + got.length : Nat) : Int) = sc.content_length →
      (recv_got env sc locals got).1 = some loop_exit.to_apply ∧
        (recv_got env sc locals got).2.1.body_len = sc.body_len + got.length ∧
        (recv_got env sc locals got).2.1.recv = sc.recv ++ got) ∧
      (((sc.body_len + got.length : Nat) : Int) > sc.content_length →
        (recv_got env sc locals got).1 = some loop_exit.to_close_connection) := by
  unfold recv_got
  rw [c_int_of_lt _ hb, if_pos (by omega)]
  refine ⟨fun h => ?_, fun h => ?_⟩
  · rw [if_pos h]; exact ⟨rfl, rfl, rfl⟩
  · rw [if_neg (by omega), if_pos h]

/-- C12: with a declared `Content-Length` of 2^31 or more, neither check of the receive loop
ever fires, whatever the length of the body received: after the headers the loop continues
instead of handing the body to the apply step or rejecting it, and after a later read the
handler goes on to parse the buffer again.  The casts `(int)sc->body.len` of lines 1434, 1436,
1482 and 1484 keep the left side below 2^31. -/
theorem recv_length_check_large (L : Int) (hL : 2147483648 ≤ L) :
    (∀ (sc : service_conn) (locals : recv_locals) (ret : Int),
      get_content_length locals.headers locals.num_headers = L →
      (recv_headers_done sc locals ret).1 = none) ∧
    (∀ (env : host_env) (sc : service_conn) (locals : recv_locals) (got : List Nat),
      sc.content_length = L →
      recv_got env sc locals got =
        recv_parse env { sc with recv := sc.recv ++ got, body_len := sc.body_len + got.length }
          locals sc.recv.length) := by
  refine ⟨fun sc locals ret h => ?_, fun env sc locals got h => ?_⟩
  · have := c_int_lt (sc.recv.length - ret.toNat)
    unfold recv_headers_done
    rw [h, if_neg (by omega), if_neg (by omega), if_neg (by omega)]
  · have := c_int_lt (sc.body_len + got.length)
    unfold recv_got
    rw [h, if_pos (by omega), if_neg (by omega), if_neg (by omega)]

/-- A response that declares `Content-Length: 2147483648` and carries a body of exactly
2147483648 bytes behind its header block of 85 bytes is not handed to the apply step: the
loop continues. -/
theorem recv_length_check_large_witness :
    (2147483648 : Int) ≤ 2147483648 ∧
      get_content_length big_locals.headers big_locals.num_headers = 2147483648 ∧
      (recv_headers_done big_conn big_locals 85).1 = none :=
  ⟨by decide, by decide,
    (recv_length_check_large 2147483648 (by decide)).1 big_conn big_locals 85 (by decide)⟩

/-! ## Facts about the request -/

theorem ngx_snprintf_take (n : Nat) (a t : List Nat) :
    ngx_snprintf n (a.take n) t = (a ++ t).take n := by
  unfold ngx_snprintf
  rw [List.take_append_eq_append_take, List.length_take]
  congr 2
  omega

theorem build_request_take (env : host_env) (sl : serverlist) :
    build_request env sl = (request_text env sl).take MAX_HTTP_REQUEST_SIZE := by
  unfold build_request request_text request_head
  simp only []
  have h0 : ∀ t : List Nat, ngx_snprintf MAX_HTTP_REQUEST_SIZE [] t =
      t.take MAX_HTTP_REQUEST_SIZE := by
    intro t; simp [ngx_snprintf]
  rw [h0]
  split <;> split <;> split <;>
    simp only [ngx_snprintf_take, List.append_nil, List.append_assoc]

/-- A cached ETag that reaches the end of the send buffer is cut there, and nothing follows
it. -/
theorem build_request_cut (env : host_env) (sl : serverlist) (he : sl.etag.length > 0)
    (h1 : (request_head env sl ++ lit_if_none_match).length ≤ MAX_HTTP_REQUEST_SIZE)
    (h2 : MAX_HTTP_REQUEST_SIZE ≤
      (request_head env sl ++ lit_if_none_match).length + sl.etag.length) :
    build_request env sl = request_head env sl ++ lit_if_none_match ++
      sl.etag.take (MAX_HTTP_REQUEST_SIZE - (request_head env sl ++ lit_if_none_match).length) := by
  rw [build_request_take]
  unfold request_text
  rw [if_pos he]
  have e : request_head env sl ++ (lit_if_none_match ++ sl.etag ++ lit_crlf) ++
      lit_connection_keep_alive =
      (request_head env sl ++ lit_if_none_match) ++
        (sl.etag ++ (lit_crlf ++ lit_connection_keep_alive)) := by
    simp only [List.append_assoc]
  have e2 : (sl.etag ++ (lit_crlf ++ lit_connection_keep_alive)).take
      (MAX_HTTP_REQUEST_SIZE - (request_head env sl ++ lit_if_none_match).length) =
      sl.etag.take
        (MAX_HTTP_REQUEST_SIZE - (request_head env sl ++ lit_if_none_match).length) := by
    rw [List.take_append_eq_append_take]
    have h0 : MAX_HTTP_REQUEST_SIZE - (request_head env sl ++ lit_if_none_match).length -
        sl.etag.length = 0 := by omega
    rw [h0, List.take_zero, List.append_nil]
  rw [e, List.take_append_eq_append_take, List.take_of_length_le h1, e2]

/-- C18: the request `send_to_service` builds is the first `MAX_HTTP_REQUEST_SIZE` (1024)
bytes of the full text: request line, `Host` line, an `If-Modified-Since` line exactly when
the cached last_modified is set, an `If-None-Match` line with the cached etag exactly when
that is non-empty, and `Connection: Keep-Alive` with the empty line.  When the full text fits
the buffer the request is the full text. -/
theorem build_request_text (env : host_env) (sl : serverlist) :
    build_request env sl = (request_text env sl).take MAX_HTTP_REQUEST_SIZE ∧
      ((request_text env sl).length ≤ MAX_HTTP_REQUEST_SIZE →
        build_request env sl = request_text env sl) :=
  ⟨build_request_take env sl, fun hl => by
    rw [build_request_take, List.take_of_length_le hl]⟩

set_option maxRecDepth 100000 in
/-- The request for the sample group 0 fits the buffer and is the full text. -/
theorem build_request_text_witness :
    (request_text env_sample sample_group0).length ≤ MAX_HTTP_REQUEST_SIZE ∧
      build_request env_sample sample_group0 = request_text env_sample sample_group0 :=
  ⟨by decide, (build_request_text env_sample sample_group0).2 (by decide)⟩


set_option maxRecDepth 100000 in
/-- With a cached ETag of 1000 bytes the request is cut inside the ETag at the end of the
buffer of 1024 bytes: it does not end with `Connection: Keep-Alive` and the empty line. -/
theorem build_request_long_etag :
    build_request env_sample long_etag_group =
        request_head env_sample long_etag_group ++ lit_if_none_match ++
          List.replicate 922 97 ∧
      (build_request env_sample long_etag_group).length = 1024 ∧
      ¬ (lit_connection_keep_alive <:+ build_request env_sample long_etag_group) := by
  have hh : (request_head env_sample long_etag_group ++ lit_if_none_match).length = 102 := by
    decide
  have hl : long_etag_group.etag = List.replicate 1000 97 := rfl
  have hb := build_request_cut env_sample long_etag_group
    (by rw [hl, List.length_replicate]; decide)
    (by rw [hh]; decide)
    (by rw [hh, hl, List.length_replicate]; decide)
  rw [hh, hl, List.take_replicate] at hb
  have hb2 : build_request env_sample long_etag_group =
      request_head env_sample long_etag_group ++ lit_if_none_match ++
        List.replicate 922 97 := by
    rw [hb]; rfl
  refine ⟨hb2, ?_, ?_⟩
  · rw [hb2, List.length_append, hh, List.length_replicate]
  · intro hs
    rw [hb2] at hs
    have hr := List.reverse_prefix.2 hs
    rw [List.reverse_append, List.reverse_replicate] at hr
    have h3 : List.replicate 922 97 = (97 : Nat) :: List.replicate 921 97 := rfl
    have h4 : lit_connection_keep_alive.reverse =
        10 :: (lit_connection_keep_alive.reverse).tail := by decide
    rw [h3, h4, List.cons_append, List.cons_prefix_cons] at hr
    exact absurd hr.1 (by decide)

/-! ## Facts about timeout, connect and send -/

theorem send_request_cursor (env : host_env) (st : poller_state) (sends : List send_event) :
    same_cursor (send_request env st sends).1.sc st.sc ∧
      (send_request env st sends).1.serverlists = st.serverlists := by
  unfold send_request
  split
  · exact ⟨⟨rfl, rfl, rfl⟩, rfl⟩
  · exact ⟨⟨rfl, rfl, rfl⟩, rfl⟩
  · split <;> exact ⟨⟨rfl, rfl, rfl⟩, rfl⟩

theorem send_to_service_cursor (env : host_env) (st : poller_state) (sends : List send_event)
    (hk : st.sc.serverlists_curr < st.sc.serverlists_end) :
    same_cursor (send_to_service env st sends).1.sc st.sc := by
  unfold send_to_service
  split
  · exact same_cursor_refl _
  · rw [if_neg (by omega)]
    split
    · split
      · exact ⟨rfl, rfl, rfl⟩
      · exact same_cursor_trans (send_request_cursor _ _ _).1 ⟨rfl, rfl, rfl⟩
    · exact same_cursor_trans (send_request_cursor _ _ _).1 ⟨rfl, rfl, rfl⟩

theorem connect_setup_cursor (env : host_env) (ret : Int) (st : poller_state)
    (sends : List send_event) (hk : st.sc.serverlists_curr < st.sc.serverlists_end) :
    same_cursor (connect_setup env ret st sends).1.sc st.sc := by
  unfold connect_setup
  split
  · exact ⟨rfl, rfl, rfl⟩
  · split
    · exact same_cursor_trans (send_to_service_cursor _ _ _ hk) ⟨rfl, rfl, rfl⟩
    · exact ⟨rfl, rfl, rfl⟩

theorem build_request_length_pos (env : host_env) (sl : serverlist) :
    0 < (build_request env sl).length := by
  rw [build_request_take]
  unfold request_text request_head
  simp only [List.length_take, List.length_append, lit_get, MAX_HTTP_REQUEST_SIZE,
    List.length_cons, List.length_nil]
  omega

theorem send_loop_nothing (n : Nat) (buf : List Nat) (h : 0 < buf.length) :
    send_loop (n + 1) buf 0 [] = (some false, 0, []) := by
  unfold send_loop
  rw [if_pos h]

/-- What `refresh_timeout_handler` leaves: the connection closed, the cursor and the send
buffer untouched, and the group under the cursor with its name and validators. -/
theorem refresh_timeout_handler_sc (env : host_env) (st : poller_state)
    (hx : env.exiting = false) :
    (refresh_timeout_handler env st).sc.connection = false ∧
      same_cursor (refresh_timeout_handler env st).sc st.sc ∧
      build_request env (sl_at (refresh_timeout_handler env st).serverlists
        st.sc.serverlists_curr) =
        build_request env (sl_at st.serverlists st.sc.serverlists_curr) := by
  unfold refresh_timeout_handler
  rw [hx]
  simp only [Bool.false_eq_true, if_false]
  refine ⟨rfl, ⟨rfl, rfl, rfl⟩, ?_⟩
  show build_request env (sl_at (sl_update _ st.serverlists st.sc.serverlists_curr)
    st.sc.serverlists_curr) = _
  rw [sl_at_update]
  split <;> rfl

/-- C15: after `refresh_timeout_handler` fires while the cursor is on group k inside the
shard, the next refresh tick resumes from the same group k: the handler leaves the cursor at
k, `connect_to_service` leaves it at k, and when the connection is made at once the request
that `send_to_service` builds is the request for group k. -/
theorem timeout_resumes_same_group (env : host_env) (st : poller_state)
    (socket : List recv_event) (sends : List send_event) (hx : env.exiting = false)
    (hk : st.sc.serverlists_curr < st.sc.serverlists_end) :
    (refresh_timeout_handler env st).sc.serverlists_curr = st.sc.serverlists_curr ∧
      (connect_to_service env (refresh_timeout_handler env st) socket
        sends).1.sc.serverlists_curr = st.sc.serverlists_curr ∧
      (env.connect_ret = NGX_OK → env.handle_write_event_ok = true →
        env.del_event_ok = true → env.test_connect_ok = true →
        (connect_to_service env (refresh_timeout_handler env st) socket []).1.sc.send =
          build_request env (sl_at st.serverlists st.sc.serverlists_curr)) := by
  obtain ⟨hc, hs, hb⟩ := refresh_timeout_handler_sc env st hx
  have hk2 : (refresh_timeout_handler env st).sc.serverlists_curr <
      (refresh_timeout_handler env st).sc.serverlists_end := by
    rw [hs.2.2, hs.2.1]; exact hk
  refine ⟨hs.2.2, ?_, ?_⟩
  · rw [← hs.2.2]
    unfold connect_to_service
    rw [hx, hc]
    simp only [Bool.false_eq_true, if_false]
    split
    · rfl
    · exact (connect_setup_cursor env env.connect_ret
        (with_sc (refresh_timeout_handler env st)
          (fun sc => { sc with start_time_set := true, connection := true })) sends hk2).2.2
  · intro hret hw hd ht
    rw [← hb, ← hs.2.2]
    unfold connect_to_service
    rw [hx, hc]
    simp only [Bool.false_eq_true, if_false]
    rw [if_neg (by rw [hret]; simp)]
    unfold connect_setup
    rw [hw, hd, hret]
    simp only [Bool.not_true, Bool.or_self, Bool.false_eq_true, if_false, if_true]
    unfold send_to_service
    rw [hx, ht]
    simp only [Bool.false_eq_true, if_false, Bool.not_true, Bool.and_false]
    rw [if_neg (by simpa [with_sc] using hk2)]
    simp only [with_sc, List.length_nil, if_true]
    unfold send_request
    simp only []
    rw [send_loop_nothing _ _ (build_request_length_pos _ _)]
    rfl

/-- The timeout fires on the sample poller with the cursor on group 0 of two: after the next
tick the cursor is on group 0. -/
theorem timeout_resumes_same_group_witness :
    env_sample.exiting = false ∧
      sample_state.sc.serverlists_curr < sample_state.sc.serverlists_end ∧
      (connect_to_service env_sample (refresh_timeout_handler env_sample sample_state) []
        []).1.sc.serverlists_curr = sample_state.sc.serverlists_curr :=
  ⟨rfl, by decide, (timeout_resumes_same_group env_sample sample_state [] [] rfl
    (by decide)).2.1⟩

set_option maxRecDepth 100000 in
/-- The timeout fires on the sample poller with the cursor on group 0 of a shard of two
groups: at the next tick the cursor is 0, not 1, and the request in the send buffer is the
one for group `g0`, not the one for group `g1`. -/
theorem timeout_not_next_group :
    (refresh_timeout_handler env_sample sample_state).sc.serverlists_curr = 0 ∧
      (connect_to_service env_sample (refresh_timeout_handler env_sample sample_state) []
        []).1.sc.serverlists_curr ≠ 1 ∧
      (connect_to_service env_sample (refresh_timeout_handler env_sample sample_state) []
        []).1.sc.send = build_request env_sample sample_group0 ∧
      (connect_to_service env_sample (refresh_timeout_handler env_sample sample_state) []
        []).1.sc.send ≠ build_request env_sample sample_group1 := by
  decide

/-! ## Facts about the cached validators -/

theorem refresh_upstream_length (env : host_env) (st : poller_state) (i : Nat)
    (body : List Nat) :
    (refresh_upstream env st i body).2.serverlists.length = st.serverlists.length := by
  unfold refresh_upstream
  split
  · rfl
  · split
    · rfl
    · split
      · rfl
      · split
        · rfl
        · split
          · exact sl_update_length _ _ _
          · simp only [List.length_map]
            exact sl_update_length _ _ _

theorem with_sl_at (s : poller_state) (i : Nat) (f : serverlist → serverlist)
    (hi : i < s.serverlists.length) :
    sl_at (with_sl s i f).serverlists i = f (sl_at s.serverlists i) := by
  unfold with_sl
  simp [sl_at_update, hi]

theorem with_sl_length (s : poller_state) (i : Nat) (f : serverlist → serverlist) :
    (with_sl s i f).serverlists.length = s.serverlists.length :=
  sl_update_length _ _ _

theorem call_refresh_validators (env : host_env) (i : Nat) (s : poller_state)
    (hi : i < s.serverlists.length) :
    ((sl_at (call_refresh env i s).serverlists i).etag = [] ∧
        (sl_at (call_refresh env i s).serverlists i).last_modified = -1 ∧
        ∃ r : Int, r < 0 ∧ (call_refresh env i s).refresh_calls = s.refresh_calls ++ [r]) ∨
      (∃ r : Int, 0 ≤ r ∧ (call_refresh env i s).refresh_calls = s.refresh_calls ++ [r]) := by
  have hc := (call_refresh_cursor env i s).2
  by_cases hr : (refresh_upstream env s i (body_bytes s.sc)).1 < 0
  · refine Or.inl ⟨?_, ?_, _, hr, hc⟩
    all_goals
      unfold call_refresh after_refresh
      rw [if_pos hr, (exit_step_frame _ _).1, with_sl_at _ _ _ (by
        show i < (refresh_upstream env s i (body_bytes s.sc)).2.serverlists.length
        rw [refresh_upstream_length]; exact hi)]
  · exact Or.inr ⟨_, by omega, hc⟩

theorem apply_last_modified_validators (env : host_env) (i : Nat) (etag : List Nat)
    (lm : Int) (s : poller_state) (hi : i < s.serverlists.length) :
    ((sl_at (apply_last_modified env i etag lm s).serverlists i).etag = [] ∧
        (sl_at (apply_last_modified env i etag lm s).serverlists i).last_modified = -1 ∧
        ∃ r : Int, r < 0 ∧
          (apply_last_modified env i etag lm s).refresh_calls = s.refresh_calls ++ [r]) ∨
      (∃ r : Int, 0 ≤ r ∧
        (apply_last_modified env i etag lm s).refresh_calls = s.refresh_calls ++ [r]) ∨
      (etag.length ≤ 0 ∧ 0 ≤ lm ∧ lm ≤ (sl_at s.serverlists i).last_modified ∧
        (sl_at (apply_last_modified env i etag lm s).serverlists i).etag =
          (sl_at s.serverlists i).etag ∧
        (sl_at (apply_last_modified env i etag lm s).serverlists i).last_modified =
          (sl_at s.serverlists i).last_modified ∧
        (apply_last_modified env i etag lm s).refresh_calls = s.refresh_calls) := by
  have key : ∀ (f : serverlist → serverlist),
      ((sl_at (call_refresh env i (with_sl s i f)).serverlists i).etag = [] ∧
        (sl_at (call_refresh env i (with_sl s i f)).serverlists i).last_modified = -1 ∧
        ∃ r : Int, r < 0 ∧
          (call_refresh env i (with_sl s i f)).refresh_calls = s.refresh_calls ++ [r]) ∨
      (∃ r : Int, 0 ≤ r ∧
        (call_refresh env i (with_sl s i f)).refresh_calls = s.refresh_calls ++ [r]) := by
    intro f
    exact call_refresh_validators env i (with_sl s i f) (by rw [with_sl_length]; exact hi)
  unfold apply_last_modified
  split
  · rename_i h0
    split
    · rcases key (fun sl => { sl with last_modified := lm }) with h | h
      · exact Or.inl h
      · exact Or.inr (Or.inl h)
    · rename_i h1
      split
      · rename_i h2
        refine Or.inr (Or.inr ⟨h2, h0, by omega, ?_, ?_, (exit_step_frame _ _).2.2.2⟩)
        · rw [(exit_step_frame _ _).1, with_sl_at _ _ _ hi]
        · rw [(exit_step_frame _ _).1, with_sl_at _ _ _ hi]
      · rcases call_refresh_validators env i s hi with h | h
        · exact Or.inl h
        · exact Or.inr (Or.inl h)
  · rcases key (fun sl => { sl with last_modified := -1 }) with h | h
    · exact Or.inl h
    · exact Or.inr (Or.inl h)

theorem apply_step_validators (env : host_env) (i : Nat) (locals : recv_locals)
    (s : poller_state) (hi : i < s.serverlists.length) (hp : env.pstrdup_ok = true) :
    ((sl_at (apply_step env i locals s).serverlists i).etag = (sl_at s.serverlists i).etag ∧
        (sl_at (apply_step env i locals s).serverlists i).last_modified =
          (sl_at s.serverlists i).last_modified ∧
        (apply_step env i locals s).refresh_calls = s.refresh_calls) ∨
      ((sl_at (apply_step env i locals s).serverlists i).etag = [] ∧
        (sl_at (apply_step env i locals s).serverlists i).last_modified = -1 ∧
        ∃ r : Int, r < 0 ∧ (apply_step env i locals s).refresh_calls = s.refresh_calls ++ [r]) ∨
      (∃ r : Int, 0 ≤ r ∧
        (apply_step env i locals s).refresh_calls = s.refresh_calls ++ [r]) ∨
      (get_etag locals.headers locals.num_headers = [] ∧
        0 ≤ get_last_modified_time env.ngx_http_parse_time locals.headers locals.num_headers ∧
        get_last_modified_time env.ngx_http_parse_time locals.headers locals.num_headers ≤
          (sl_at s.serverlists i).last_modified ∧
        (sl_at s.serverlists i).etag ≠ [] ∧
        (sl_at (apply_step env i locals s).serverlists i).etag = [] ∧
        (sl_at (apply_step env i locals s).serverlists i).last_modified =
          (sl_at s.serverlists i).last_modified ∧
        (apply_step env i locals s).refresh_calls = s.refresh_calls) := by
  have key : ∀ (f : serverlist → serverlist) (etag : List Nat) (lm : Int),
      _ := fun f etag lm =>
    apply_last_modified_validators env i etag lm (with_sl s i f)
      (by rw [with_sl_length]; exact hi)
  unfold apply_step
  split
  · refine Or.inl ⟨?_, ?_, rfl⟩
    · rw [(close_connection_frame _ _).1, with_sl_at _ _ _ hi]
    · rw [(close_connection_frame _ _).1, with_sl_at _ _ _ hi]
  · split
    · rename_i he
      split
      · rw [hp]
        simp only [Bool.not_true, Bool.false_eq_true, if_false]
        rcases key (fun sl => { sl with
            new_pool := true, etag := get_etag locals.headers locals.num_headers })
          (get_etag locals.headers locals.num_headers)
          (get_last_modified_time env.ngx_http_parse_time locals.headers locals.num_headers)
          with h | h | h
        · exact Or.inr (Or.inl h)
        · exact Or.inr (Or.inr (Or.inl h))
        · omega
      · refine Or.inl ⟨?_, ?_, (exit_step_frame _ _).2.2.2⟩
        · rw [(exit_step_frame _ _).1, with_sl_at _ _ _ hi]
        · rw [(exit_step_frame _ _).1, with_sl_at _ _ _ hi]
    · rename_i he
      have he0 : get_etag locals.headers locals.num_headers = [] :=
        List.length_eq_zero.1 (by omega)
      split
      · rename_i hc
        rcases key (fun sl => { sl with new_pool := true, etag := [] }) []
          (get_last_modified_time env.ngx_http_parse_time locals.headers locals.num_headers)
          with h | h | h
        · exact Or.inr (Or.inl h)
        · exact Or.inr (Or.inr (Or.inl h))
        · rw [with_sl_at _ _ _ hi] at h
          exact Or.inr (Or.inr (Or.inr ⟨he0, h.2.1, h.2.2.1,
            fun h0 => by rw [h0] at hc; simp at hc, h.2.2.2.1, h.2.2.2.2.1, h.2.2.2.2.2⟩))
      · rename_i hc
        rcases key (fun sl => { sl with new_pool := true }) []
          (get_last_modified_time env.ngx_http_parse_time locals.headers locals.num_headers)
          with h | h | h
        · exact Or.inr (Or.inl h)
        · exact Or.inr (Or.inr (Or.inl h))
        · rw [with_sl_at _ _ _ hi] at h
          exact Or.inl ⟨h.2.2.2.1, h.2.2.2.2.1, h.2.2.2.2.2⟩

/-- C20: what `recv_from_service` does to the cached validators of the group under the
cursor, when `ngx_pstrdup` succeeds.  One of four: (1) both validators are as before and
`refresh_upstream` was not called; (2) `refresh_upstream` was called and failed, and both
validators are reset (etag empty, last_modified -1); (3) `refresh_upstream` was called and
succeeded; (4) the response has no ETag and a valid `Last-Modified` not newer than the cached
one while an etag was cached: the etag alone is cleared, last_modified stays and
`refresh_upstream` was not called. -/
theorem recv_from_service_validators (env : host_env) (st : poller_state)
    (socket : List recv_event) (hi : st.sc.serverlists_curr < st.serverlists.length)
    (hp : env.pstrdup_ok = true) :
    ((sl_at (recv_from_service env st socket).1.serverlists st.sc.serverlists_curr).etag =
          (sl_at st.serverlists st.sc.serverlists_curr).etag ∧
        (sl_at (recv_from_service env st socket).1.serverlists
          st.sc.serverlists_curr).last_modified =
          (sl_at st.serverlists st.sc.serverlists_curr).last_modified ∧
        (recv_from_service env st socket).1.refresh_calls = st.refresh_calls) ∨
      ((sl_at (recv_from_service env st socket).1.serverlists st.sc.serverlists_curr).etag =
          [] ∧
        (sl_at (recv_from_service env st socket).1.serverlists
          st.sc.serverlists_curr).last_modified = -1 ∧
        ∃ r : Int, r < 0 ∧
          (recv_from_service env st socket).1.refresh_calls = st.refresh_calls ++ [r]) ∨
      (∃ r : Int, 0 ≤ r ∧
        (recv_from_service env st socket).1.refresh_calls = st.refresh_calls ++ [r]) ∨
      (get_etag
          (recv_loop env (socket_size socket + 1) st.sc recv_locals_init socket).2.2.1.headers
          (recv_loop env (socket_size socket + 1) st.sc recv_locals_init
            socket).2.2.1.num_headers = [] ∧
        0 ≤ get_last_modified_time env.ngx_http_parse_time
          (recv_loop env (socket_size socket + 1) st.sc recv_locals_init socket).2.2.1.headers
          (recv_loop env (socket_size socket + 1) st.sc recv_locals_init
            socket).2.2.1.num_headers ∧
        get_last_modified_time env.ngx_http_parse_time
          (recv_loop env (socket_size socket + 1) st.sc recv_locals_init socket).2.2.1.headers
          (recv_loop env (socket_size socket + 1) st.sc recv_locals_init
            socket).2.2.1.num_headers ≤
          (sl_at st.serverlists st.sc.serverlists_curr).last_modified ∧
        (sl_at st.serverlists st.sc.serverlists_curr).etag ≠ [] ∧
        (sl_at (recv_from_service env st socket).1.serverlists st.sc.serverlists_curr).etag =
          [] ∧
        (sl_at (recv_from_service env st socket).1.serverlists
          st.sc.serverlists_curr).last_modified =
          (sl_at st.serverlists st.sc.serverlists_curr).last_modified ∧
        (recv_from_service env st socket).1.refresh_calls = st.refresh_calls) := by
  unfold recv_from_service
  cases hx : env.exiting with
  | true => exact Or.inl ⟨rfl, rfl, rfl⟩
  | false =>
    simp only [Bool.false_eq_true, if_false]
    generalize recv_loop env (socket_size socket + 1) st.sc recv_locals_init socket = r
    obtain ⟨e, sc, locals, rest⟩ := r
    cases e with
    | to_apply =>
      exact apply_step_validators env st.sc.serverlists_curr locals { st with sc := sc } hi hp
    | to_exit =>
      refine Or.inl ⟨?_, ?_, (exit_step_frame _ _).2.2.2⟩
      · simp only []; rw [(exit_step_frame _ _).1]
      · simp only []; rw [(exit_step_frame _ _).1]
    | to_close_connection => exact Or.inl ⟨rfl, rfl, rfl⟩
    | peer_closed => exact Or.inl ⟨rfl, rfl, rfl⟩
    | try_again => exact Or.inl ⟨rfl, rfl, rfl⟩

set_option maxRecDepth 100000 in
/-- Group 0 of the sample state has the cached ETag `"v1"` and the cached time 100.  The
sample 200 response has no ETag and `Last-Modified` at the time 100: afterwards the cached
etag is empty while the cached time is still 100, and `refresh_upstream` was not called. -/
theorem recv_from_service_clears_etag_alone :
    (sl_at sample_state.serverlists 0).etag = [34, 118, 49, 34] ∧
      (sl_at sample_state.serverlists 0).last_modified = 100 ∧
      (sl_at (recv_from_service env_sample sample_state
        [recv_event.data sample_response_200]).1.serverlists 0).etag = [] ∧
      (sl_at (recv_from_service env_sample sample_state
        [recv_event.data sample_response_200]).1.serverlists 0).last_modified = 100 ∧
      (recv_from_service env_sample sample_state
        [recv_event.data sample_response_200]).1.refresh_calls = [] ∧
      (recv_from_service env_sample sample_state
        [recv_event.data sample_response_200]).1.serverlists.map (fun sl => sl.servers) =
        sample_state.serverlists.map (fun sl => sl.servers) := by
  decide

set_option maxRecDepth 100000 in
/-- The sample poller on group 1 receives the sample 200 response while
`ngx_http_upstream_init_round_robin` fails: `refresh_upstream` returns -1 and both validators
of group 1 are reset. -/
theorem recv_from_service_validators_witness :
    sample_state1.sc.serverlists_curr < sample_state1.serverlists.length ∧
      env_init_fails.pstrdup_ok = true ∧
      (recv_from_service env_init_fails sample_state1
        [recv_event.data sample_response_200]).1.refresh_calls = [-1] ∧
      (sl_at (recv_from_service env_init_fails sample_state1
        [recv_event.data sample_response_200]).1.serverlists 1).etag = [] ∧
      (sl_at (recv_from_service env_init_fails sample_state1
        [recv_event.data sample_response_200]).1.serverlists 1).last_modified = -1 := by
  have hc : (recv_from_service env_init_fails sample_state1
      [recv_event.data sample_response_200]).1.refresh_calls = [-1] := by decide
  refine ⟨by decide, rfl, hc, ?_⟩
  rcases recv_from_service_validators env_init_fails sample_state1
    [recv_event.data sample_response_200] (by decide) rfl with h | h | h | h
  · rw [hc] at h
    exact absurd h.2.2 (by decide)
  · exact ⟨h.1, h.2.1⟩
  · obtain ⟨r, hr, hcalls⟩ := h
    rw [hc] at hcalls
    have h2 : [(-1 : Int)] = [r] := hcalls
    have h3 : (-1 : Int) = r := by injection h2
    omega
  · exact absurd rfl h.2.2.2.1

/-! ## Termination of the parser -/

theorem get_one_arg_split {line arg rest : List Nat}
    (h : get_one_arg line = some (arg, rest)) :
    line = line.takeWhile (fun c => !is_valid_arg_char c) ++ arg ++ rest := by
  unfold get_one_arg at h
  simp only [] at h
  split at h
  · cases h
  · simp only [Option.some.injEq, Prod.mk.injEq] at h
    rw [← h.1, ← h.2, List.append_assoc, List.takeWhile_append_dropWhile,
      List.takeWhile_append_dropWhile]

theorem get_one_line_suffix (buf : List Nat) :
    ∃ pre, buf = pre ++ (get_one_line buf).2 := by
  unfold get_one_line
  split
  · exact ⟨buf, by simp⟩
  · rename_i pos _
    exact ⟨buf.take (pos + 1), (List.take_append_drop _ _).symm⟩

/-- C23: `get_servers` returns on every body: with fuel above the length of the body the loop
over the lines gives the result of `get_servers` whatever the fuel is, and with fuel above the
length of a line the loop over its tokens does the same; the empty body gives the empty
array.  Whenever `get_one_arg` returns a position it lies strictly behind the one given
(fewer bytes are left), the token is non-empty, made of bytes that `is_valid_arg_char`
accepts, and lies inside the range; `get_one_line` on a non-empty range returns a position
strictly behind the start and not behind the end. -/
theorem get_servers_terminates (r : List Nat → Option (List ngx_addr_t)) (body : List Nat) :
    (∀ fuel, body.length < fuel → get_servers_loop r fuel body [] = get_servers r body) ∧
      (∀ (fuel : Nat) (line : List Nat) (fa sa : Bool)
          (servers : List ngx_http_upstream_server_t), line.length < fuel →
        line_loop r fuel line fa sa servers =
          line_loop r (line.length + 1) line fa sa servers) ∧
      (∀ line arg rest : List Nat, get_one_arg line = some (arg, rest) →
        rest.length < line.length ∧ arg ≠ [] ∧ (∀ c ∈ arg, is_valid_arg_char c = true) ∧
          ∃ pre, line = pre ++ arg ++ rest) ∧
      (∀ buf : List Nat, buf ≠ [] →
        (get_one_line buf).2.length < buf.length ∧ ∃ pre, buf = pre ++ (get_one_line buf).2) ∧
      get_servers r [] = [] := by
  refine ⟨fun fuel h => ?_, fun fuel line fa sa servers h => ?_, fun line arg rest h => ?_,
    fun buf h => ?_, get_servers_nil r⟩
  · exact get_servers_loop_fuel r fuel (body.length + 1) body [] h (by omega)
  · exact line_loop_fuel r fuel (line.length + 1) line fa sa servers h (by omega)
  · have h1 := get_one_arg_spec h
    exact ⟨h1.1, h1.2.1, h1.2.2, _, get_one_arg_split h⟩
  · have h1 := get_one_line_length buf
    have h2 : 0 < buf.length := List.length_pos.2 h
    refine ⟨?_, get_one_line_suffix buf⟩
    by_cases h3 : 0 < (get_one_line buf).2.length
    · exact h1.2 h3
    · omega

set_option maxRecDepth 100000 in
/-- A body whose first line has no token character and whose second line is a record: more
fuel changes nothing, and the first token of `server 10.0.0.1:80;` is `server`. -/
theorem get_servers_terminates_witness :
    body_two_lines.length < 1000 ∧
      get_servers_loop resolve_sample 1000 body_two_lines [] =
        get_servers resolve_sample body_two_lines ∧
      get_servers resolve_sample body_two_lines = [srv1] ∧
      get_one_arg body_plain = some (lit_server, body_plain.drop 6) ∧
      (body_plain.drop 6).length < body_plain.length ∧
      body_two_lines ≠ [] ∧
      (get_one_line body_two_lines).2.length < body_two_lines.length :=
  ⟨by decide,
    (get_servers_terminates resolve_sample body_two_lines).1 1000 (by decide),
    by decide, by decide,
    ((get_servers_terminates resolve_sample body_two_lines).2.2.1 body_plain lit_server
      (body_plain.drop 6) (by decide)).1,
    by decide,
    ((get_servers_terminates resolve_sample body_two_lines).2.2.2.1 body_two_lines
      (by decide)).1⟩

/-! ## Facts about the header lookup -/

/-- What `get_header` returns is one of the first `num_headers` entries, and its name, of length
`name_len`, agrees with the first `name_len` bytes of the name asked for. -/
theorem get_header_loop_some (name : List Nat) (hs : List phr_header) (h : phr_header)
    (hg : get_header_loop name hs = some h) :
    h ∈ hs ∧ ngx_strncasecmp_eq (h.name.getD []) name (h.name.getD []).length = true := by
  induction hs with
  | nil => simp [get_header_loop] at hg
  | cons a rest ih =>
    unfold get_header_loop at hg
    split at hg
    · cases hg
    · split at hg
      · rename_i hm
        cases hg
        exact ⟨List.mem_cons_self _ _, hm⟩
      · exact ⟨List.mem_cons_of_mem _ (ih hg).1, (ih hg).2⟩

/-- C26: `get_header` compares only the first `name_len` bytes, `name_len` being the length of
the header's own name.  Asked for `Etag` in a response with a header `Et: x` before
`ETag: "v2"` it returns the header `Et`, and `get_etag` gives `x`; in a response with a
continuation line (name `NULL`, length 0) before the header `ETag` it returns the continuation
line. -/
theorem get_header_short_name :
    get_header headers_short_name 2 lit_etag = some ⟨some [69, 116], some [120]⟩ ∧
      get_etag headers_short_name 2 = [120] ∧
      [69, 116].map ngx_tolower ≠ lit_etag.map ngx_tolower ∧
      get_header headers_folded 3 lit_etag = some ⟨none, some [32, 98]⟩ ∧
      get_etag headers_folded 3 = [32, 98] := by
  decide

/-! ## The cursor stays inside the shard -/

theorem shard_step_of_same {a b : service_conn} (h : same_cursor a b) : shard_step a b :=
  ⟨h.1, h.2.1, Or.inl h.2.2⟩

theorem shard_step_same {a b c : service_conn} (h1 : shard_step a b) (h2 : same_cursor b c) :
    shard_step a c := by
  refine ⟨h1.1.trans h2.1, h1.2.1.trans h2.2.1, ?_⟩
  rcases h1.2.2 with h | h
  · exact Or.inl (h.trans h2.2.2)
  · exact Or.inr (h.trans (advance_cursor_congr h2))

theorem same_shard_step {a b c : service_conn} (h1 : same_cursor a b) (h2 : shard_step b c) :
    shard_step a c :=
  ⟨h1.1.trans h2.1, h1.2.1.trans h2.2.1, by rw [h1.2.2]; exact h2.2.2⟩

theorem in_shard_of_step {a b : service_conn} (h : shard_step a b) (hb : in_shard b) :
    in_shard a ∧ a.serverlists_start = b.serverlists_start ∧
      a.serverlists_end = b.serverlists_end := by
  refine ⟨?_, h.1, h.2.1⟩
  unfold in_shard
  rw [h.1, h.2.1]
  rcases h.2.2 with h2 | h2
  · rw [h2]; exact hb
  · rw [h2]; exact advance_cursor_range b hb.1 hb.2

theorem exit_step_shard (env : host_env) (st : poller_state) :
    shard_step (exit_step env st).sc st.sc :=
  ⟨(exit_step_cursor env st).2.1, (exit_step_cursor env st).2.2,
    Or.inr (exit_step_cursor env st).1⟩

theorem after_refresh_shard (env : host_env) (i : Nat) (ret : Int) (st : poller_state) :
    shard_step (after_refresh env i ret st).sc st.sc := by
  unfold after_refresh
  split
  · exact shard_step_same (exit_step_shard _ _) ⟨rfl, rfl, rfl⟩
  · exact shard_step_same (exit_step_shard _ _) ⟨rfl, rfl, rfl⟩

theorem call_refresh_shard (env : host_env) (i : Nat) (st : poller_state) :
    shard_step (call_refresh env i st).sc st.sc := by
  unfold call_refresh
  refine shard_step_same (after_refresh_shard _ _ _ _) ?_
  show same_cursor (refresh_upstream env st i (body_bytes st.sc)).2.sc st.sc
  rw [refresh_upstream_sc]
  exact same_cursor_refl _

theorem apply_last_modified_shard (env : host_env) (i : Nat) (etag : List Nat) (lm : Int)
    (st : poller_state) : shard_step (apply_last_modified env i etag lm st).sc st.sc := by
  unfold apply_last_modified
  split
  · split
    · exact shard_step_same (call_refresh_shard _ _ _) ⟨rfl, rfl, rfl⟩
    · split
      · exact shard_step_same (exit_step_shard _ _) ⟨rfl, rfl, rfl⟩
      · exact call_refresh_shard _ _ _
  · exact shard_step_same (call_refresh_shard _ _ _) ⟨rfl, rfl, rfl⟩

theorem apply_step_shard (env : host_env) (i : Nat) (locals : recv_locals)
    (st : poller_state) : shard_step (apply_step env i locals st).sc st.sc := by
  unfold apply_step
  split
  · exact shard_step_of_same ⟨rfl, rfl, rfl⟩
  · split
    · split
      · split
        · exact shard_step_of_same ⟨rfl, rfl, rfl⟩
        · exact shard_step_same (apply_last_modified_shard _ _ _ _ _) ⟨rfl, rfl, rfl⟩
      · exact shard_step_same (exit_step_shard _ _) ⟨rfl, rfl, rfl⟩
    · split
      · exact shard_step_same (apply_last_modified_shard _ _ _ _ _) ⟨rfl, rfl, rfl⟩
      · exact shard_step_same (apply_last_modified_shard _ _ _ _ _) ⟨rfl, rfl, rfl⟩

theorem recv_from_service_shard (env : host_env) (st : poller_state)
    (socket : List recv_event) : shard_step (recv_from_service env st socket).1.sc st.sc := by
  have hl := (recv_loop_cursor env (socket_size socket + 1) st.sc recv_locals_init socket).1
  unfold recv_from_service
  split
  · exact shard_step_of_same (same_cursor_refl _)
  · revert hl
    generalize recv_loop env (socket_size socket + 1) st.sc recv_locals_init socket = r
    obtain ⟨e, sc, locals, rest⟩ := r
    intro hl
    cases e with
    | to_apply => exact shard_step_same (apply_step_shard _ _ _ _) hl
    | to_exit => exact shard_step_same (exit_step_shard _ _) hl
    | to_close_connection => exact shard_step_of_same hl
    | peer_closed => exact shard_step_of_same hl
    | try_again => exact shard_step_of_same hl

theorem idle_conn_read_handler_cursor (env : host_env) (st : poller_state) :
    same_cursor (idle_conn_read_handler env st).sc st.sc := by
  unfold idle_conn_read_handler
  split
  · exact same_cursor_refl _
  · split
    · exact same_cursor_refl _
    · exact ⟨rfl, rfl, rfl⟩

theorem run_read_handler_shard (env : host_env) (st : poller_state)
    (socket : List recv_event) : shard_step (run_read_handler env st socket).1.sc st.sc := by
  unfold run_read_handler
  split
  · exact recv_from_service_shard env st socket
  · exact shard_step_of_same (idle_conn_read_handler_cursor env st)
  · exact shard_step_of_same (same_cursor_refl _)

theorem refresh_timeout_handler_cursor (env : host_env) (st : poller_state) :
    same_cursor (refresh_timeout_handler env st).sc st.sc := by
  unfold refresh_timeout_handler
  split
  · exact same_cursor_refl _
  · exact ⟨rfl, rfl, rfl⟩

theorem in_shard_of_same {a b : service_conn} (h : same_cursor a b) (hb : in_shard b) :
    in_shard a ∧ a.serverlists_start = b.serverlists_start ∧
      a.serverlists_end = b.serverlists_end :=
  in_shard_of_step (shard_step_of_same h) hb

theorem connect_to_service_shard (env : host_env) (st : poller_state)
    (socket : List recv_event) (sends : List send_event) (h : in_shard st.sc) :
    in_shard (connect_to_service env st socket sends).1.sc ∧
      (connect_to_service env st socket sends).1.sc.serverlists_start =
        st.sc.serverlists_start ∧
      (connect_to_service env st socket sends).1.sc.serverlists_end =
        st.sc.serverlists_end := by
  have hread := in_shard_of_step
    (shard_step_same (run_read_handler_shard env
      (with_sc st (fun sc => { sc with start_time_set := true })) socket)
      (⟨rfl, rfl, rfl⟩ : same_cursor _ st.sc)) h
  unfold connect_to_service
  split
  · exact ⟨h, rfl, rfl⟩
  · split
    · split
      · split
        · have hs := connect_setup_cursor env (-1)
            (run_read_handler env (with_sc st (fun sc => { sc with start_time_set := true }))
              socket).1 sends hread.1.2
          have := in_shard_of_same hs hread.1
          exact ⟨this.1, this.2.1.trans hread.2.1, this.2.2.trans hread.2.2⟩
        · exact hread
      · have hs := connect_setup_cursor env (-1)
          (with_sc st (fun sc => { sc with start_time_set := true })) sends h.2
        exact in_shard_of_same (same_cursor_trans hs ⟨rfl, rfl, rfl⟩) h
    · split
      · exact ⟨h, rfl, rfl⟩
      · have hs := connect_setup_cursor env env.connect_ret
          (with_sc st (fun sc => { sc with start_time_set := true, connection := true }))
          sends h.2
        exact in_shard_of_same (same_cursor_trans hs ⟨rfl, rfl, rfl⟩) h

/-- C24: every poller that `init_process` creates with a non-empty shard starts with
`serverlists_start <= serverlists_curr < serverlists_end`, and each handler, run in a state
where this holds, returns a state where it holds, with the same shard:
`refresh_timeout_handler`, `send_to_service`, `recv_from_service`, `connect_to_service` and
`idle_conn_read_handler`. -/
theorem cursor_in_shard (env : host_env) :
    (∀ n c i : Nat, i < c →
        ((init_process env n c).getD i default).serverlists_start <
          ((init_process env n c).getD i default).serverlists_end →
        in_shard ((init_process env n c).getD i default)) ∧
      (∀ st : poller_state, in_shard st.sc →
        in_shard (refresh_timeout_handler env st).sc ∧
          (refresh_timeout_handler env st).sc.serverlists_start = st.sc.serverlists_start ∧
          (refresh_timeout_handler env st).sc.serverlists_end = st.sc.serverlists_end) ∧
      (∀ (st : poller_state) (sends : List send_event), in_shard st.sc →
        in_shard (send_to_service env st sends).1.sc ∧
          (send_to_service env st sends).1.sc.serverlists_start = st.sc.serverlists_start ∧
          (send_to_service env st sends).1.sc.serverlists_end = st.sc.serverlists_end) ∧
      (∀ (st : poller_state) (socket : List recv_event), in_shard st.sc →
        in_shard (recv_from_service env st socket).1.sc ∧
          (recv_from_service env st socket).1.sc.serverlists_start =
            st.sc.serverlists_start ∧
          (recv_from_service env st socket).1.sc.serverlists_end = st.sc.serverlists_end) ∧
      (∀ (st : poller_state) (socket : List recv_event) (sends : List send_event),
        in_shard st.sc →
        in_shard (connect_to_service env st socket sends).1.sc ∧
          (connect_to_service env st socket sends).1.sc.serverlists_start =
            st.sc.serverlists_start ∧
          (connect_to_service env st socket sends).1.sc.serverlists_end =
            st.sc.serverlists_end) ∧
      (∀ st : poller_state, in_shard st.sc →
        in_shard (idle_conn_read_handler env st).sc ∧
          (idle_conn_read_handler env st).sc.serverlists_start = st.sc.serverlists_start ∧
          (idle_conn_read_handler env st).sc.serverlists_end = st.sc.serverlists_end) := by
  refine ⟨fun n c i hi h => ?_, fun st h => ?_, fun st sends h => ?_, fun st socket h => ?_,
    fun st socket sends h => ?_, fun st h => ?_⟩
  · have e : (init_process env n c).getD i default = init_service_conn env n c i := by
      simp [init_process, List.getD_eq_getElem?_getD, hi]
    rw [e] at h ⊢
    exact ⟨Nat.le_refl _, h⟩
  · exact in_shard_of_same (refresh_timeout_handler_cursor env st) h
  · exact in_shard_of_same (send_to_service_cursor env st sends h.2) h
  · exact in_shard_of_step (recv_from_service_shard env st socket) h
  · exact connect_to_service_shard env st socket sends h
  · exact in_shard_of_same (idle_conn_read_handler_cursor env st) h

set_option maxRecDepth 100000 in
/-- Witness of C24: the first of two pollers for five groups starts inside its shard, and the
sample poller stays inside its shard when it receives the sample 200 response. -/
theorem cursor_in_shard_witness :
    in_shard ((init_process env_sample 5 2).getD 0 default) ∧
      in_shard sample_state.sc ∧
      in_shard (recv_from_service env_sample sample_state
        [recv_event.data sample_response_200]).1.sc ∧
      in_shard (connect_to_service env_sample sample_state [] []).1.sc :=
  ⟨(cursor_in_shard env_sample).1 5 2 0 (by decide) (by decide),
    ⟨by decide, by decide⟩,
    ((cursor_in_shard env_sample).2.2.2.1 sample_state [recv_event.data sample_response_200]
      ⟨by decide, by decide⟩).1,
    ((cursor_in_shard env_sample).2.2.2.2.1 sample_state [] [] ⟨by decide, by decide⟩).1⟩

/-! ## The handler and its apply step -/

set_option maxRecDepth 100000 in
/-- C27: the sample 200 response (`Last-Modified` at the time 100, no ETag, a body of 20 bytes)
for group 1, which has no servers and no cached validator.  Delivered in one read, or in two
reads within one run of the handler, it leaves the cached time 100.  Delivered to two runs of
the handler, the first of which ends on `NGX_AGAIN` after the header block and 10 bytes of the
body, it leaves the cached time -1: the second run starts with the array `headers` zeroed
and finds neither `Last-Modified` nor `ETag`.  The body is applied in all three. -/
theorem recv_delivery_dependent :
    (sl_at (recv_from_service env_sample sample_state1
        [recv_event.data sample_response_200]).1.serverlists 1).last_modified = 100 ∧
      (sl_at (recv_from_service env_sample sample_state1
        [recv_event.data (sample_response_200.take 95),
         recv_event.data (sample_response_200.drop 95)]).1.serverlists 1).last_modified =
        100 ∧
      (recv_from_service env_sample sample_state1
        [recv_event.data (sample_response_200.take 95),
         recv_event.again]).1.refresh_calls = [] ∧
      (recv_from_service env_sample sample_state1
        [recv_event.data (sample_response_200.take 95),
         recv_event.again]).1.sc.content_length = 20 ∧
      (recv_from_service env_sample sample_state1
        [recv_event.data (sample_response_200.take 95),
         recv_event.again]).1.sc.body_len = 10 ∧
      (sl_at (recv_from_service env_sample
        (recv_from_service env_sample sample_state1
          [recv_event.data (sample_response_200.take 95), recv_event.again]).1
        [recv_event.data (sample_response_200.drop 95)]).1.serverlists 1).last_modified =
        -1 ∧
      (recv_from_service env_sample sample_state1
        [recv_event.data sample_response_200]).1.refresh_calls = [0] ∧
      (recv_from_service env_sample
        (recv_from_service env_sample sample_state1
          [recv_event.data (sample_response_200.take 95), recv_event.again]).1
        [recv_event.data (sample_response_200.drop 95)]).1.refresh_calls = [0] ∧
      (sl_at (recv_from_service env_sample sample_state1
        [recv_event.data sample_response_200]).1.serverlists 1).servers = [srv2] ∧
      (sl_at (recv_from_service env_sample
        (recv_from_service env_sample sample_state1
          [recv_event.data (sample_response_200.take 95), recv_event.again]).1
        [recv_event.data (sample_response_200.drop 95)]).1.serverlists 1).servers =
        [srv2] := by
  decide

/-! ## Facts about the handler with memory -/

theorem grp_update_length (f : live_group → live_group) (l : List live_group) (i : Nat) :
    (grp_update f l i).length = l.length := by
  induction l generalizing i with
  | nil => rfl
  | cons a rest ih =>
    cases i with
    | zero => rfl
    | succ n => simp [grp_update, ih]

theorem grp_at_update (f : live_group → live_group) (l : List live_group) (i j : Nat) :
    grp_at (grp_update f l i) j =
      if j = i ∧ i < l.length then f (grp_at l i) else grp_at l j := by
  induction l generalizing i j with
  | nil => simp [grp_update, grp_at]
  | cons a rest ih =>
    cases i with
    | zero =>
      cases j with
      | zero => simp [grp_update, grp_at]
      | succ m => simp [grp_update, grp_at]
    | succ n =>
      cases j with
      | zero => simp [grp_update, grp_at]
      | succ m =>
        have := ih n m
        simp only [grp_at, grp_update, List.getD_cons_succ, List.length_cons] at this ⊢
        rw [this]
        simp

/-- A write to a group that keeps a field keeps it in every group. -/
theorem grp_at_update_keep {α : Type} (p : live_group → α) (f : live_group → live_group)
    (hf : ∀ g, p (f g) = p g) (l : List live_group) (i j : Nat) :
    p (grp_at (grp_update f l i) j) = p (grp_at l j) := by
  rw [grp_at_update]
  split
  · rename_i h
    rw [hf, h.1]
  · rfl

theorem exit_step_recv_size (env : host_env) (st : poller_state) :
    (exit_step env st).sc.recv_size = st.sc.recv_size := by
  unfold exit_step
  split <;> split <;> rfl

theorem after_recv_frame (m : mem_state) (sc : service_conn) :
    (after_recv m sc).groups = m.groups ∧ (after_recv m sc).sc = sc ∧
      (after_recv m sc).pool_builds = m.pool_builds ∧
      (after_recv m sc).snapshots = m.snapshots ∧
      (after_recv m sc).refresh_calls = m.refresh_calls := by
  unfold after_recv
  split <;> exact ⟨rfl, rfl, rfl, rfl, rfl⟩

/-- When line 1160 reports no change, `refresh_upstream` returns -1 and leaves the state as it
is, if it returns. -/
theorem refresh_upstream_mem_unchanged (h : mem_host) (t : mem_state) (i : Nat) (r : Int)
    (t1 : mem_state) (hun : reports_unchanged h t i)
    (hr : refresh_upstream_mem h t i = some (r, t1)) : r = -1 ∧ t1 = t := by
  unfold reports_unchanged at hun
  unfold refresh_upstream_mem at hr
  split at hr
  · split at hr
    · exact absurd hr (by simp)
    · simp only [Option.some.injEq, Prod.mk.injEq] at hr
      exact ⟨hr.1.symm, hr.2.symm⟩
  · split at hr
    · exact absurd hr (by simp)
    · split at hr
      · simp only [Option.some.injEq, Prod.mk.injEq] at hr
        exact ⟨hr.1.symm, hr.2.symm⟩
      · simp only [Option.some.injEq, Prod.mk.injEq] at hr
        exact ⟨hr.1.symm, hr.2.symm⟩

/-- A write to a group that keeps its server array keeps what line 1160 reports. -/
theorem reports_unchanged_with_grp (h : mem_host) (t : mem_state) (i : Nat)
    (f : live_group → live_group) (hf : ∀ g, (f g).servers = g.servers)
    (hun : reports_unchanged h t i) : reports_unchanged h (with_grp t i f) i := by
  unfold reports_unchanged at hun ⊢
  have e : read_servers (with_grp t i f) (grp_at (with_grp t i f).groups i) =
      read_servers t (grp_at t.groups i) := by
    unfold read_servers with_grp
    simp only []
    rw [grp_at_update_keep (fun g => g.servers) f hf]
  rw [e]
  exact hun

/-- What the handler leaves when `refresh_upstream` was called and line 1160 reported no
change. -/
theorem call_refresh_mem_unchanged (h : mem_host) (i : Nat) (t m1 : mem_state)
    (hi : i < t.groups.length) (hun : reports_unchanged h t i)
    (hr : call_refresh_mem h i t = some m1) :
    m1.refresh_calls = t.refresh_calls ++ [-1] ∧ m1.pool_builds = t.pool_builds ∧
      m1.snapshots = t.snapshots ∧
      (∀ j, (grp_at m1.groups j).servers = (grp_at t.groups j).servers) ∧
      m1.recv_mem = t.recv_mem ∧ m1.old_mem = t.old_mem ∧
      (grp_at m1.groups i).etag = [] ∧ (grp_at m1.groups i).last_modified = -1 ∧
      (grp_at m1.groups i).name = (grp_at t.groups i).name ∧
      m1.sc.recv_size = t.sc.recv_size := by
  unfold call_refresh_mem at hr
  cases hc : refresh_upstream_mem h t i with
  | none => rw [hc] at hr; exact absurd hr (by simp)
  | some p =>
    obtain ⟨r, t1⟩ := p
    rw [hc] at hr
    obtain ⟨hr1, ht1⟩ := refresh_upstream_mem_unchanged h t i r t1 hun hc
    subst hr1 ht1
    simp only [Option.some.injEq] at hr
    subst hr
    have hneg : ((-1 : Int) < 0) := by decide
    unfold after_refresh_mem
    rw [if_pos hneg]
    unfold on_sc with_grp
    simp only []
    refine ⟨trivial, trivial, trivial, ?_, trivial, trivial, ?_, ?_, ?_, ?_⟩
    · intro j
      rw [grp_at_update]
      split
      · rename_i hj
        rw [hj.1]
      · rfl
    · rw [grp_at_update, if_pos ⟨rfl, hi⟩]
    · rw [grp_at_update, if_pos ⟨rfl, hi⟩]
    · rw [grp_at_update, if_pos ⟨rfl, hi⟩]
    · exact exit_step_recv_size _ _

theorem grp_update_comp (f g : live_group → live_group) (l : List live_group) (i : Nat) :
    grp_update g (grp_update f l i) i = grp_update (fun x => g (f x)) l i := by
  induction l generalizing i with
  | nil => rfl
  | cons a rest ih =>
    cases i with
    | zero => rfl
    | succ n =>
      simp only [grp_update]
      rw [ih]

theorem call_refresh_mem_with_grp (h : mem_host) (i : Nat) (t m1 : mem_state)
    (f : live_group → live_group)
    (hf : ∀ g, (f g).servers = g.servers ∧ (f g).name = g.name)
    (hi : i < t.groups.length) (hun : reports_unchanged h t i)
    (hr : call_refresh_mem h i (with_grp t i f) = some m1) :
    m1.refresh_calls = t.refresh_calls ++ [-1] ∧ m1.pool_builds = t.pool_builds ∧
      m1.snapshots = t.snapshots ∧
      (∀ j, (grp_at m1.groups j).servers = (grp_at t.groups j).servers) ∧
      m1.recv_mem = t.recv_mem ∧ m1.old_mem = t.old_mem ∧
      (grp_at m1.groups i).etag = [] ∧ (grp_at m1.groups i).last_modified = -1 ∧
      (grp_at m1.groups i).name = (grp_at t.groups i).name ∧
      m1.sc.recv_size = t.sc.recv_size := by
  have hi2 : i < (with_grp t i f).groups.length := by
    unfold with_grp
    simp only []
    rw [grp_update_length]
    exact hi
  have k := call_refresh_mem_unchanged h i (with_grp t i f) m1 hi2
    (reports_unchanged_with_grp h t i f (fun g => (hf g).1) hun) hr
  refine ⟨k.1, k.2.1, k.2.2.1, ?_, k.2.2.2.2.1, k.2.2.2.2.2.1, k.2.2.2.2.2.2.1,
    k.2.2.2.2.2.2.2.1, ?_, k.2.2.2.2.2.2.2.2.2⟩
  · intro j
    rw [k.2.2.2.1 j]
    exact grp_at_update_keep (fun g => g.servers) f (fun g => (hf g).1) _ _ _
  · rw [k.2.2.2.2.2.2.2.2.1]
    exact grp_at_update_keep (fun g => g.name) f (fun g => (hf g).2) _ _ _

theorem apply_last_modified_mem_unchanged (h : mem_host) (i : Nat) (etag : List Nat)
    (lm : Int) (t m1 : mem_state) (f : live_group → live_group)
    (hf : ∀ g, (f g).servers = g.servers ∧ (f g).name = g.name)
    (hi : i < t.groups.length) (hun : reports_unchanged h t i)
    (hr : apply_last_modified_mem h i etag lm (with_grp t i f) = some m1)
    (hcall : m1.refresh_calls ≠ t.refresh_calls) :
    m1.refresh_calls = t.refresh_calls ++ [-1] ∧ m1.pool_builds = t.pool_builds ∧
      m1.snapshots = t.snapshots ∧
      (∀ j, (grp_at m1.groups j).servers = (grp_at t.groups j).servers) ∧
      m1.recv_mem = t.recv_mem ∧ m1.old_mem = t.old_mem ∧
      (grp_at m1.groups i).etag = [] ∧ (grp_at m1.groups i).last_modified = -1 ∧
      (grp_at m1.groups i).name = (grp_at t.groups i).name ∧
      m1.sc.recv_size = t.sc.recv_size := by
  have e : ∀ g : live_group → live_group,
      with_grp (with_grp t i f) i g = with_grp t i (fun x => g (f x)) := by
    intro g
    unfold with_grp
    simp only []
    rw [grp_update_comp]
  unfold apply_last_modified_mem at hr
  split at hr
  · split at hr
    · rw [e] at hr
      refine call_refresh_mem_with_grp h i t m1 _ ?_ hi hun hr
      intro g
      exact hf g
    · split at hr
      · simp only [Option.some.injEq] at hr
        subst hr
        exact absurd rfl hcall
      · exact call_refresh_mem_with_grp h i t m1 f hf hi hun hr
  · rw [e] at hr
    refine call_refresh_mem_with_grp h i t m1 _ ?_ hi hun hr
    intro g
    exact hf g

theorem apply_step_mem_unchanged (h : mem_host) (i : Nat) (locals : recv_locals)
    (t m1 : mem_state) (hi : i < t.groups.length) (hun : reports_unchanged h t i)
    (hr : apply_step_mem h i locals t = some m1)
    (hcall : m1.refresh_calls ≠ t.refresh_calls) :
    m1.refresh_calls = t.refresh_calls ++ [-1] ∧ m1.pool_builds = t.pool_builds ∧
      m1.snapshots = t.snapshots ∧
      (∀ j, (grp_at m1.groups j).servers = (grp_at t.groups j).servers) ∧
      m1.recv_mem = t.recv_mem ∧ m1.old_mem = t.old_mem ∧
      (grp_at m1.groups i).etag = [] ∧ (grp_at m1.groups i).last_modified = -1 ∧
      (grp_at m1.groups i).name = (grp_at t.groups i).name ∧
      m1.sc.recv_size = t.sc.recv_size := by
  unfold apply_step_mem at hr
  split at hr
  · simp only [Option.some.injEq] at hr
    subst hr
    exact absurd rfl hcall
  · split at hr
    · split at hr
      · exact absurd hr (by simp)
      · split at hr
        · split at hr
          · simp only [Option.some.injEq] at hr
            subst hr
            exact absurd rfl hcall
          · refine apply_last_modified_mem_unchanged h i _ _ t m1 _ ?_ hi hun hr hcall
            intro g
            exact ⟨rfl, rfl⟩
        · simp only [Option.some.injEq] at hr
          subst hr
          exact absurd rfl hcall
    · split at hr
      · refine apply_last_modified_mem_unchanged h i _ _ t m1 _ ?_ hi hun hr hcall
        intro g
        exact ⟨rfl, rfl⟩
      · refine apply_last_modified_mem_unchanged h i _ _ t m1 _ ?_ hi hun hr hcall
        intro g
        exact ⟨rfl, rfl⟩

theorem read_mem_nothing (mem : List Nat) (off : Nat) : read_mem mem off 0 = [] := by
  simp [read_mem]

/-- The request for a group without cached validators. -/
theorem build_request_mem_plain (h : mem_host) (g : live_group) (he : g.etag = [])
    (hl : g.last_modified = -1) :
    build_request_mem h g =
      some (((lit_get ++ h.env.service_url_uri ++
            (if h.env.service_url_uri.getLast? = some 47 then [] else [47]) ++
            g.name ++ lit_http11) ++
          (if h.env.service_url_unix then lit_host_localhost
           else lit_host ++ h.env.service_url_host ++ lit_crlf) ++
          lit_connection_keep_alive).take MAX_HTTP_REQUEST_SIZE) := by
  unfold build_request_mem
  rw [he]
  simp only [List.length_nil, gt_iff_lt, Nat.lt_irrefl, decide_False, Bool.false_and,
    Bool.false_eq_true, if_false]
  rw [build_request_take]
  unfold request_text request_head group_view
  simp only [he, hl, List.length_nil, read_mem_nothing]
  simp

/-- The handler with memory reaches the apply step when the process is not exiting and the
receive loop is left by `break`. -/
theorem recv_from_service_mem_apply (h : mem_host) (m : mem_state) (socket : List recv_event)
    (hx : h.env.exiting = false)
    (hout : (recv_loop h.env (socket_size socket + 1) m.sc recv_locals_init socket).1 =
      loop_exit.to_apply) :
    recv_from_service_mem h m socket =
      (apply_step_mem h m.sc.serverlists_curr
        (recv_loop h.env (socket_size socket + 1) m.sc recv_locals_init socket).2.2.1
        (after_recv m
          (recv_loop h.env (socket_size socket + 1) m.sc recv_locals_init socket).2.1)).map
        (fun m1 => (m1,
          (recv_loop h.env (socket_size socket + 1) m.sc recv_locals_init socket).2.2.2)) := by
  unfold recv_from_service_mem
  rw [hx]
  simp only [Bool.false_eq_true, if_false]
  rcases hl : recv_loop h.env (socket_size socket + 1) m.sc recv_locals_init socket with
    ⟨e, sc, locals, rest⟩
  rw [hl] at hout
  simp only at hout
  subst hout
  rfl

/-- Every other way through the handler with memory returns and calls nothing. -/
theorem recv_from_service_mem_no_apply (h : mem_host) (m : mem_state)
    (socket : List recv_event)
    (hno : h.env.exiting = true ∨
      (recv_loop h.env (socket_size socket + 1) m.sc recv_locals_init socket).1 ≠
        loop_exit.to_apply) :
    ∃ m1 rest, recv_from_service_mem h m socket = some (m1, rest) ∧
      m1.groups = m.groups ∧ m1.refresh_calls = m.refresh_calls ∧
      m1.pool_builds = m.pool_builds ∧ m1.snapshots = m.snapshots := by
  unfold recv_from_service_mem
  by_cases hx : h.env.exiting = true
  · rw [if_pos hx]
    exact ⟨_, _, rfl, rfl, rfl, rfl, rfl⟩
  · rw [if_neg hx]
    have hout := hno.resolve_left hx
    rcases hl : recv_loop h.env (socket_size socket + 1) m.sc recv_locals_init socket with
      ⟨e, sc, locals, rest⟩
    rw [hl] at hout
    simp only at hout
    cases e with
    | to_apply => exact absurd rfl hout
    | to_exit =>
      refine ⟨_, _, rfl, ?_⟩
      exact ⟨(after_recv_frame m sc).1, (after_recv_frame m sc).2.2.2.2,
        (after_recv_frame m sc).2.2.1, (after_recv_frame m sc).2.2.2.1⟩
    | to_close_connection =>
      refine ⟨_, _, rfl, ?_⟩
      exact ⟨(after_recv_frame m sc).1, (after_recv_frame m sc).2.2.2.2,
        (after_recv_frame m sc).2.2.1, (after_recv_frame m sc).2.2.2.1⟩
    | peer_closed =>
      refine ⟨_, _, rfl, ?_⟩
      exact ⟨(after_recv_frame m _).1, (after_recv_frame m _).2.2.2.2,
        (after_recv_frame m _).2.2.1, (after_recv_frame m _).2.2.2.1⟩
    | try_again =>
      refine ⟨_, _, rfl, ?_⟩
      exact ⟨(after_recv_frame m sc).1, (after_recv_frame m sc).2.2.2.2,
        (after_recv_frame m sc).2.2.1, (after_recv_frame m sc).2.2.2.1⟩

/-- When line 1160 reports no change, no allocation of lines 1078-1133 is used unchecked and
the body is there, `refresh_upstream` returns -1 and leaves the state as it is. -/
theorem refresh_upstream_mem_returns (h : mem_host) (t : mem_state) (i : Nat)
    (hun : reports_unchanged h t i)
    (ha : h.env.conf_alloc_ok = true ∨ h.conf_alloc_crash = false)
    (hb : t.sc.body_data.isSome = true ∨ t.sc.body_len = 0) :
    refresh_upstream_mem h t i = some (-1, t) := by
  unfold reports_unchanged at hun
  unfold refresh_upstream_mem
  split
  · rename_i hna
    rcases ha with ha | ha
    · rw [ha] at hna
      exact absurd hna (by simp)
    · rw [ha]
      rfl
  · have hb2 : (t.sc.body_data.isNone && decide (0 < t.sc.body_len)) = false := by
      rcases hb with hb | hb
      · cases hbd : t.sc.body_data with
        | none => rw [hbd] at hb; exact absurd hb (by simp)
        | some off => rfl
      · rw [hb]
        simp
    rw [hb2]
    simp only [Bool.false_eq_true, if_false]
    split
    · rfl
    · rfl

theorem call_refresh_mem_returns (h : mem_host) (i : Nat) (t : mem_state)
    (f : live_group → live_group) (hf : ∀ g, (f g).servers = g.servers)
    (hun : reports_unchanged h t i)
    (ha : h.env.conf_alloc_ok = true ∨ h.conf_alloc_crash = false)
    (hb : t.sc.body_data.isSome = true ∨ t.sc.body_len = 0) :
    ∃ m1, call_refresh_mem h i (with_grp t i f) = some m1 := by
  unfold call_refresh_mem
  rw [refresh_upstream_mem_returns h (with_grp t i f) i
    (reports_unchanged_with_grp h t i f hf hun) ha hb]
  exact ⟨_, rfl⟩

theorem apply_last_modified_mem_returns (h : mem_host) (i : Nat) (etag : List Nat)
    (lm : Int) (t : mem_state) (f : live_group → live_group)
    (hf : ∀ g, (f g).servers = g.servers)
    (hun : reports_unchanged h t i)
    (ha : h.env.conf_alloc_ok = true ∨ h.conf_alloc_crash = false)
    (hb : t.sc.body_data.isSome = true ∨ t.sc.body_len = 0) :
    ∃ m1, apply_last_modified_mem h i etag lm (with_grp t i f) = some m1 := by
  have e : ∀ g : live_group → live_group,
      with_grp (with_grp t i f) i g = with_grp t i (fun x => g (f x)) := by
    intro g
    unfold with_grp
    simp only []
    rw [grp_update_comp]
  unfold apply_last_modified_mem
  split
  · split
    · rw [e]
      refine call_refresh_mem_returns h i t _ ?_ hun ha hb
      intro g
      exact hf g
    · split
      · exact ⟨_, rfl⟩
      · exact call_refresh_mem_returns h i t f hf hun ha hb
  · rw [e]
    refine call_refresh_mem_returns h i t _ ?_ hun ha hb
    intro g
    exact hf g

theorem apply_step_mem_returns (h : mem_host) (i : Nat) (locals : recv_locals)
    (t : mem_state) (hun : reports_unchanged h t i)
    (ha : h.env.conf_alloc_ok = true ∨ h.conf_alloc_crash = false)
    (hb : t.sc.body_data.isSome = true ∨ t.sc.body_len = 0)
    (hc : (grp_at t.groups i).etag_null = false ∨ (grp_at t.groups i).etag = [] ∨
      get_etag locals.headers locals.num_headers = []) :
    ∃ m1, apply_step_mem h i locals t = some m1 := by
  unfold apply_step_mem
  split
  · exact ⟨_, rfl⟩
  · split
    · rename_i hlen
      have hc2 : (decide ((grp_at t.groups i).etag.length > 0) &&
          (grp_at t.groups i).etag_null) = false := by
        rcases hc with hc | hc | hc
        · rw [hc]
          simp
        · rw [hc]
          simp
        · rw [hc] at hlen
          exact absurd hlen (by simp)
      rw [hc2]
      simp only [Bool.false_eq_true, if_false]
      split
      · split
        · exact ⟨_, rfl⟩
        · refine apply_last_modified_mem_returns h i _ _ t _ ?_ hun ha hb
          intro g; rfl
      · exact ⟨_, rfl⟩
    · split
      · refine apply_last_modified_mem_returns h i _ _ t _ ?_ hun ha hb
        intro g; rfl
      · refine apply_last_modified_mem_returns h i _ _ t _ ?_ hun ha hb
        intro g; rfl

/-! ## The claims on the handler with memory -/

/-- C28: let line 1160 report the array parsed from the body as unchanged against the live
array of the group under the cursor, both read through their pointers in the buffer as the
receive loop left it, and let nothing end the process before that line (no allocation of lines
1078-1133 is used unchecked, `sc->body.data` is set, and line 1537 does not read through
`NULL`).  Then `recv_from_service` returns, and when it has called `refresh_upstream`, the
call returned -1,
no pool was built and no snapshot written, the server array of every group holds the records
and the pointers it held and reads as it did when the receive loop ended, both validators of
the group are reset (etag empty, last_modified -1), and the request that `send_to_service`
builds for the group afterwards is the request line, the `Host` line and
`Connection: Keep-Alive`, with neither `If-Modified-Since` nor `If-None-Match`. -/
theorem recv_from_service_mem_unchanged (h : mem_host) (m : mem_state)
    (socket : List recv_event) (hi : m.sc.serverlists_curr < m.groups.length)
    (hun : reports_unchanged h
      (after_recv m
        (recv_loop h.env (socket_size socket + 1) m.sc recv_locals_init socket).2.1)
      m.sc.serverlists_curr)
    (ha : h.env.conf_alloc_ok = true ∨ h.conf_alloc_crash = false)
    (hb : (recv_loop h.env (socket_size socket + 1) m.sc recv_locals_init
        socket).2.1.body_data.isSome = true ∨
      (recv_loop h.env (socket_size socket + 1) m.sc recv_locals_init
        socket).2.1.body_len = 0)
    (hc : (grp_at m.groups m.sc.serverlists_curr).etag_null = false ∨
      (grp_at m.groups m.sc.serverlists_curr).etag = [] ∨
      get_etag
        (recv_loop h.env (socket_size socket + 1) m.sc recv_locals_init
          socket).2.2.1.headers
        (recv_loop h.env (socket_size socket + 1) m.sc recv_locals_init
          socket).2.2.1.num_headers = []) :
    ∃ m1 rest, recv_from_service_mem h m socket = some (m1, rest) ∧
      (m1.refresh_calls = m.refresh_calls ∨
        (m1.refresh_calls = m.refresh_calls ++ [-1] ∧ m1.pool_builds = m.pool_builds ∧
          m1.snapshots = m.snapshots ∧
          (∀ j, (grp_at m1.groups j).servers = (grp_at m.groups j).servers) ∧
          (∀ j, read_servers m1 (grp_at m1.groups j) =
            read_servers
              (after_recv m
                (recv_loop h.env (socket_size socket + 1) m.sc recv_locals_init socket).2.1)
              (grp_at m.groups j)) ∧
          (grp_at m1.groups m.sc.serverlists_curr).etag = [] ∧
          (grp_at m1.groups m.sc.serverlists_curr).last_modified = -1 ∧
          build_request_mem h (grp_at m1.groups m.sc.serverlists_curr) =
            some (((lit_get ++ h.env.service_url_uri ++
                (if h.env.service_url_uri.getLast? = some 47 then [] else [47]) ++
                (grp_at m.groups m.sc.serverlists_curr).name ++ lit_http11) ++
              (if h.env.service_url_unix then lit_host_localhost
               else lit_host ++ h.env.service_url_host ++ lit_crlf) ++
              lit_connection_keep_alive).take MAX_HTTP_REQUEST_SIZE))) := by
  by_cases hout : h.env.exiting = false ∧
      (recv_loop h.env (socket_size socket + 1) m.sc recv_locals_init socket).1 =
        loop_exit.to_apply
  · rw [recv_from_service_mem_apply h m socket hout.1 hout.2]
    have hf := after_recv_frame m
      (recv_loop h.env (socket_size socket + 1) m.sc recv_locals_init socket).2.1
    obtain ⟨m2, hm2⟩ := apply_step_mem_returns h m.sc.serverlists_curr
      (recv_loop h.env (socket_size socket + 1) m.sc recv_locals_init socket).2.2.1
      (after_recv m
        (recv_loop h.env (socket_size socket + 1) m.sc recv_locals_init socket).2.1)
      hun ha (by rw [hf.2.1]; exact hb) (by rw [hf.1]; exact hc)
    rw [hm2]
    refine ⟨m2, _, rfl, ?_⟩
    by_cases hcall : m2.refresh_calls = m.refresh_calls
    · exact Or.inl hcall
    · have k := apply_step_mem_unchanged h m.sc.serverlists_curr _ _ m2
        (by rw [hf.1]; exact hi) hun hm2 (by rw [hf.2.2.2.2]; exact hcall)
      rw [hf.1, hf.2.2.1, hf.2.2.2.1, hf.2.2.2.2] at k
      refine Or.inr
        ⟨k.1, k.2.1, k.2.2.1, k.2.2.2.1, ?_, k.2.2.2.2.2.2.1, k.2.2.2.2.2.2.2.1, ?_⟩
      · intro j
        unfold read_servers
        rw [k.2.2.2.1 j, k.2.2.2.2.1, k.2.2.2.2.2.1, k.2.2.2.2.2.2.2.2.2]
      · rw [build_request_mem_plain h _ k.2.2.2.2.2.2.1 k.2.2.2.2.2.2.2.1,
          k.2.2.2.2.2.2.2.2.1]
  · obtain ⟨m2, rest2, hr, -, hc2, -, -⟩ := recv_from_service_mem_no_apply h m socket (by
      by_cases hx : h.env.exiting = true
      · exact Or.inl hx
      · refine Or.inr (fun hh => hout ⟨?_, hh⟩)
        simpa using hx)
    exact ⟨m2, rest2, hr, Or.inl hc2⟩

set_option maxRecDepth 100000 in
/-- Witness of C28: group 0 has the record of 10.0.0.2:80 as its live set, with the name at the
offset 92 of the buffer, and no cached validator; the sample 200 response arrives, so that
the name reads as before; `refresh_upstream` is called and returns -1, and the handler
returns with the validators of the group reset. -/
theorem recv_from_service_mem_unchanged_witness :
    reports_unchanged host_sample
        (after_recv mem_round2_reset
          (recv_loop host_sample.env (socket_size [recv_event.data sample_response_200] + 1)
            mem_round2_reset.sc recv_locals_init
            [recv_event.data sample_response_200]).2.1)
        mem_round2_reset.sc.serverlists_curr ∧
      recv_from_service_mem host_sample mem_round2_reset
        [recv_event.data sample_response_200] = some (mem_reset_done, []) ∧
      mem_reset_done.refresh_calls = mem_round2_reset.refresh_calls ++ [-1] ∧
      ∃ m1 rest, recv_from_service_mem host_sample mem_round2_reset
          [recv_event.data sample_response_200] = some (m1, rest) ∧
        (m1.refresh_calls = mem_round2_reset.refresh_calls ∨
          (m1.refresh_calls = mem_round2_reset.refresh_calls ++ [-1] ∧
            (grp_at m1.groups mem_round2_reset.sc.serverlists_curr).etag = [] ∧
            (grp_at m1.groups mem_round2_reset.sc.serverlists_curr).last_modified = -1)) :=
  ⟨by unfold reports_unchanged; decide, by decide, by decide,
    (recv_from_service_mem_unchanged host_sample mem_round2_reset
      [recv_event.data sample_response_200] (by decide)
      (by unfold reports_unchanged; decide) (Or.inl rfl) (Or.inl (by decide))
      (Or.inr (Or.inl rfl))).imp (fun _ hm => hm.imp (fun _ hr => ⟨hr.1, hr.2.imp id
        (fun k => ⟨k.1, k.2.2.2.2.2.1, k.2.2.2.2.2.2.1⟩)⟩))⟩

set_option maxRecDepth 100000 in
/-- C8: the body `server 10.0.0.1:80 dow` ends inside the token `dow`, and the byte behind it
in the receive buffer is `n`, left there by an earlier response.  `ngx_strncmp(curr_arg.data,
"down", 4)` reads that byte, so `get_servers` marks the record as down.  With a newline
appended to the same body the byte behind the token is the newline, and the record is not
marked; the empty rest gives no record.  So `get_servers` of `b1`, a newline and `b2` is not
`get_servers(b1)` followed by `get_servers(b2)` for this `b1` and the empty `b2`. -/
theorem get_servers_mem_stale_byte :
    (get_servers_mem host_sample.ngx_parse_url_at 1024 85 body_dow [110]).map
        (fun s => s.server) = [{ srv1 with down := 1 }] ∧
      (get_servers_mem host_sample.ngx_parse_url_at 1024 85 (body_dow ++ [10]) [110]).map
        (fun s => s.server) = [srv1] ∧
      get_servers_mem host_sample.ngx_parse_url_at 1024 (85 + body_dow.length + 1) [] [110] =
        [] := by
  decide

set_option maxRecDepth 100000 in
/-- C13: the poller on group 0 has applied the sample 200 response, which leaves the state
`mem_round2` for the next round: the live record of group 0 has its name at the offset 92 of
the receive buffer and reads as 10.0.0.2:80.  In the next round a 304 response of 118 bytes
arrives.  `refresh_upstream` is not called, no snapshot is written, the cached time stays, the
cursor goes back to the start of the shard and the server array holds the same record and
pointer; but `c->recv` has
written the response over the name, and the live record now reads as the name
`xxxxxxxxxxx`. -/
theorem recv_from_service_mem_304_name :
    (recv_from_service_mem host_304_long mem_start
        [recv_event.data sample_response_200]).map
        (fun r => { r.1 with sc := mem_start.sc }) = some mem_round2 ∧
      read_servers mem_round2 (grp_at mem_round2.groups 0) = [srv2] ∧
      (recv_from_service_mem host_304_long mem_round2
        [recv_event.data sample_head_304_long]).map
        (fun r => (r.1.refresh_calls, r.1.snapshots.length, r.1.sc.serverlists_curr,
          (grp_at r.1.groups 0).servers, read_servers r.1 (grp_at r.1.groups 0))) =
        some ([0], 1, 0, [{ server := srv2, name_data := some (1024, 92) }],
          [{ srv2 with name := List.replicate 11 120 }]) ∧
      (recv_from_service_mem host_304_long mem_round2
        [recv_event.data sample_head_304_long]).map
        (fun r => ((grp_at r.1.groups 0).last_modified, (grp_at r.1.groups 0).etag)) =
        some (100, []) := by
  decide

set_option maxRecDepth 100000 in
/-- C21: group 0 has the cached ETag `"v0"`, with `etag.data` set; the 200 response with
`ETag: "V1"` arrives and `ngx_pstrdup` fails.  On return `refresh_upstream` has not been
called, the connection is closed, and the cached etag has its length of 4 bytes with
`etag.data` `NULL`: it is non-empty and differs from its value before the call. -/
theorem recv_from_service_mem_pstrdup_fails :
    (grp_at mem_etag_v0.groups 0).etag_null = false ∧
      (recv_from_service_mem host_pstrdup_fails mem_etag_v0
        [recv_event.data sample_response_etag]).map
        (fun r => (r.1.refresh_calls, (grp_at r.1.groups 0).etag,
          (grp_at r.1.groups 0).etag_null, r.1.sc.connection)) =
        some ([], [34, 118, 48, 34], true, false) := by
  decide

end Serverlist
